import Mathlib

/-! # map-script: sovereignty filter, identity normaliser and geometry summariser

A shallow embedding of the pure core of `src/map-script/worldDataFetcher.js` and
`src/map-script/correctedWorldData.js`, followed by theorems about it.

Modelling conventions.

* A JavaScript value is a `JsVal`.  Documents come from `JSON.parse`, so the values are
  `null`, booleans, numbers, strings, arrays and objects; `undefined` is the result of reading
  an absent property, and `proto k` is the value inherited from `Object.prototype` under the
  member name `k` (an object literal used as a lookup table answers with it for keys such as
  `constructor`).
* Numbers are exact rationals: `NaN` and the infinities are not represented, and a numeric
  result that is not a rational of the model is `none` in `JsNum`.  The arithmetic of
  `calculateGeoInfo` and `calculateCenter` is exact; `calculateGeoInfoWith roundDouble` is the
  same computation with the binary64 rounding of the engine.
* Exhaustion of the call stack (a `RangeError` on a very long argument list or a very deep
  recursion) is not represented.
* A thrown `TypeError` is `Except.error`.
* Console output and file writes are not part of the embedding.
-/

/-! ## JavaScript values -/

/-- A JavaScript value as the program can meet it. -/
inductive JsVal where
  | undefined
  | null
  | bool (b : Bool)
  | num (q : ℚ)
  | str (s : String)
  | arr (items : List JsVal)
  | obj (fields : List (String × JsVal))
  | proto (key : String)

/-- Errors thrown by the JavaScript runtime. -/
inductive JsError where
  | typeError (msg : String)
  | error (msg : String)

/-- A number of the model, `none` standing for a result that is not an exact rational
(`NaN`, an infinity, or the outcome of an implicit coercion of a non-number). -/
abbrev JsNum := Option ℚ

/-- Own-property lookup in a parsed object or an object literal: with a repeated key the
last occurrence wins, as in JavaScript. -/
def lookupLast {α : Type} : List (String × α) → String → Option α
  | [], _ => none
  | (k', v) :: rest, k =>
    match lookupLast rest k with
    | some w => some w
    | none => if k' = k then some v else none

/-- Member names of `Object.prototype`. -/
def objectProtoKeys : List String :=
  ["constructor", "__defineGetter__", "__defineSetter__", "hasOwnProperty",
   "__lookupGetter__", "__lookupSetter__", "isPrototypeOf", "propertyIsEnumerable",
   "toString", "valueOf", "__proto__", "toLocaleString"]

/-- The `length` of the function stored under a member name of `Object.prototype`
(`__proto__` yields `Object.prototype` itself, which has no `length`). -/
def protoArity (k : String) : Option ℕ :=
  if k = "__defineGetter__" ∨ k = "__defineSetter__" then some 2
  else if k = "constructor" ∨ k = "hasOwnProperty" ∨ k = "__lookupGetter__" ∨
      k = "__lookupSetter__" ∨ k = "isPrototypeOf" ∨ k = "propertyIsEnumerable" then some 1
  else if k = "toString" ∨ k = "valueOf" ∨ k = "toLocaleString" then some 0
  else none

/-- The `length` of a JavaScript string, counted in UTF-16 code units. -/
def utf16Length (s : String) : ℕ :=
  s.data.foldl (fun n c => n + (if 65536 ≤ c.val.toNat then 2 else 1)) 0

namespace JsVal

/-- The result of `ToBoolean`. -/
def truthy : JsVal → Bool
  | undefined => false
  | null => false
  | bool b => b
  | num q => decide (q ≠ 0)
  | str s => decide (s ≠ "")
  | arr _ => true
  | obj _ => true
  | proto _ => true

/-- The test `typeof v === 'number'`. -/
def isNumber : JsVal → Bool
  | num _ => true
  | _ => false

/-- The test `Array.isArray(v)`. -/
def isArray : JsVal → Bool
  | arr _ => true
  | _ => false

/-- The test `v === s` against a string literal. -/
def isStr : JsVal → String → Bool
  | str t, s => decide (t = s)
  | _, _ => false

/-- The test `v === n` against a number literal. -/
def isNum : JsVal → ℚ → Bool
  | num q, n => decide (q = n)
  | _, _ => false

/-- The expression `a || b`. -/
def or (a b : JsVal) : JsVal := if a.truthy then a else b

/-- The expression `a && b`. -/
def and (a b : JsVal) : JsVal := if a.truthy then b else a

/-- The value of `v.k` for a fixed property name `k` read by the program, on a value that is
neither `undefined` nor `null`: an own property of an object (or a member inherited from
`Object.prototype`), or the `length` of a string, an array or a built-in function. -/
def field (v : JsVal) (k : String) : JsVal :=
  match v with
  | obj fs =>
    match lookupLast fs k with
    | some w => w
    | none => if k ∈ objectProtoKeys then proto k else undefined
  | str s => if k = "length" then num (utf16Length s) else undefined
  | arr xs => if k = "length" then num xs.length else undefined
  | proto p =>
    if k = "length" then
      match protoArity p with
      | some n => num n
      | none => undefined
    else undefined
  | _ => undefined

/-- The value of `v.k`, which throws on `undefined` and `null`. -/
def get (v : JsVal) (k : String) : Except JsError JsVal :=
  match v with
  | undefined => .error (.typeError "Cannot read properties of undefined")
  | null => .error (.typeError "Cannot read properties of null")
  | w => .ok (w.field k)

/-- The number held by a value, `none` when the value is not a number. -/
def asNum : JsVal → JsNum
  | num q => some q
  | _ => none

end JsVal

/-- Whether a parsed object has an own property `k`. -/
def hasOwn (fs : List (String × JsVal)) (k : String) : Bool :=
  (lookupLast fs k).isSome

mutual
/-- The property key `ToPropertyKey(v)` used by a computed access `table[v]`.  The text of a
number and of a built-in function is not modelled (`none`): the first contains a digit and the
second brackets, so neither is a key of a table of this program or a member name of
`Object.prototype`.  An object with an own `toString` property cannot be converted. -/
def toPropertyKey : JsVal → Except JsError (Option String)
  | .undefined => .ok (some "undefined")
  | .null => .ok (some "null")
  | .bool b => .ok (some (if b then "true" else "false"))
  | .num _ => .ok none
  | .str s => .ok (some s)
  | .arr xs => joinKeys xs
  | .obj fs =>
    if hasOwn fs "toString" then
      .error (.typeError "Cannot convert object to primitive value")
    else .ok (some "[object Object]")
  | .proto _ => .ok none
/-- The text `xs.join(',')` of an array: `undefined` and `null` elements are empty. -/
def joinKeys : List JsVal → Except JsError (Option String)
  | [] => .ok (some "")
  | x :: rest =>
    match elementKey x with
    | .error e => .error e
    | .ok a =>
      match rest with
      | [] => .ok a
      | _ :: _ =>
        match joinKeys rest with
        | .error e => .error e
        | .ok b =>
          match a, b with
          | some s, some t => .ok (some (s ++ "," ++ t))
          | _, _ => .ok none
/-- The text of one array element inside `join`. -/
def elementKey : JsVal → Except JsError (Option String)
  | .undefined => .ok (some "")
  | .null => .ok (some "")
  | .bool b => .ok (some (if b then "true" else "false"))
  | .num _ => .ok none
  | .str s => .ok (some s)
  | .arr xs => joinKeys xs
  | .obj fs =>
    if hasOwn fs "toString" then
      .error (.typeError "Cannot convert object to primitive value")
    else .ok (some "[object Object]")
  | .proto _ => .ok none
end

/-- The value of `table[key]` for an object literal `table` with string values. -/
def lookupTable (table : List (String × String)) (key : Option String) : JsVal :=
  match key with
  | none => .undefined
  | some k =>
    match lookupLast table k with
    | some v => .str v
    | none => if k ∈ objectProtoKeys then .proto k else .undefined

/-- The call `set.has(v)` on a `Set` of strings. -/
def setHas (set : List String) (v : JsVal) : Bool :=
  match v with
  | .str s => decide (s ∈ set)
  | _ => false

/-! ## Numbers -/

/-- The sum `a + b` of two numbers. -/
def JsNum.add (a b : JsNum) : JsNum :=
  match a, b with
  | some x, some y => some (x + y)
  | _, _ => none

/-- The quotient `a / n` by a non-zero count. -/
def JsNum.divNat (a : JsNum) (n : ℕ) : JsNum :=
  match a with
  | some x => some (x / (n : ℚ))
  | none => none

/-- The smaller of two numbers. -/
def JsNum.min (a b : JsNum) : JsNum :=
  match a, b with
  | some x, some y => some (Min.min x y)
  | _, _ => none

/-- The larger of two numbers. -/
def JsNum.max (a b : JsNum) : JsNum :=
  match a, b with
  | some x, some y => some (Max.max x y)
  | _, _ => none

/-- The call `Math.min(...xs)`; on no argument the result is `Infinity`. -/
def mathMin : List JsNum → JsNum
  | [] => none
  | x :: rest => rest.foldl JsNum.min x

/-- The call `Math.max(...xs)`; on no argument the result is `-Infinity`. -/
def mathMax : List JsNum → JsNum
  | [] => none
  | x :: rest => rest.foldl JsNum.max x

/-! ## Coordinate extraction -/

/-- A freshly built two-element array `[arr[0], arr[1]]`. -/
abbrev Coord := JsVal × JsVal

/-- Element `i` of an array, `undefined` past its end. -/
def elemAt (xs : List JsVal) (i : ℕ) : JsVal := xs.getD i .undefined

/-- The test `arr.length >= 2 && typeof arr[0] === 'number'` shared by the traversals. -/
def isCoordinatePair (xs : List JsVal) : Bool :=
  decide (2 ≤ xs.length) && (elemAt xs 0).isNumber

namespace WorldDataFetcher

mutual
/-- The closure `extract` of `extractAllCoordinates`, threading the accumulator
`allCoords`. -/
def extract : JsVal → List Coord → List Coord
  | .arr xs, allCoords =>
    if isCoordinatePair xs then allCoords ++ [(elemAt xs 0, elemAt xs 1)]
    else extractEach xs allCoords
  | _, allCoords => allCoords
/-- The loop `arr.forEach(item => extract(item))`. -/
def extractEach : List JsVal → List Coord → List Coord
  | [], allCoords => allCoords
  | item :: rest, allCoords => extractEach rest (extract item allCoords)
end

/-- The method `extractAllCoordinates` of `worldDataFetcher.js`. -/
def extractAllCoordinates (coordinates : JsVal) : List Coord :=
  extract coordinates []

mutual
/-- The closure `countRecursive` of `countCoordinates`, threading the counter. -/
def countRecursive : JsVal → ℕ → ℕ
  | .arr xs, count =>
    if isCoordinatePair xs then count + 1 else countEach xs count
  | _, count => count
/-- The loop `arr.forEach(item => countRecursive(item))`. -/
def countEach : List JsVal → ℕ → ℕ
  | [], count => count
  | item :: rest, count => countEach rest (countRecursive item count)
end

/-- The method `countCoordinates` of `worldDataFetcher.js`. -/
def countCoordinates (coordinates : JsVal) : ℕ :=
  countRecursive coordinates 0

/-- The object returned by `calculateGeoInfo`. -/
structure GeoInfo where
  center : JsNum × JsNum
  centroid : JsNum × JsNum
  bbox : JsNum × JsNum × JsNum × JsNum

/-- The default returned for a geometry without points. -/
def zeroGeoInfo : GeoInfo :=
  { center := (some 0, some 0), centroid := (some 0, some 0),
    bbox := (some 0, some 0, some 0, some 0) }

/-- The method `calculateGeoInfo` of `worldDataFetcher.js`, in exact arithmetic.  A longitude
is always a number.  A latitude that is not a number is coerced in the code by `Math.min`,
`Math.max` and `+`, with a number, `NaN`, a string or a `TypeError` as outcome: the embedding
answers `none` for every component that depends on such a latitude and does not represent the
`TypeError`.  The theorems on this function take geometries whose extracted points are pairs of
numbers. -/
def calculateGeoInfo (geometry : JsVal) : Except JsError GeoInfo :=
  match geometry.get "coordinates" with
  | .error e => .error e
  | .ok coordinates =>
    if !coordinates.truthy then .ok zeroGeoInfo
    else
      let allCoords := extractAllCoordinates coordinates
      if allCoords.length = 0 then .ok zeroGeoInfo
      else
        let lons := allCoords.map (fun coord => coord.1.asNum)
        let lats := allCoords.map (fun coord => coord.2.asNum)
        let bbox := (mathMin lons, mathMin lats, mathMax lons, mathMax lats)
        let center :=
          ((bbox.1.add bbox.2.2.1).divNat 2, (bbox.2.1.add bbox.2.2.2).divNat 2)
        let sumLon := allCoords.foldl (fun sum coord => JsNum.add sum coord.1.asNum) (some 0)
        let sumLat := allCoords.foldl (fun sum coord => JsNum.add sum coord.2.asNum) (some 0)
        let centroid := (sumLon.divNat allCoords.length, sumLat.divNat allCoords.length)
        .ok { center := center, centroid := centroid, bbox := bbox }

end WorldDataFetcher

/-! ## Iterating over arrays -/

/-- The call `xs.map((x, index) => f x index)` for a callback that may throw, started at
position `index`. -/
def mapWithIndex {α β : Type} (f : α → ℕ → Except JsError β) :
    List α → ℕ → Except JsError (List β)
  | [], _ => .ok []
  | x :: rest, index =>
    match f x index with
    | .error e => .error e
    | .ok y =>
      match mapWithIndex f rest (index + 1) with
      | .error e => .error e
      | .ok ys => .ok (y :: ys)

/-- The call `xs.filter(x => keep x)` for a callback that may throw; the callback result is
tested with `ToBoolean`. -/
def filterArray {α : Type} (keep : α → Except JsError JsVal) :
    List α → Except JsError (List α)
  | [] => .ok []
  | x :: rest =>
    match keep x with
    | .error e => .error e
    | .ok v =>
      match filterArray keep rest with
      | .error e => .error e
      | .ok ys => .ok (if v.truthy then x :: ys else ys)

/-- The features of a document as a list, when `features` is an array (the receiver of
`.filter` and `.map`). -/
def asArray (v : JsVal) (what : String) : Except JsError (List JsVal) :=
  match v with
  | .arr xs => .ok xs
  | _ => .error (.typeError (what ++ " is not a function"))

namespace WorldDataFetcher

/-- The object literal `chineseMap` of `getCountryInfo`. -/
def chineseMap : List (String × String) :=
  [
   ("Afghanistan", "阿富汗"), ("Albania", "阿尔巴尼亚"), ("Algeria", "阿尔及利亚"),
   ("Andorra", "安道尔"), ("Angola", "安哥拉"), ("Antigua and Barbuda", "安提瓜和巴布达"),
   ("Argentina", "阿根廷"), ("Armenia", "亚美尼亚"), ("Australia", "澳大利亚"),
   ("Austria", "奥地利"), ("Azerbaijan", "阿塞拜疆"), ("Bahamas", "巴哈马"),
   ("Bahrain", "巴林"), ("Bangladesh", "孟加拉国"), ("Barbados", "巴巴多斯"),
   ("Belarus", "白俄罗斯"), ("Belgium", "比利时"), ("Belize", "伯利兹"),
   ("Benin", "贝宁"), ("Bhutan", "不丹"), ("Bolivia", "玻利维亚"),
   ("Bosnia and Herzegovina", "波斯尼亚和黑塞哥维那"), ("Botswana", "博茨瓦纳"), ("Brazil", "巴西"),
   ("Brunei", "文莱"), ("Bulgaria", "保加利亚"), ("Burkina Faso", "布基纳法索"),
   ("Burundi", "布隆迪"), ("Cabo Verde", "佛得角"), ("Cambodia", "柬埔寨"),
   ("Cameroon", "喀麦隆"), ("Canada", "加拿大"), ("Central African Republic", "中非共和国"),
   ("Chad", "乍得"), ("Chile", "智利"), ("China", "中国"),
   ("Colombia", "哥伦比亚"), ("Comoros", "科摩罗"), ("Congo", "刚果"),
   ("Costa Rica", "哥斯达黎加"), ("Croatia", "克罗地亚"), ("Cuba", "古巴"),
   ("Cyprus", "塞浦路斯"), ("Czechia", "捷克"), ("Democratic Republic of the Congo", "刚果民主共和国"),
   ("Denmark", "丹麦"), ("Djibouti", "吉布提"), ("Dominica", "多米尼克"),
   ("Dominican Republic", "多米尼加共和国"), ("Ecuador", "厄瓜多尔"), ("Egypt", "埃及"),
   ("El Salvador", "萨尔瓦多"), ("Equatorial Guinea", "赤道几内亚"), ("Eritrea", "厄立特里亚"),
   ("Estonia", "爱沙尼亚"), ("Eswatini", "斯威士兰"), ("Ethiopia", "埃塞俄比亚"),
   ("Fiji", "斐济"), ("Finland", "芬兰"), ("France", "法国"),
   ("Gabon", "加蓬"), ("Gambia", "冈比亚"), ("Georgia", "格鲁吉亚"),
   ("Germany", "德国"), ("Ghana", "加纳"), ("Greece", "希腊"),
   ("Grenada", "格林纳达"), ("Guatemala", "危地马拉"), ("Guinea", "几内亚"),
   ("Guinea-Bissau", "几内亚比绍"), ("Guyana", "圭亚那"), ("Haiti", "海地"),
   ("Honduras", "洪都拉斯"), ("Hungary", "匈牙利"), ("Iceland", "冰岛"),
   ("India", "印度"), ("Indonesia", "印度尼西亚"), ("Iran", "伊朗"),
   ("Iraq", "伊拉克"), ("Ireland", "爱尔兰"), ("Israel", "以色列"),
   ("Italy", "意大利"), ("Jamaica", "牙买加"), ("Japan", "日本"),
   ("Jordan", "约旦"), ("Kazakhstan", "哈萨克斯坦"), ("Kenya", "肯尼亚"),
   ("Kiribati", "基里巴斯"), ("Kuwait", "科威特"), ("Kyrgyzstan", "吉尔吉斯斯坦"),
   ("Laos", "老挝"), ("Latvia", "拉脱维亚"), ("Lebanon", "黎巴嫩"),
   ("Lesotho", "莱索托"), ("Liberia", "利比里亚"), ("Libya", "利比亚"),
   ("Liechtenstein", "列支敦士登"), ("Lithuania", "立陶宛"), ("Luxembourg", "卢森堡"),
   ("Madagascar", "马达加斯加"), ("Malawi", "马拉维"), ("Malaysia", "马来西亚"),
   ("Maldives", "马尔代夫"), ("Mali", "马里"), ("Malta", "马耳他"),
   ("Marshall Islands", "马绍尔群岛"), ("Mauritania", "毛里塔尼亚"), ("Mauritius", "毛里求斯"),
   ("Mexico", "墨西哥"), ("Micronesia", "密克罗尼西亚"), ("Moldova", "摩尔多瓦"),
   ("Monaco", "摩纳哥"), ("Mongolia", "蒙古"), ("Montenegro", "黑山"),
   ("Morocco", "摩洛哥"), ("Mozambique", "莫桑比克"), ("Myanmar", "缅甸"),
   ("Namibia", "纳米比亚"), ("Nauru", "瑙鲁"), ("Nepal", "尼泊尔"),
   ("Netherlands", "荷兰"), ("New Zealand", "新西兰"), ("Nicaragua", "尼加拉瓜"),
   ("Niger", "尼日尔"), ("Nigeria", "尼日利亚"), ("North Korea", "朝鲜"),
   ("North Macedonia", "北马其顿"), ("Norway", "挪威"), ("Oman", "阿曼"),
   ("Pakistan", "巴基斯坦"), ("Palau", "帕劳"), ("Palestine", "巴勒斯坦"),
   ("Panama", "巴拿马"), ("Papua New Guinea", "巴布亚新几内亚"), ("Paraguay", "巴拉圭"),
   ("Peru", "秘鲁"), ("Philippines", "菲律宾"), ("Poland", "波兰"),
   ("Portugal", "葡萄牙"), ("Qatar", "卡塔尔"), ("Romania", "罗马尼亚"),
   ("Russia", "俄罗斯"), ("Rwanda", "卢旺达"), ("Saint Kitts and Nevis", "圣基茨和尼维斯"),
   ("Saint Lucia", "圣卢西亚"), ("Saint Vincent and the Grenadines", "圣文森特和格林纳丁斯"), ("Samoa", "萨摩亚"),
   ("San Marino", "圣马力诺"), ("Sao Tome and Principe", "圣多美和普林西比"), ("Saudi Arabia", "沙特阿拉伯"),
   ("Senegal", "塞内加尔"), ("Serbia", "塞尔维亚"), ("Seychelles", "塞舌尔"),
   ("Sierra Leone", "塞拉利昂"), ("Singapore", "新加坡"), ("Slovakia", "斯洛伐克"),
   ("Slovenia", "斯洛文尼亚"), ("Solomon Islands", "所罗门群岛"), ("Somalia", "索马里"),
   ("South Africa", "南非"), ("South Korea", "韩国"), ("South Sudan", "南苏丹"),
   ("Spain", "西班牙"), ("Sri Lanka", "斯里兰卡"), ("Sudan", "苏丹"),
   ("Suriname", "苏里南"), ("Sweden", "瑞典"), ("Switzerland", "瑞士"),
   ("Syria", "叙利亚"), ("Taiwan", "台湾"), ("Tajikistan", "塔吉克斯坦"),
   ("Tanzania", "坦桑尼亚"), ("Thailand", "泰国"), ("Timor-Leste", "东帝汶"),
   ("Togo", "多哥"), ("Tonga", "汤加"), ("Trinidad and Tobago", "特立尼达和多巴哥"),
   ("Tunisia", "突尼斯"), ("Turkey", "土耳其"), ("Turkmenistan", "土库曼斯坦"),
   ("Tuvalu", "图瓦卢"), ("Uganda", "乌干达"), ("Ukraine", "乌克兰"),
   ("United Arab Emirates", "阿拉伯联合酋长国"), ("United Kingdom", "英国"), ("United States", "美国"),
   ("Uruguay", "乌拉圭"), ("Uzbekistan", "乌兹别克斯坦"), ("Vanuatu", "瓦努阿图"),
   ("Venezuela", "委内瑞拉"), ("Vietnam", "越南"), ("Yemen", "也门"),
   ("Zambia", "赞比亚"), ("Zimbabwe", "津巴布韦")
  ]

/-- The object literal `continentMap` of `getCountryInfo`. -/
def continentMap : List (String × String) :=
  [("AF", "Africa"), ("AS", "Asia"), ("EU", "Europe"), ("NA", "North America"),
   ("SA", "South America"), ("OC", "Oceania"), ("AN", "Antarctica")]

/-- The object returned by `getCountryInfo`. -/
structure CountryInfo where
  english : JsVal
  chinese : JsVal
  continent : JsVal

/-- The method `getCountryInfo` of `worldDataFetcher.js`. -/
def getCountryInfo (properties : JsVal) : Except JsError CountryInfo :=
  let englishName :=
    (((properties.field "NAME_LONG").or (properties.field "NAME")).or
      (properties.field "ADMIN")).or (.str "Unknown")
  match toPropertyKey englishName with
  | .error e => .error e
  | .ok nameKey =>
    match toPropertyKey (properties.field "CONTINENT") with
    | .error e => .error e
    | .ok continentKey =>
      .ok { english := englishName
            chinese := (lookupTable chineseMap nameKey).or englishName
            continent :=
              ((lookupTable continentMap continentKey).or (properties.field "REGION_UN")).or
                (.str "Unknown") }

/-- The call `v?.includes(needle)` with a string literal `needle`: substring test on a string,
membership test on an array, `undefined` on `undefined` and `null`, and a `TypeError` on every
other value, which has no callable `includes`. -/
def optionalIncludes (v : JsVal) (needle : String) : Except JsError JsVal :=
  match v with
  | .undefined => .ok .undefined
  | .null => .ok .undefined
  | .str s => .ok (.bool (decide (needle.data <:+: s.data)))
  | .arr xs => .ok (.bool (xs.any (fun x => x.isStr needle)))
  | _ => .error (.typeError "includes is not a function")

/-- The callback of `.filter` in `processGeoJSONData`. -/
def filterCallback (feature : JsVal) : Except JsError JsVal :=
  match feature.get "properties" with
  | .error e => .error e
  | .ok p =>
    let properties := p.or (.obj [])
    let hasValidISOCode :=
      (properties.field "ISO_A2").and
        (.bool (((properties.field "ISO_A2").field "length").isNum 2))
    match optionalIncludes (properties.field "ADM0_A3") "PS" with
    | .error e => .error e
    | .ok a =>
      if a.truthy then .ok (hasValidISOCode.and (.bool false))
      else
        match optionalIncludes (properties.field "NAME") "Antarctica" with
        | .error e => .error e
        | .ok b =>
          if b.truthy then .ok (hasValidISOCode.and (.bool false))
          else
            match optionalIncludes (properties.field "NAME") "Disputed" with
            | .error e => .error e
            | .ok c => .ok (hasValidISOCode.and (.bool (!c.truthy)))

/-- The record built by the callback of `.map` in `processGeoJSONData`. -/
structure WorldRecord where
  id : ℕ
  adcode : JsVal
  name : JsVal
  name_en : JsVal
  name_local : JsVal
  center : JsNum × JsNum
  centroid : JsNum × JsNum
  bbox : JsNum × JsNum × JsNum × JsNum
  area_sqkm : JsVal
  population : JsVal
  continent : JsVal
  region : JsVal
  subregion : JsVal
  economy : JsVal
  income_level : JsVal
  iso2 : JsVal
  iso3 : JsVal
  un_code : JsVal
  developed : JsVal
  sovereignty : JsVal
  feature_class : JsVal
  scale_rank : JsVal
  geometry_type : JsVal
  coordinates_count : ℕ
  _properties : JsVal

/-- The callback of `.map` in `processGeoJSONData`. -/
def mapCallback (feature : JsVal) (index : ℕ) : Except JsError WorldRecord :=
  match feature.get "properties" with
  | .error e => .error e
  | .ok p =>
    match feature.get "geometry" with
    | .error e => .error e
    | .ok g =>
      let properties := p.or (.obj [])
      let geometry := g.or (.obj [])
      match getCountryInfo properties with
      | .error e => .error e
      | .ok countryInfo =>
        match calculateGeoInfo geometry with
        | .error e => .error e
        | .ok geoInfo =>
          .ok { id := index + 1
                adcode :=
                  (((properties.field "ISO_A2").or (properties.field "ISO_A3")).or
                    (properties.field "ADM0_A3")).or (.str ("COUNTRY_" ++ toString index))
                name := countryInfo.chinese
                name_en := countryInfo.english
                name_local := (properties.field "NAME_LONG").or (properties.field "NAME")
                center := geoInfo.center
                centroid := geoInfo.centroid
                bbox := geoInfo.bbox
                area_sqkm :=
                  ((properties.field "AREA_SQKM").or (properties.field "AREA")).or (.num 0)
                population :=
                  ((properties.field "POP_EST").or (properties.field "POPULATION")).or (.num 0)
                continent := countryInfo.continent
                region :=
                  ((properties.field "REGION_WB").or (properties.field "REGION_UN")).or
                    (.str "Unknown")
                subregion := (properties.field "SUBREGION").or (.str "Unknown")
                economy := (properties.field "ECONOMY").or (.str "Unknown")
                income_level := (properties.field "INCOME_GRP").or (.str "Unknown")
                iso2 := properties.field "ISO_A2"
                iso3 := properties.field "ISO_A3"
                un_code := properties.field "UN_A3"
                developed := (properties.field "DEVELOPED").or (.str "Unknown")
                sovereignty := (properties.field "SOVEREIGNT").or (.str "Independent")
                feature_class := (properties.field "FEATURE_CLASS").or (.str "Admin-0 country")
                scale_rank := (properties.field "SCALERANK").or (.num 0)
                geometry_type := geometry.field "type"
                coordinates_count := countCoordinates (geometry.field "coordinates")
                _properties := properties }

/-- The method `processGeoJSONData` of `worldDataFetcher.js`. -/
def processGeoJSONData (geoJSON : JsVal) : Except JsError (List WorldRecord) :=
  match geoJSON.get "features" with
  | .error e => .error e
  | .ok features =>
    match asArray features "geoJSON.features.filter" with
    | .error e => .error e
    | .ok fs =>
      match filterArray filterCallback fs with
      | .error e => .error e
      | .ok kept => mapWithIndex mapCallback kept 0

end WorldDataFetcher

namespace CorrectedWorldData

/-- The set `UN_MEMBER_CODES`. -/
def UN_MEMBER_CODES : List String :=
  [
   "AF", "AL", "DZ", "AD", "AO", "AG", "AR", "AM", "AU", "AT",
   "AZ", "BS", "BH", "BD", "BB", "BY", "BE", "BZ", "BJ", "BT",
   "BO", "BA", "BW", "BR", "BN", "BG", "BF", "BI", "CV", "KH",
   "CM", "CA", "CF", "TD", "CL", "CN", "CO", "KM", "CG", "CD",
   "CR", "CI", "HR", "CU", "CY", "CZ", "DK", "DJ", "DM", "DO",
   "EC", "EG", "SV", "GQ", "ER", "EE", "SZ", "ET", "FJ", "FI",
   "FR", "GA", "GM", "GE", "DE", "GH", "GR", "GD", "GT", "GN",
   "GW", "GY", "HT", "HN", "HU", "IS", "IN", "ID", "IR", "IQ",
   "IE", "IL", "IT", "JM", "JP", "JO", "KZ", "KE", "KI", "KP",
   "KR", "KW", "KG", "LA", "LV", "LB", "LS", "LR", "LY", "LI",
   "LT", "LU", "MG", "MW", "MY", "MV", "ML", "MT", "MH", "MR",
   "MU", "MX", "FM", "MD", "MC", "MN", "ME", "MA", "MZ", "MM",
   "NA", "NR", "NP", "NL", "NZ", "NI", "NE", "NG", "MK", "NO",
   "OM", "PK", "PW", "PA", "PG", "PY", "PE", "PH", "PL", "PT",
   "QA", "RO", "RU", "RW", "KN", "LC", "VC", "WS", "SM", "ST",
   "SA", "SN", "RS", "SC", "SL", "SG", "SK", "SI", "SB", "SO",
   "ZA", "SS", "ES", "LK", "SD", "SR", "SE", "CH", "SY", "TJ",
   "TZ", "TH", "TL", "TG", "TO", "TT", "TN", "TR", "TM", "TV",
   "UG", "UA", "AE", "GB", "US", "UY", "UZ", "VU", "VE", "VN",
   "YE", "ZM", "ZW"
  ]

/-- The set `EXCLUDED_TERRITORIES`. -/
def EXCLUDED_TERRITORIES : List String :=
  [
   "Greenland", "Puerto Rico", "French Guiana", "Guadeloupe",
   "Martinique", "Réunion", "Azores", "Canary Islands",
   "Bermuda", "Cayman Islands", "Falkland Islands", "Kashmir",
   "Western Sahara", "Hong Kong", "Macao", "Svalbard",
   "Åland Islands", "Antarctica", "Northern Cyprus", "American Samoa",
   "Guam", "Northern Mariana Islands", "U.S. Virgin Islands", "British Virgin Islands",
   "Anguilla", "Montserrat", "Turks and Caicos Islands", "Gibraltar",
   "Faroe Islands", "Isle of Man", "Channel Islands", "Christmas Island",
   "Cocos Islands", "Norfolk Island", "Tokelau", "Cook Islands",
   "Niue", "Wallis and Futuna", "French Polynesia", "New Caledonia",
   "Aruba", "Curaçao", "Sint Maarten", "Bonaire",
   "Saba", "Sint Eustatius", "Saint Martin", "Saint Barthélemy"
  ]

mutual
/-- The closure `extract` of `extractAllCoordinates`, threading the accumulator
`allCoords`. -/
def extract : JsVal → List Coord → List Coord
  | .arr xs, allCoords =>
    if isCoordinatePair xs then allCoords ++ [(elemAt xs 0, elemAt xs 1)]
    else extractEach xs allCoords
  | _, allCoords => allCoords
/-- The loop `arr.forEach(item => extract(item))`. -/
def extractEach : List JsVal → List Coord → List Coord
  | [], allCoords => allCoords
  | item :: rest, allCoords => extractEach rest (extract item allCoords)
end

/-- The function `extractAllCoordinates` of `correctedWorldData.js`. -/
def extractAllCoordinates (coordinates : JsVal) : List Coord :=
  extract coordinates []

/-- The function `calculateCenter` of `correctedWorldData.js`, in exact arithmetic.  The
property read `geometry.coordinates` is guarded by the test `!geometry`, so it never throws.
As in `calculateGeoInfo`, a component that depends on a latitude that is not a number is
`none`, and the `TypeError` that the coercion of such a latitude can throw is not
represented. -/
def calculateCenter (geometry : JsVal) : JsNum × JsNum :=
  if !geometry.truthy || !(geometry.field "coordinates").truthy then (some 0, some 0)
  else
    let allCoords := extractAllCoordinates (geometry.field "coordinates")
    if allCoords.length = 0 then (some 0, some 0)
    else
      let lons := allCoords.map (fun coord => coord.1.asNum)
      let lats := allCoords.map (fun coord => coord.2.asNum)
      let minLon := mathMin lons
      let maxLon := mathMax lons
      let minLat := mathMin lats
      let maxLat := mathMax lats
      ((minLon.add maxLon).divNat 2, (minLat.add maxLat).divNat 2)

/-- The object literal `chineseMap` of `getChineseName`. -/
def chineseMap : List (String × String) :=
  [
   ("Afghanistan", "阿富汗"), ("Albania", "阿尔巴尼亚"), ("Algeria", "阿尔及利亚"),
   ("Andorra", "安道尔"), ("Angola", "安哥拉"), ("Antigua and Barbuda", "安提瓜和巴布达"),
   ("Argentina", "阿根廷"), ("Armenia", "亚美尼亚"), ("Australia", "澳大利亚"),
   ("Austria", "奥地利"), ("Azerbaijan", "阿塞拜疆"), ("Bahamas", "巴哈马"),
   ("Bahrain", "巴林"), ("Bangladesh", "孟加拉国"), ("Barbados", "巴巴多斯"),
   ("Belarus", "白俄罗斯"), ("Belgium", "比利时"), ("Belize", "伯利兹"),
   ("Benin", "贝宁"), ("Bhutan", "不丹"), ("Bolivia", "玻利维亚"),
   ("Bosnia and Herzegovina", "波斯尼亚和黑塞哥维那"), ("Botswana", "博茨瓦纳"), ("Brazil", "巴西"),
   ("Brunei", "文莱"), ("Bulgaria", "保加利亚"), ("Burkina Faso", "布基纳法索"),
   ("Burundi", "布隆迪"), ("Cabo Verde", "佛得角"), ("Cambodia", "柬埔寨"),
   ("Cameroon", "喀麦隆"), ("Canada", "加拿大"), ("Central African Republic", "中非共和国"),
   ("Chad", "乍得"), ("Chile", "智利"), ("China", "中国"),
   ("Colombia", "哥伦比亚"), ("Comoros", "科摩罗"), ("Congo", "刚果"),
   ("Costa Rica", "哥斯达黎加"), ("Croatia", "克罗地亚"), ("Cuba", "古巴"),
   ("Cyprus", "塞浦路斯"), ("Czechia", "捷克"), ("Democratic Republic of the Congo", "刚果民主共和国"),
   ("Denmark", "丹麦"), ("Djibouti", "吉布提"), ("Dominica", "多米尼克"),
   ("Dominican Republic", "多米尼加共和国"), ("Ecuador", "厄瓜多尔"), ("Egypt", "埃及"),
   ("El Salvador", "萨尔瓦多"), ("Equatorial Guinea", "赤道几内亚"), ("Eritrea", "厄立特里亚"),
   ("Estonia", "爱沙尼亚"), ("Eswatini", "斯威士兰"), ("Ethiopia", "埃塞俄比亚"),
   ("Fiji", "斐济"), ("Finland", "芬兰"), ("France", "法国"),
   ("Gabon", "加蓬"), ("Gambia", "冈比亚"), ("Georgia", "格鲁吉亚"),
   ("Germany", "德国"), ("Ghana", "加纳"), ("Greece", "希腊"),
   ("Grenada", "格林纳达"), ("Guatemala", "危地马拉"), ("Guinea", "几内亚"),
   ("Guinea-Bissau", "几内亚比绍"), ("Guyana", "圭亚那"), ("Haiti", "海地"),
   ("Honduras", "洪都拉斯"), ("Hungary", "匈牙利"), ("Iceland", "冰岛"),
   ("India", "印度"), ("Indonesia", "印度尼西亚"), ("Iran", "伊朗"),
   ("Iraq", "伊拉克"), ("Ireland", "爱尔兰"), ("Israel", "以色列"),
   ("Italy", "意大利"), ("Jamaica", "牙买加"), ("Japan", "日本"),
   ("Jordan", "约旦"), ("Kazakhstan", "哈萨克斯坦"), ("Kenya", "肯尼亚"),
   ("Kiribati", "基里巴斯"), ("Kuwait", "科威特"), ("Kyrgyzstan", "吉尔吉斯斯坦"),
   ("Laos", "老挝"), ("Latvia", "拉脱维亚"), ("Lebanon", "黎巴嫩"),
   ("Lesotho", "莱索托"), ("Liberia", "利比里亚"), ("Libya", "利比亚"),
   ("Liechtenstein", "列支敦士登"), ("Lithuania", "立陶宛"), ("Luxembourg", "卢森堡"),
   ("Madagascar", "马达加斯加"), ("Malawi", "马拉维"), ("Malaysia", "马来西亚"),
   ("Maldives", "马尔代夫"), ("Mali", "马里"), ("Malta", "马耳他"),
   ("Marshall Islands", "马绍尔群岛"), ("Mauritania", "毛里塔尼亚"), ("Mauritius", "毛里求斯"),
   ("Mexico", "墨西哥"), ("Micronesia", "密克罗尼西亚"), ("Moldova", "摩尔多瓦"),
   ("Monaco", "摩纳哥"), ("Mongolia", "蒙古"), ("Montenegro", "黑山"),
   ("Morocco", "摩洛哥"), ("Mozambique", "莫桑比克"), ("Myanmar", "缅甸"),
   ("Namibia", "纳米比亚"), ("Nauru", "瑙鲁"), ("Nepal", "尼泊尔"),
   ("Netherlands", "荷兰"), ("New Zealand", "新西兰"), ("Nicaragua", "尼加拉瓜"),
   ("Niger", "尼日尔"), ("Nigeria", "尼日利亚"), ("North Korea", "朝鲜"),
   ("North Macedonia", "北马其顿"), ("Norway", "挪威"), ("Oman", "阿曼"),
   ("Pakistan", "巴基斯坦"), ("Palau", "帕劳"), ("Palestine", "巴勒斯坦"),
   ("Panama", "巴拿马"), ("Papua New Guinea", "巴布亚新几内亚"), ("Paraguay", "巴拉圭"),
   ("Peru", "秘鲁"), ("Philippines", "菲律宾"), ("Poland", "波兰"),
   ("Portugal", "葡萄牙"), ("Qatar", "卡塔尔"), ("Romania", "罗马尼亚"),
   ("Russia", "俄罗斯"), ("Rwanda", "卢旺达"), ("Saint Kitts and Nevis", "圣基茨和尼维斯"),
   ("Saint Lucia", "圣卢西亚"), ("Saint Vincent and the Grenadines", "圣文森特和格林纳丁斯"), ("Samoa", "萨摩亚"),
   ("San Marino", "圣马力诺"), ("Sao Tome and Principe", "圣多美和普林西比"), ("Saudi Arabia", "沙特阿拉伯"),
   ("Senegal", "塞内加尔"), ("Serbia", "塞尔维亚"), ("Seychelles", "塞舌尔"),
   ("Sierra Leone", "塞拉利昂"), ("Singapore", "新加坡"), ("Slovakia", "斯洛伐克"),
   ("Slovenia", "斯洛文尼亚"), ("Solomon Islands", "所罗门群岛"), ("Somalia", "索马里"),
   ("South Africa", "南非"), ("South Korea", "韩国"), ("South Sudan", "南苏丹"),
   ("Spain", "西班牙"), ("Sri Lanka", "斯里兰卡"), ("Sudan", "苏丹"),
   ("Suriname", "苏里南"), ("Sweden", "瑞典"), ("Switzerland", "瑞士"),
   ("Syria", "叙利亚"), ("Taiwan", "台湾"), ("Tajikistan", "塔吉克斯坦"),
   ("Tanzania", "坦桑尼亚"), ("Thailand", "泰国"), ("Timor-Leste", "东帝汶"),
   ("Togo", "多哥"), ("Tonga", "汤加"), ("Trinidad and Tobago", "特立尼达和多巴哥"),
   ("Tunisia", "突尼斯"), ("Turkey", "土耳其"), ("Turkmenistan", "土库曼斯坦"),
   ("Tuvalu", "图瓦卢"), ("Uganda", "乌干达"), ("Ukraine", "乌克兰"),
   ("United Arab Emirates", "阿拉伯联合酋长国"), ("United Kingdom", "英国"), ("United States", "美国"),
   ("Uruguay", "乌拉圭"), ("Uzbekistan", "乌兹别克斯坦"), ("Vanuatu", "瓦努阿图"),
   ("Venezuela", "委内瑞拉"), ("Vietnam", "越南"), ("Yemen", "也门"),
   ("Zambia", "赞比亚"), ("Zimbabwe", "津巴布韦")
  ]

/-- The function `getChineseName` of `correctedWorldData.js`. -/
def getChineseName (englishName : JsVal) : Except JsError JsVal :=
  match toPropertyKey englishName with
  | .error e => .error e
  | .ok key => .ok ((lookupTable chineseMap key).or englishName)

/-- The object literal `continentMap` of `getContinentFromCode`, in source order. -/
def continentMap : List (String × String) :=
  [
   ("AF", "Asia"), ("AM", "Asia"), ("AZ", "Asia"), ("BH", "Asia"), ("BD", "Asia"),
   ("BT", "Asia"), ("BN", "Asia"), ("KH", "Asia"), ("CN", "Asia"), ("CY", "Asia"),
   ("GE", "Asia"), ("IN", "Asia"), ("ID", "Asia"), ("IR", "Asia"), ("IQ", "Asia"),
   ("IL", "Asia"), ("JP", "Asia"), ("JO", "Asia"), ("KZ", "Asia"), ("KW", "Asia"),
   ("KG", "Asia"), ("LA", "Asia"), ("LB", "Asia"), ("MY", "Asia"), ("MV", "Asia"),
   ("MN", "Asia"), ("MM", "Asia"), ("NP", "Asia"), ("KP", "Asia"), ("OM", "Asia"),
   ("PK", "Asia"), ("PH", "Asia"), ("QA", "Asia"), ("SA", "Asia"), ("SG", "Asia"),
   ("KR", "Asia"), ("LK", "Asia"), ("SY", "Asia"), ("TW", "Asia"), ("TJ", "Asia"),
   ("TH", "Asia"), ("TR", "Asia"), ("TM", "Asia"), ("AE", "Asia"), ("UZ", "Asia"),
   ("VN", "Asia"), ("YE", "Asia"), ("AL", "Europe"), ("AD", "Europe"), ("AT", "Europe"),
   ("BY", "Europe"), ("BE", "Europe"), ("BA", "Europe"), ("BG", "Europe"), ("HR", "Europe"),
   ("CY", "Europe"), ("CZ", "Europe"), ("DK", "Europe"), ("EE", "Europe"), ("FI", "Europe"),
   ("FR", "Europe"), ("DE", "Europe"), ("GR", "Europe"), ("HU", "Europe"), ("IS", "Europe"),
   ("IE", "Europe"), ("IT", "Europe"), ("LV", "Europe"), ("LI", "Europe"), ("LT", "Europe"),
   ("LU", "Europe"), ("MT", "Europe"), ("MD", "Europe"), ("MC", "Europe"), ("ME", "Europe"),
   ("NL", "Europe"), ("MK", "Europe"), ("NO", "Europe"), ("PL", "Europe"), ("PT", "Europe"),
   ("RO", "Europe"), ("RU", "Europe"), ("SM", "Europe"), ("RS", "Europe"), ("SK", "Europe"),
   ("SI", "Europe"), ("ES", "Europe"), ("SE", "Europe"), ("CH", "Europe"), ("UA", "Europe"),
   ("GB", "Europe"), ("VA", "Europe"), ("DZ", "Africa"), ("AO", "Africa"), ("BJ", "Africa"),
   ("BW", "Africa"), ("BF", "Africa"), ("BI", "Africa"), ("CV", "Africa"), ("CM", "Africa"),
   ("CF", "Africa"), ("TD", "Africa"), ("KM", "Africa"), ("CG", "Africa"), ("CD", "Africa"),
   ("CI", "Africa"), ("DJ", "Africa"), ("EG", "Africa"), ("GQ", "Africa"), ("ER", "Africa"),
   ("SZ", "Africa"), ("ET", "Africa"), ("GA", "Africa"), ("GM", "Africa"), ("GH", "Africa"),
   ("GN", "Africa"), ("GW", "Africa"), ("KE", "Africa"), ("LS", "Africa"), ("LR", "Africa"),
   ("LY", "Africa"), ("MG", "Africa"), ("MW", "Africa"), ("ML", "Africa"), ("MR", "Africa"),
   ("MU", "Africa"), ("MA", "Africa"), ("MZ", "Africa"), ("NA", "Africa"), ("NE", "Africa"),
   ("NG", "Africa"), ("RW", "Africa"), ("ST", "Africa"), ("SN", "Africa"), ("SC", "Africa"),
   ("SL", "Africa"), ("SO", "Africa"), ("ZA", "Africa"), ("SS", "Africa"), ("SD", "Africa"),
   ("TZ", "Africa"), ("TG", "Africa"), ("TN", "Africa"), ("UG", "Africa"), ("ZM", "Africa"),
   ("ZW", "Africa"), ("AG", "North America"), ("BS", "North America"), ("BB", "North America"), ("BZ", "North America"),
   ("CA", "North America"), ("CR", "North America"), ("CU", "North America"), ("DM", "North America"), ("DO", "North America"),
   ("SV", "North America"), ("GD", "North America"), ("GT", "North America"), ("HT", "North America"), ("HN", "North America"),
   ("JM", "North America"), ("MX", "North America"), ("NI", "North America"), ("PA", "North America"), ("KN", "North America"),
   ("LC", "North America"), ("VC", "North America"), ("TT", "North America"), ("US", "North America"), ("AR", "South America"),
   ("BO", "South America"), ("BR", "South America"), ("CL", "South America"), ("CO", "South America"), ("EC", "South America"),
   ("GY", "South America"), ("PY", "South America"), ("PE", "South America"), ("SR", "South America"), ("UY", "South America"),
   ("VE", "South America"), ("AU", "Oceania"), ("FJ", "Oceania"), ("KI", "Oceania"), ("MH", "Oceania"),
   ("FM", "Oceania"), ("NR", "Oceania"), ("NZ", "Oceania"), ("PW", "Oceania"), ("PG", "Oceania"),
   ("WS", "Oceania"), ("SB", "Oceania"), ("TO", "Oceania"), ("TV", "Oceania"), ("VU", "Oceania")
  ]

/-- The function `getContinentFromCode` of `correctedWorldData.js`. -/
def getContinentFromCode (countryCode : JsVal) : Except JsError JsVal :=
  match toPropertyKey countryCode with
  | .error e => .error e
  | .ok key => .ok ((lookupTable continentMap key).or (.str "Unknown"))

/-- The object literal `nameToISO` of `fixIsoA2Code`. -/
def nameToISO : List (String × String) :=
  [("法国", "FR"), ("法兰西", "FR"), ("France", "FR"), ("挪威", "NO"), ("Norway", "NO")]

/-- The function `fixIsoA2Code` of `correctedWorldData.js`. -/
def fixIsoA2Code (isoCode name : JsVal) : Except JsError JsVal :=
  if isoCode.isStr "-99" then
    match toPropertyKey name with
    | .error e => .error e
    | .ok key =>
      if (lookupTable nameToISO key).truthy then .ok (lookupTable nameToISO key)
      else .ok isoCode
  else .ok isoCode

/-- The record built by the callback of `.map` in `processFilteredData`. -/
structure CountryRecord where
  id : ℕ
  adcode : JsVal
  name : JsVal
  name_en : JsVal
  name_local : JsVal
  center : JsNum × JsNum
  centroid : JsNum × JsNum
  isoCode : JsVal
  isoCode3 : JsVal
  continent : JsVal
  region : JsVal
  population : JsVal
  area_sqkm : JsVal
  sovereignty : JsVal

/-- The display name `properties.NAME_ZH || getChineseName(properties.NAME_LONG ||
properties.NAME)`; the translation is looked up only when `NAME_ZH` is falsy. -/
def displayName (properties : JsVal) : Except JsError JsVal :=
  if (properties.field "NAME_ZH").truthy then .ok (properties.field "NAME_ZH")
  else getChineseName ((properties.field "NAME_LONG").or (properties.field "NAME"))

/-- The callback of `.map` in `processFilteredData`. -/
def toCountryRecord (feature : JsVal) (index : ℕ) : Except JsError CountryRecord :=
  match feature.get "properties" with
  | .error e => .error e
  | .ok p =>
    match feature.get "geometry" with
    | .error e => .error e
    | .ok g =>
      let properties := p.or (.obj [])
      let geometry := g.or (.obj [])
      match displayName properties with
      | .error e => .error e
      | .ok name =>
        match fixIsoA2Code (properties.field "ISO_A2") name with
        | .error e => .error e
        | .ok adcode =>
          match getContinentFromCode (properties.field "ISO_A2") with
          | .error e => .error e
          | .ok continent =>
            .ok { id := index + 1
                  adcode := adcode
                  name := name
                  name_en :=
                    ((properties.field "NAME_EN").or (properties.field "NAME_LONG")).or
                      (properties.field "NAME")
                  name_local := (properties.field "NAME_LONG").or (properties.field "NAME")
                  center := calculateCenter geometry
                  centroid := calculateCenter geometry
                  isoCode := properties.field "ISO_A2"
                  isoCode3 := properties.field "ISO_A3"
                  continent := continent
                  region :=
                    ((properties.field "REGION_WB").or (properties.field "REGION_UN")).or
                      (.str "Unknown")
                  population :=
                    ((properties.field "POP_EST").or (properties.field "POPULATION")).or
                      (.num 0)
                  area_sqkm :=
                    ((properties.field "AREA_SQKM").or (properties.field "AREA")).or (.num 0)
                  sovereignty := .str "Sovereign" }

/-- The function `processFilteredData` of `correctedWorldData.js`. -/
def processFilteredData (features : List JsVal) : Except JsError (List CountryRecord) :=
  mapWithIndex toCountryRecord features 0

/-- The name `props.NAME || props.NAME_LONG || ''` read by the sovereignty filter. -/
def filterName (props : JsVal) : JsVal :=
  ((props.field "NAME").or (props.field "NAME_LONG")).or (.str "")

/-- The constant `hasValidISO`, that is `isoCode && isoCode.length === 2`. -/
def hasValidISO (isoCode : JsVal) : JsVal :=
  isoCode.and (.bool ((isoCode.field "length").isNum 2))

/-- The callback of `.filter` in `getCorrectedWorldData` (the sovereignty filter). -/
def sovereignFilter (feature : JsVal) : Except JsError JsVal :=
  match feature.get "properties" with
  | .error e => .error e
  | .ok p =>
    let props := p.or (.obj [])
    let name := filterName props
    match fixIsoA2Code (props.field "ISO_A2") name with
    | .error e => .error e
    | .ok isoCode =>
      let isUNMember := setHas UN_MEMBER_CODES isoCode
      let isNotExcluded := !setHas EXCLUDED_TERRITORIES name
      .ok (((JsVal.bool isUNMember).and (.bool isNotExcluded)).and (hasValidISO isoCode))

/-- The function `getCorrectedWorldData` of `correctedWorldData.js` from the point where the
document `data` has been fetched.  The records of all features are also computed, for the file
`sovereign-countries-all.json`, before those of the retained features.  The calls of
`fs.writeJson` and `saveResults` are not represented: an error of the file system is outside
the embedding. -/
def getCorrectedWorldData (data : JsVal) : Except JsError (List CountryRecord) :=
  if !data.truthy || !(data.field "features").truthy then .error (.error "无效的数据格式")
  else
    match asArray (data.field "features") "data.features.filter" with
    | .error e => .error e
    | .ok features =>
      match filterArray sovereignFilter features with
      | .error e => .error e
      | .ok sovereignCountries =>
        match processFilteredData features with
        | .error e => .error e
        | .ok _ => processFilteredData sovereignCountries

end CorrectedWorldData

/-! ## Coordinate trees of the specification -/

/-- A nested coordinate array whose leaves are numeric `[lon, lat]` pairs: a position, or a
container (ring, polygon, multi-part geometry) of further trees. -/
inductive CoordTree where
  | pair (lon lat : ℚ)
  | node (children : List CoordTree)

namespace CoordTree

mutual
/-- The JavaScript array that a coordinate tree denotes. -/
def toJs : CoordTree → JsVal
  | pair lon lat => .arr [.num lon, .num lat]
  | node children => .arr (toJsList children)
/-- The elements of a container. -/
def toJsList : List CoordTree → List JsVal
  | [] => []
  | t :: rest => toJs t :: toJsList rest
end

mutual
/-- The leaf pairs of a coordinate tree, depth first and left to right. -/
def leaves : CoordTree → List (ℚ × ℚ)
  | pair lon lat => [(lon, lat)]
  | node children => leavesList children
/-- The leaf pairs of a sequence of trees. -/
def leavesList : List CoordTree → List (ℚ × ℚ)
  | [] => []
  | t :: rest => leaves t ++ leavesList rest
end

end CoordTree

/-- The array `[lon, lat]` of two numbers, as the traversals emit it. -/
def numericCoord (p : ℚ × ℚ) : Coord := (.num p.1, .num p.2)

/-! ## Fixtures of the specification -/

/-- The square with the vertices (0,0), (0,2), (2,2), (2,0), as a one-ring polygon. -/
def squareGeometry : JsVal :=
  .obj [("type", .str "Polygon"),
    ("coordinates", .arr [.arr [.arr [.num 0, .num 0], .arr [.num 0, .num 2],
      .arr [.num 2, .num 2], .arr [.num 2, .num 0]]])]

/-- The vertices of `squareGeometry`. -/
def squarePoints : List (ℚ × ℚ) := [(0, 0), (0, 2), (2, 2), (2, 0)]

/-- A feature that carries only a property bag with `ISO_A2` and `NAME`. -/
def namedFeature (isoA2 name : String) : JsVal :=
  .obj [("type", .str "Feature"),
    ("properties", .obj [("ISO_A2", .str isoA2), ("NAME", .str name)])]

/-- The three-feature collection of the end-to-end scenario: Japan, Greenland, and Norway
with the sentinel code. -/
def scenarioCollection : JsVal :=
  .obj [("type", .str "FeatureCollection"),
    ("features", .arr [namedFeature "JP" "Japan", namedFeature "GL" "Greenland",
      namedFeature "-99" "Norway"])]


/-! ## Notions used by the claims on normalisation -/

/-- The six inhabited continents of the code-to-continent table. -/
def inhabitedContinents : List String :=
  ["Asia", "Europe", "Africa", "North America", "South America", "Oceania"]

/-- Whether the callback of `.filter` keeps an element: it returns a truthy value. -/
def retains {α : Type} (keep : α → Except JsError JsVal) (x : α) : Bool :=
  match keep x with
  | .ok v => v.truthy
  | .error _ => false

/-- A value that is a string, or absent (`undefined`), or `null`. -/
def isTextOrAbsent : JsVal → Bool
  | .str _ => true
  | .undefined => true
  | .null => true
  | _ => false

/-- The property bag `feature.properties || {}` of a feature. -/
def propertiesOf (feature : JsVal) : JsVal := (feature.field "properties").or (.obj [])

/-- The geometry `feature.geometry || {}` of a feature. -/
def geometryOf (feature : JsVal) : JsVal := (feature.field "geometry").or (.obj [])

/-- A feature object whose properties `ADM0_A3`, `NAME`, `NAME_LONG`, `ADMIN` and `CONTINENT`
are strings or absent; its geometry and its other properties are arbitrary. -/
def hasTextNames (feature : JsVal) : Prop :=
  feature ≠ .undefined ∧ feature ≠ .null ∧
  ∀ k ∈ ["ADM0_A3", "NAME", "NAME_LONG", "ADMIN", "CONTINENT"],
    isTextOrAbsent ((propertiesOf feature).field k) = true

/-- A feature with the given property bag and no geometry. -/
def featureOf (properties : List (String × JsVal)) : JsVal :=
  .obj [("type", .str "Feature"), ("properties", .obj properties)]

/-- A feature collection with the given features. -/
def collectionOf (features : List JsVal) : JsVal :=
  .obj [("type", .str "FeatureCollection"), ("features", .arr features)]

/-- Japan with a negative population estimate. -/
def negativePopulationFeature : JsVal :=
  featureOf [("ISO_A2", .str "JP"), ("NAME", .str "Japan"), ("POP_EST", .num (-5))]

/-- Japan with a numeric `ADM0_A3` property. -/
def numericAdm0Feature : JsVal :=
  featureOf [("ISO_A2", .str "JP"), ("NAME", .str "Japan"), ("ADM0_A3", .num 5)]

/-- Japan without any of the name properties. -/
def namelessFeature : JsVal := featureOf [("ISO_A2", .str "JP")]

/-- A line with the vertices (0,0), (0,0), (3,3): its vertex mean is (1,1), the midpoint of its
bounding box is (3/2, 3/2). -/
def skewedGeometry : JsVal :=
  .obj [("type", .str "LineString"),
    ("coordinates", .arr [.arr [.num 0, .num 0], .arr [.num 0, .num 0],
      .arr [.num 3, .num 3]])]

/-- Japan drawn as `skewedGeometry`. -/
def skewedFeature : JsVal :=
  .obj [("type", .str "Feature"),
    ("properties", .obj [("ISO_A2", .str "JP"), ("NAME", .str "Japan")]),
    ("geometry", skewedGeometry)]

/-- The continent computed for a code when it is a string, for tabulating the table. -/
def continentText (code : String) : Option String :=
  match CorrectedWorldData.getContinentFromCode (.str code) with
  | .ok (.str s) => some s
  | _ => none

/-! ## Chart value and region formatting -/

/-- The exponent `k` with `n = 10 ^ k`, searched with at most `fuel` divisions by ten. -/
def powerOfTen? : ℕ → ℕ → Option ℕ
  | 0, _ => none
  | fuel + 1, n =>
    if n = 1 then some 0
    else if n % 10 = 0 ∧ n ≠ 0 then (powerOfTen? fuel (n / 10)).map (· + 1)
    else none

/-- The call `Math.log10(x)` when its result is a rational number, that is when `x` is a power
of ten; every other result (an irrational number, `NaN`, `-Infinity`) is outside the numbers of
the model. -/
def mathLog10 (x : ℚ) : JsNum :=
  if x.den = 1 ∧ 0 < x.num then
    match powerOfTen? x.num.toNat x.num.toNat with
    | some k => some (Nat.cast k)
    | none => none
  else if x.num = 1 then
    match powerOfTen? x.den x.den with
    | some k => some (-(Nat.cast k))
    | none => none
  else none

/-- The product `a * n` of a number and a literal. -/
def JsNum.mulLit (a : JsNum) (n : ℚ) : JsNum :=
  match a with
  | some x => some (x * n)
  | none => none

namespace EChartsGenerator

/-- The method `calculateValue` of `echartsGenerator.js`, on a country record of which the
fields `population` and `area_sqkm` are read.  A field that is not a number is coerced by
`Math.log10`, which is outside the model.  On `undefined` and `null` in place of the record
the code throws at the first property read, which this definition does not represent. -/
def calculateValue (country : JsVal) : JsNum :=
  let population := (country.field "population").or (.num 1000000)
  let area := (country.field "area_sqkm").or (.num 100000)
  JsNum.min (some 100)
    (JsNum.add (JsNum.mulLit (population.asNum.bind mathLog10) 20)
      (JsNum.mulLit (area.asNum.bind mathLog10) 10))

end EChartsGenerator

namespace ChinaRegionDataFetcher

/-- The method `formatForECharts` of `country.js`.  It initialises `echartsData` with an empty
`features` array, declares the closure `processFeatures`, which would push one feature per
input feature, and returns `echartsData` without ever calling the closure. -/
def formatForECharts (_fullData : JsVal) : JsVal :=
  .obj [("type", .str "FeatureCollection"), ("features", .arr [])]

end ChinaRegionDataFetcher

/-! ## Notions used by the claims on the two pipelines -/

/-- The continent names of the data model. -/
def continentNames : List String :=
  ["Asia", "Europe", "Africa", "North America", "South America", "Oceania", "Antarctica",
   "Unknown"]

/-- Whether a thrown value is a `TypeError` of the runtime. -/
def JsError.isTypeError : JsError → Bool
  | .typeError _ => true
  | .error _ => false

/-- A property bag in the style of the Natural Earth dataset for a country of the Americas. -/
def americasProperties : JsVal :=
  .obj [("ISO_A2", .str "US"), ("NAME", .str "United States of America"),
    ("CONTINENT", .str "North America"), ("REGION_UN", .str "Americas")]

/-- France with the sentinel code and a localized name that is not in the repair table. -/
def longLocalNameFeature : JsVal :=
  featureOf [("ISO_A2", .str "-99"), ("NAME", .str "France"),
    ("NAME_ZH", .str "法兰西共和国")]

/-- A document that is not tagged as a feature collection and has an empty `features`
array. -/
def untaggedDocument : JsVal :=
  .obj [("type", .str "Topology"), ("features", .arr [])]

/-- A country record with population 1 and an area of a tenth of a square kilometre. -/
def tinyCountry : JsVal :=
  .obj [("name", .str "Tiny"), ("population", .num 1), ("area_sqkm", .num (1 / 10))]

/-- An input of `formatForECharts` with one feature. -/
def oneRegion : JsVal :=
  .obj [("type", .str "FeatureCollection"),
    ("features", .arr [.obj [("type", .str "Feature"),
      ("properties", .obj [("name", .str "北京市"), ("adcode", .num 110000)]),
      ("geometry", .obj [("type", .str "Point"),
        ("coordinates", .arr [.num 116, .num 40])])]])]

/-- A feature with the property bag `americasProperties`. -/
def americasFeature : JsVal :=
  .obj [("type", .str "Feature"), ("properties", americasProperties)]

/-- Whether a string property contains `needle`; an absent property contains nothing. -/
def containsText (v : JsVal) (needle : String) : Bool :=
  match v with
  | .str s => decide (needle.data <:+: s.data)
  | _ => false

/-! ## Binary64 rounding -/

/-- The integer nearest to `y`, a tie going to the even neighbour. -/
def roundHalfEven (y : ℚ) : ℤ :=
  if y - (⌊y⌋ : ℚ) < 1 / 2 then ⌊y⌋
  else if 1 / 2 < y - (⌊y⌋ : ℚ) then ⌊y⌋ + 1
  else if ⌊y⌋ % 2 = 0 then ⌊y⌋
  else ⌊y⌋ + 1

/-- The binary64 value nearest to `x`, ties to even: `x` is scaled by the power of two that
brings its magnitude into `[2^52, 2^53)` and rounded to an integer there.  The exponent range
is not bounded: overflow to an infinity and gradual underflow (magnitudes at or above `2^1024`
or below `2^-1022`) are not represented. -/
def roundDouble (x : ℚ) : ℚ :=
  if x = 0 then 0
  else (roundHalfEven (x / (2 : ℚ) ^ (Int.log 2 |x| - 52)) : ℚ) * (2 : ℚ) ^ (Int.log 2 |x| - 52)

/-- A binary64 value in the range where the sums and halves of two such values neither
overflow nor fall below the spacing of the subnormal numbers, so that `roundDouble` is the
rounding of the engine there: zero, or a fixed point of `roundDouble` of magnitude from
`2^-1021` to below `2^1023`. -/
def isBinary64 (x : ℚ) : Prop :=
  roundDouble x = x ∧ (x = 0 ∨ (1 ≤ |x| * 2 ^ 1021 ∧ |x| < 2 ^ 1023))

/-- The sum `a + b` of two numbers, rounded by `fl`. -/
def JsNum.addWith (fl : ℚ → ℚ) (a b : JsNum) : JsNum :=
  match a, b with
  | some x, some y => some (fl (x + y))
  | _, _ => none

/-- The quotient `a / n` by a non-zero count, rounded by `fl`. -/
def JsNum.divNatWith (fl : ℚ → ℚ) (a : JsNum) (n : ℕ) : JsNum :=
  match a with
  | some x => some (fl (x / (n : ℚ)))
  | none => none

namespace WorldDataFetcher

/-- The method `calculateGeoInfo` of `worldDataFetcher.js` with the result of every addition
and division rounded by `fl`: with `fl = roundDouble` these are the binary64 operations of the
engine on coordinates that satisfy `isBinary64`, with `fl` the identity it is
`calculateGeoInfo`.  `Math.min` and `Math.max` return one of their arguments and do not
round. -/
def calculateGeoInfoWith (fl : ℚ → ℚ) (geometry : JsVal) : Except JsError GeoInfo :=
  match geometry.get "coordinates" with
  | .error e => .error e
  | .ok coordinates =>
    if !coordinates.truthy then .ok zeroGeoInfo
    else
      let allCoords := extractAllCoordinates coordinates
      if allCoords.length = 0 then .ok zeroGeoInfo
      else
        let lons := allCoords.map (fun coord => coord.1.asNum)
        let lats := allCoords.map (fun coord => coord.2.asNum)
        let bbox := (mathMin lons, mathMin lats, mathMax lons, mathMax lats)
        let center :=
          (JsNum.divNatWith fl (JsNum.addWith fl bbox.1 bbox.2.2.1) 2,
            JsNum.divNatWith fl (JsNum.addWith fl bbox.2.1 bbox.2.2.2) 2)
        let sumLon :=
          allCoords.foldl (fun sum coord => JsNum.addWith fl sum coord.1.asNum) (some 0)
        let sumLat :=
          allCoords.foldl (fun sum coord => JsNum.addWith fl sum coord.2.asNum) (some 0)
        let centroid :=
          (JsNum.divNatWith fl sumLon allCoords.length,
            JsNum.divNatWith fl sumLat allCoords.length)
        .ok { center := center, centroid := centroid, bbox := bbox }

end WorldDataFetcher

/-- The binary64 value of the JSON number `0.1`, that is `3602879701896397 / 2^55`. -/
def tenth : ℚ := 3602879701896397 / 36028797018963968

/-- The binary64 value `0.10000000000000002`, the successor of `tenth`. -/
def tenthSuccessor : ℚ := 7205759403792795 / 72057594037927936

/-- Three vertices at `[0.1, 0.1]`. -/
def tenthsGeometry : JsVal :=
  .obj [("type", .str "LineString"),
    ("coordinates", .arr [.arr [.num tenth, .num tenth], .arr [.num tenth, .num tenth],
      .arr [.num tenth, .num tenth]])]

/-! ## Sizes within the limits of the engine -/

/-- A number of arguments that a spread call `f(...xs)` accepts on the engine that runs the
scripts; a longer argument list can exhaust the call stack with a `RangeError`, which the
embedding does not represent. -/
def spreadArgumentBound : ℕ := 65535

/-- A nesting depth of arrays that the recursive traversals reach without exhausting the call
stack. -/
def nestingBound : ℕ := 64

mutual
/-- The nesting depth of arrays in a value. -/
def JsVal.depth : JsVal → ℕ
  | .arr xs => depthOfItems xs + 1
  | _ => 0
/-- The greatest nesting depth among the elements of an array. -/
def depthOfItems : List JsVal → ℕ
  | [] => 0
  | x :: rest => max x.depth (depthOfItems rest)
end

/-- A coordinates value of which every extracted point is a pair of two numbers, with at most
`spreadArgumentBound` points and a nesting depth of at most `nestingBound`; the value may hold
further entries that the traversal skips. -/
def hasNumericPoints (coordinates : JsVal) : Prop :=
  ∃ pts : List (ℚ × ℚ),
    WorldDataFetcher.extractAllCoordinates coordinates = pts.map numericCoord ∧
    pts.length ≤ spreadArgumentBound ∧ coordinates.depth ≤ nestingBound
/-! ## Property reads -/

theorem JsVal.get_of_not_nullish (v : JsVal) (k : String) (hu : v ≠ .undefined)
    (hn : v ≠ .null) : v.get k = .ok (v.field k) := by
  cases v <;> simp_all [JsVal.get]

/-! ## Coordinate extraction: lemmas -/

namespace WorldDataFetcher

mutual
theorem extract_acc : ∀ (v : JsVal) (acc : List Coord), extract v acc = acc ++ extract v []
  | .arr xs, acc => by
    unfold extract
    split
    · simp
    · exact extractEach_acc xs acc
  | .undefined, acc => by simp [extract]
  | .null, acc => by simp [extract]
  | .bool _, acc => by simp [extract]
  | .num _, acc => by simp [extract]
  | .str _, acc => by simp [extract]
  | .obj _, acc => by simp [extract]
  | .proto _, acc => by simp [extract]
theorem extractEach_acc : ∀ (xs : List JsVal) (acc : List Coord),
    extractEach xs acc = acc ++ extractEach xs []
  | [], acc => by simp [extractEach]
  | x :: rest, acc => by
    simp only [extractEach]
    rw [extractEach_acc rest (extract x acc), extractEach_acc rest (extract x []),
      extract_acc x acc]
    simp
end

theorem extractEach_eq_flatMap (xs : List JsVal) :
    extractEach xs [] = xs.flatMap extractAllCoordinates := by
  induction xs with
  | nil => simp [extractEach]
  | cons x rest ih =>
    simp only [extractEach, List.flatMap_cons]
    rw [extractEach_acc, ih]
    rfl

theorem extractAllCoordinates_arr (xs : List JsVal) :
    extractAllCoordinates (.arr xs) =
      if isCoordinatePair xs then [(elemAt xs 0, elemAt xs 1)]
      else xs.flatMap extractAllCoordinates := by
  unfold extractAllCoordinates
  rw [extract]
  split
  · simp
  · exact extractEach_eq_flatMap xs

theorem extractAllCoordinates_not_arr (v : JsVal) (h : v.isArray = false) :
    extractAllCoordinates v = [] := by
  cases v <;> simp_all [extractAllCoordinates, extract, JsVal.isArray]

end WorldDataFetcher

theorem isCoordinatePair_toJsList (cs : List CoordTree) :
    isCoordinatePair (CoordTree.toJsList cs) = false := by
  cases cs with
  | nil => simp [isCoordinatePair, CoordTree.toJsList]
  | cons t rest =>
    cases t <;> simp [isCoordinatePair, CoordTree.toJsList, CoordTree.toJs, elemAt,
      JsVal.isNumber]

namespace WorldDataFetcher

mutual
theorem extract_toJs : ∀ t : CoordTree,
    extract t.toJs [] = t.leaves.map numericCoord
  | .pair lon lat => by
    simp [CoordTree.toJs, CoordTree.leaves, extract, isCoordinatePair, elemAt,
      JsVal.isNumber, numericCoord]
  | .node cs => by
    rw [CoordTree.toJs, CoordTree.leaves, extract, isCoordinatePair_toJsList]
    simpa using extractEach_toJsList cs
theorem extractEach_toJsList : ∀ cs : List CoordTree,
    extractEach (CoordTree.toJsList cs) [] = (CoordTree.leavesList cs).map numericCoord
  | [] => by simp [CoordTree.toJsList, CoordTree.leavesList, extractEach]
  | t :: rest => by
    rw [CoordTree.toJsList, CoordTree.leavesList, extractEach, extractEach_acc,
      extract_toJs t, extractEach_toJsList rest]
    simp
end

mutual
theorem extract_length : ∀ (v : JsVal) (acc : List Coord),
    (extract v acc).length = countRecursive v acc.length
  | .arr xs, acc => by
    unfold extract countRecursive
    split
    · simp
    · exact extractEach_length xs acc
  | .undefined, acc => by simp [extract, countRecursive]
  | .null, acc => by simp [extract, countRecursive]
  | .bool _, acc => by simp [extract, countRecursive]
  | .num _, acc => by simp [extract, countRecursive]
  | .str _, acc => by simp [extract, countRecursive]
  | .obj _, acc => by simp [extract, countRecursive]
  | .proto _, acc => by simp [extract, countRecursive]
theorem extractEach_length : ∀ (xs : List JsVal) (acc : List Coord),
    (extractEach xs acc).length = countEach xs acc.length
  | [], acc => by simp [extractEach, countEach]
  | x :: rest, acc => by
    rw [extractEach, countEach, extractEach_length rest, extract_length x]
end

end WorldDataFetcher

/-! ## Minimum, maximum and sum of a list of numbers -/

theorem foldl_min_isLeast (x : ℚ) (xs : List ℚ) :
    IsLeast {y | y ∈ x :: xs} (xs.foldl min x) := by
  induction xs generalizing x with
  | nil => simp [IsLeast, lowerBounds]
  | cons a rest ih =>
    obtain ⟨hmem, hlow⟩ := ih (min x a)
    constructor
    · simp only [Set.mem_setOf_eq, List.foldl_cons, List.mem_cons] at hmem ⊢
      rcases hmem with h | h
      · rcases min_choice x a with hx | ha
        · left; rw [h, hx]
        · right; left; rw [h, ha]
      · right; right; exact h
    · intro y hy
      simp only [Set.mem_setOf_eq, List.mem_cons] at hy
      simp only [List.foldl_cons]
      have hm : rest.foldl min (min x a) ≤ min x a := hlow (by simp)
      rcases hy with h | h | h
      · rw [h]; exact le_trans hm (min_le_left _ _)
      · rw [h]; exact le_trans hm (min_le_right _ _)
      · exact hlow (by simp [h])

theorem foldl_max_isGreatest (x : ℚ) (xs : List ℚ) :
    IsGreatest {y | y ∈ x :: xs} (xs.foldl max x) := by
  induction xs generalizing x with
  | nil => simp [IsGreatest, upperBounds]
  | cons a rest ih =>
    obtain ⟨hmem, hup⟩ := ih (max x a)
    constructor
    · simp only [Set.mem_setOf_eq, List.foldl_cons, List.mem_cons] at hmem ⊢
      rcases hmem with h | h
      · rcases max_choice x a with hx | ha
        · left; rw [h, hx]
        · right; left; rw [h, ha]
      · right; right; exact h
    · intro y hy
      simp only [Set.mem_setOf_eq, List.mem_cons] at hy
      simp only [List.foldl_cons]
      have hm : max x a ≤ rest.foldl max (max x a) := hup (by simp)
      rcases hy with h | h | h
      · rw [h]; exact le_trans (le_max_left _ _) hm
      · rw [h]; exact le_trans (le_max_right _ _) hm
      · exact hup (by simp [h])

theorem foldl_JsNum_min (x : ℚ) (xs : List ℚ) :
    (xs.map some).foldl JsNum.min (some x) = some (xs.foldl min x) := by
  induction xs generalizing x with
  | nil => rfl
  | cons a rest ih => simpa [JsNum.min] using ih (min x a)

theorem foldl_JsNum_max (x : ℚ) (xs : List ℚ) :
    (xs.map some).foldl JsNum.max (some x) = some (xs.foldl max x) := by
  induction xs generalizing x with
  | nil => rfl
  | cons a rest ih => simpa [JsNum.max] using ih (max x a)

theorem mathMin_numbers (x : ℚ) (xs : List ℚ) :
    ∃ lo, mathMin ((x :: xs).map some) = some lo ∧ IsLeast {y | y ∈ x :: xs} lo :=
  ⟨xs.foldl min x, by simp [mathMin, foldl_JsNum_min], foldl_min_isLeast x xs⟩

theorem mathMax_numbers (x : ℚ) (xs : List ℚ) :
    ∃ hi, mathMax ((x :: xs).map some) = some hi ∧ IsGreatest {y | y ∈ x :: xs} hi :=
  ⟨xs.foldl max x, by simp [mathMax, foldl_JsNum_max], foldl_max_isGreatest x xs⟩

theorem JsNum.add_some (x y : ℚ) : JsNum.add (some x) (some y) = some (x + y) := rfl

theorem JsNum.divNat_some (x : ℚ) (n : ℕ) : JsNum.divNat (some x) n = some (x / (n : ℚ)) := rfl

theorem foldl_add_numbers {α : Type} (f : α → ℚ) (xs : List α) (a : ℚ) :
    xs.foldl (fun sum c => JsNum.add sum (some (f c))) (some a) =
      some (a + (xs.map f).sum) := by
  induction xs generalizing a with
  | nil => simp
  | cons c rest ih =>
    simp only [List.foldl_cons, JsNum.add_some, List.map_cons, List.sum_cons]
    rw [ih, add_assoc]

namespace WorldDataFetcher

/-- On a geometry whose extracted points are the numeric pairs `pts`, not empty,
`calculateGeoInfo` returns the minima and maxima of the coordinates as `bbox`, their midpoints
as `center` and the coordinate sums divided by the count as `centroid`. -/
theorem calculateGeoInfo_numeric (geometry : JsVal) (pts : List (ℚ × ℚ)) (hne : pts ≠ [])
    (hpts : extractAllCoordinates (geometry.field "coordinates") = pts.map numericCoord) :
    ∃ minLon minLat maxLon maxLat : ℚ,
      IsLeast {x | x ∈ pts.map Prod.fst} minLon ∧ IsLeast {y | y ∈ pts.map Prod.snd} minLat ∧
      IsGreatest {x | x ∈ pts.map Prod.fst} maxLon ∧
      IsGreatest {y | y ∈ pts.map Prod.snd} maxLat ∧
      calculateGeoInfo geometry = .ok
        { center := (some ((minLon + maxLon) / 2), some ((minLat + maxLat) / 2))
          centroid := (some ((pts.map Prod.fst).sum / (pts.length : ℚ)),
            some ((pts.map Prod.snd).sum / (pts.length : ℚ)))
          bbox := (some minLon, some minLat, some maxLon, some maxLat) } := by
  obtain ⟨p, ps, rfl⟩ := List.exists_cons_of_ne_nil hne
  have hcoord : (geometry.field "coordinates").truthy = true := by
    cases hc : geometry.field "coordinates" <;>
      simp_all [extractAllCoordinates, extract, JsVal.truthy]
  have hget : geometry.get "coordinates" = .ok (geometry.field "coordinates") := by
    cases geometry <;> simp_all [JsVal.get, JsVal.field, JsVal.truthy]
  obtain ⟨lo1, hlo1, hL1⟩ := mathMin_numbers p.1 (ps.map Prod.fst)
  obtain ⟨lo2, hlo2, hL2⟩ := mathMin_numbers p.2 (ps.map Prod.snd)
  obtain ⟨hi1, hhi1, hG1⟩ := mathMax_numbers p.1 (ps.map Prod.fst)
  obtain ⟨hi2, hhi2, hG2⟩ := mathMax_numbers p.2 (ps.map Prod.snd)
  refine ⟨lo1, lo2, hi1, hi2, by simpa using hL1, by simpa using hL2, by simpa using hG1,
    by simpa using hG2, ?_⟩
  have hlons : (List.map numericCoord (p :: ps)).map (fun coord => coord.1.asNum) =
      (p.1 :: ps.map Prod.fst).map some := by
    simp [numericCoord, JsVal.asNum, Function.comp_def]
  have hlats : (List.map numericCoord (p :: ps)).map (fun coord => coord.2.asNum) =
      (p.2 :: ps.map Prod.snd).map some := by
    simp [numericCoord, JsVal.asNum, Function.comp_def]
  have hsum1 : (List.map numericCoord (p :: ps)).foldl
      (fun sum coord => JsNum.add sum coord.1.asNum) (some 0) =
      some (((p :: ps).map Prod.fst).sum) := by
    have := foldl_add_numbers (fun c : ℚ × ℚ => c.1) (p :: ps) 0
    rw [List.foldl_map]
    simpa [numericCoord, JsVal.asNum] using this
  have hsum2 : (List.map numericCoord (p :: ps)).foldl
      (fun sum coord => JsNum.add sum coord.2.asNum) (some 0) =
      some (((p :: ps).map Prod.snd).sum) := by
    have := foldl_add_numbers (fun c : ℚ × ℚ => c.2) (p :: ps) 0
    rw [List.foldl_map]
    simpa [numericCoord, JsVal.asNum] using this
  unfold calculateGeoInfo
  rw [hget]
  simp only [hcoord, hpts, Bool.not_true, Bool.false_eq_true, if_false]
  rw [if_neg (by simp)]
  simp only [hlons, hlats, hsum1, hsum2, hlo1, hlo2, hhi1, hhi2, JsNum.add_some,
    JsNum.divNat_some, List.length_map]
  norm_num

theorem squareGeometry_points :
    extractAllCoordinates (squareGeometry.field "coordinates") =
      squarePoints.map numericCoord := rfl

theorem calculateGeoInfo_square : calculateGeoInfo squareGeometry = .ok
    { center := (some 1, some 1), centroid := (some 1, some 1),
      bbox := (some 0, some 0, some 2, some 2) } := by
  have hc : (squareGeometry.field "coordinates").truthy = true := rfl
  have hget : squareGeometry.get "coordinates" = .ok (squareGeometry.field "coordinates") :=
    rfl
  unfold calculateGeoInfo
  rw [hget]
  simp only [hc, squareGeometry_points]
  simp [squarePoints, numericCoord, JsVal.asNum, mathMin, mathMax, JsNum.min, JsNum.max,
    JsNum.add, JsNum.divNat]
  norm_num

/-- A geometry without extracted points gets the zero defaults, whatever its shape. -/
theorem calculateGeoInfo_no_points (g : JsVal)
    (h : extractAllCoordinates (((g.or (.obj [])).field "coordinates")) = []) :
    calculateGeoInfo (g.or (.obj [])) = .ok zeroGeoInfo := by
  have hget : (g.or (.obj [])).get "coordinates" = .ok ((g.or (.obj [])).field "coordinates") := by
    unfold JsVal.or
    split
    · cases g <;> simp_all [JsVal.get, JsVal.truthy]
    · rfl
  unfold calculateGeoInfo
  rw [hget]
  simp only [h]
  split <;> simp

end WorldDataFetcher

namespace CorrectedWorldData

mutual
theorem extract_eq : ∀ (v : JsVal) (acc : List Coord),
    extract v acc = WorldDataFetcher.extract v acc
  | .arr xs, acc => by
    unfold extract WorldDataFetcher.extract
    split
    · rfl
    · exact extractEach_eq xs acc
  | .undefined, acc => by simp [extract, WorldDataFetcher.extract]
  | .null, acc => by simp [extract, WorldDataFetcher.extract]
  | .bool _, acc => by simp [extract, WorldDataFetcher.extract]
  | .num _, acc => by simp [extract, WorldDataFetcher.extract]
  | .str _, acc => by simp [extract, WorldDataFetcher.extract]
  | .obj _, acc => by simp [extract, WorldDataFetcher.extract]
  | .proto _, acc => by simp [extract, WorldDataFetcher.extract]
theorem extractEach_eq : ∀ (xs : List JsVal) (acc : List Coord),
    extractEach xs acc = WorldDataFetcher.extractEach xs acc
  | [], acc => by simp [extractEach, WorldDataFetcher.extractEach]
  | x :: rest, acc => by
    rw [extractEach, WorldDataFetcher.extractEach, extract_eq x acc, extractEach_eq rest]
end

theorem extractAllCoordinates_eq (v : JsVal) :
    extractAllCoordinates v = WorldDataFetcher.extractAllCoordinates v :=
  extract_eq v []

end CorrectedWorldData

/-! ## Coordinate extractor and geometry summariser: the claims -/

/-- C1: on every nested coordinate array with numeric `[lon, lat]` leaves, at any nesting depth,
`extractAllCoordinates` (both copies) returns exactly the leaf pairs, depth first and left to
right; and on every array, a node of length at least 2 whose first element is a number is
emitted as one pair, any other array yields the concatenation of the results of its
children. -/
theorem C1_extractAllCoordinates_leaf_pairs :
    (∀ t : CoordTree,
      WorldDataFetcher.extractAllCoordinates t.toJs = t.leaves.map numericCoord ∧
      CorrectedWorldData.extractAllCoordinates t.toJs = t.leaves.map numericCoord) ∧
    (∀ xs : List JsVal,
      WorldDataFetcher.extractAllCoordinates (.arr xs) =
        (if isCoordinatePair xs then [(elemAt xs 0, elemAt xs 1)]
         else xs.flatMap WorldDataFetcher.extractAllCoordinates) ∧
      CorrectedWorldData.extractAllCoordinates (.arr xs) =
        (if isCoordinatePair xs then [(elemAt xs 0, elemAt xs 1)]
         else xs.flatMap CorrectedWorldData.extractAllCoordinates)) := by
  refine ⟨fun t => ⟨WorldDataFetcher.extract_toJs t, ?_⟩, fun xs =>
    ⟨WorldDataFetcher.extractAllCoordinates_arr xs, ?_⟩⟩
  · rw [CorrectedWorldData.extractAllCoordinates_eq]
    exact WorldDataFetcher.extract_toJs t
  · have hfun : CorrectedWorldData.extractAllCoordinates =
        WorldDataFetcher.extractAllCoordinates :=
      funext CorrectedWorldData.extractAllCoordinates_eq
    rw [hfun]
    exact WorldDataFetcher.extractAllCoordinates_arr xs

/-- C2: for every geometry whose extracted point sequence `pts` is not empty, the `bbox`
returned by `calculateGeoInfo` is `[minLon, minLat, maxLon, maxLat]` with
`minLon ≤ lon ≤ maxLon` and `minLat ≤ lat ≤ maxLat` for every extracted point, hence
`minLon ≤ maxLon` and `minLat ≤ maxLat`; for the square (0,0),(0,2),(2,2),(2,0) the `bbox` is
`[0,0,2,2]`. -/
theorem C2_bbox_encloses_points :
    (∀ (geometry : JsVal) (pts : List (ℚ × ℚ)), pts ≠ [] →
      WorldDataFetcher.extractAllCoordinates (geometry.field "coordinates") =
        pts.map numericCoord →
      ∃ info minLon minLat maxLon maxLat,
        WorldDataFetcher.calculateGeoInfo geometry = .ok info ∧
        info.bbox = (some minLon, some minLat, some maxLon, some maxLat) ∧
        (∀ p ∈ pts, minLon ≤ p.1 ∧ p.1 ≤ maxLon ∧ minLat ≤ p.2 ∧ p.2 ≤ maxLat) ∧
        minLon ≤ maxLon ∧ minLat ≤ maxLat) ∧
    (∃ info, WorldDataFetcher.calculateGeoInfo squareGeometry = .ok info ∧
      info.bbox = (some 0, some 0, some 2, some 2)) := by
  refine ⟨?_, ⟨_, WorldDataFetcher.calculateGeoInfo_square, rfl⟩⟩
  intro geometry pts hne hpts
  obtain ⟨minLon, minLat, maxLon, maxLat, hL1, hL2, hG1, hG2, hinfo⟩ :=
    WorldDataFetcher.calculateGeoInfo_numeric geometry pts hne hpts
  refine ⟨_, minLon, minLat, maxLon, maxLat, hinfo, rfl, ?_, ?_, ?_⟩
  · intro p hp
    exact ⟨hL1.2 (List.mem_map_of_mem _ hp), hG1.2 (List.mem_map_of_mem _ hp),
      hL2.2 (List.mem_map_of_mem _ hp), hG2.2 (List.mem_map_of_mem _ hp)⟩
  · exact hG1.2 hL1.1
  · exact hG2.2 hL2.1

theorem C2_bbox_encloses_points_witness :
    ∃ info minLon minLat maxLon maxLat,
      WorldDataFetcher.calculateGeoInfo squareGeometry = .ok info ∧
      info.bbox = (some minLon, some minLat, some maxLon, some maxLat) ∧
      (∀ p ∈ squarePoints, minLon ≤ p.1 ∧ p.1 ≤ maxLon ∧ minLat ≤ p.2 ∧ p.2 ≤ maxLat) ∧
      minLon ≤ maxLon ∧ minLat ≤ maxLat :=
  C2_bbox_encloses_points.1 squareGeometry squarePoints (by simp [squarePoints])
    WorldDataFetcher.squareGeometry_points

/-- C3: for every geometry whose extracted point sequence `pts` is not empty, the `center`
returned by `calculateGeoInfo` is the midpoint `[(minLon+maxLon)/2, (minLat+maxLat)/2]` of the
returned `bbox`, where `minLon`, `maxLon`, `minLat`, `maxLat` are the least and greatest
longitude and latitude over all extracted points; for the square it is `[1,1]`. -/
theorem C3_center_is_bbox_midpoint :
    (∀ (geometry : JsVal) (pts : List (ℚ × ℚ)), pts ≠ [] →
      WorldDataFetcher.extractAllCoordinates (geometry.field "coordinates") =
        pts.map numericCoord →
      ∃ info minLon minLat maxLon maxLat,
        WorldDataFetcher.calculateGeoInfo geometry = .ok info ∧
        IsLeast {x | x ∈ pts.map Prod.fst} minLon ∧
        IsLeast {y | y ∈ pts.map Prod.snd} minLat ∧
        IsGreatest {x | x ∈ pts.map Prod.fst} maxLon ∧
        IsGreatest {y | y ∈ pts.map Prod.snd} maxLat ∧
        info.bbox = (some minLon, some minLat, some maxLon, some maxLat) ∧
        info.center = (some ((minLon + maxLon) / 2), some ((minLat + maxLat) / 2))) ∧
    (∃ info, WorldDataFetcher.calculateGeoInfo squareGeometry = .ok info ∧
      info.center = (some 1, some 1)) := by
  refine ⟨?_, ⟨_, WorldDataFetcher.calculateGeoInfo_square, rfl⟩⟩
  intro geometry pts hne hpts
  obtain ⟨minLon, minLat, maxLon, maxLat, hL1, hL2, hG1, hG2, hinfo⟩ :=
    WorldDataFetcher.calculateGeoInfo_numeric geometry pts hne hpts
  exact ⟨_, minLon, minLat, maxLon, maxLat, hinfo, hL1, hL2, hG1, hG2, rfl, rfl⟩

theorem C3_center_is_bbox_midpoint_witness :
    ∃ info minLon minLat maxLon maxLat,
      WorldDataFetcher.calculateGeoInfo squareGeometry = .ok info ∧
      IsLeast {x | x ∈ squarePoints.map Prod.fst} minLon ∧
      IsLeast {y | y ∈ squarePoints.map Prod.snd} minLat ∧
      IsGreatest {x | x ∈ squarePoints.map Prod.fst} maxLon ∧
      IsGreatest {y | y ∈ squarePoints.map Prod.snd} maxLat ∧
      info.bbox = (some minLon, some minLat, some maxLon, some maxLat) ∧
      info.center = (some ((minLon + maxLon) / 2), some ((minLat + maxLat) / 2)) :=
  C3_center_is_bbox_midpoint.1 squareGeometry squarePoints (by simp [squarePoints])
    WorldDataFetcher.squareGeometry_points

/-- C4: for every geometry whose extracted point sequence `pts` is not empty, the `centroid`
returned by `calculateGeoInfo` is the unweighted arithmetic mean
`[sum of lon / n, sum of lat / n]` over all `n` extracted points, repeated vertices counted
each time; for the square it is `[1,1]`. -/
theorem C4_centroid_is_vertex_mean :
    (∀ (geometry : JsVal) (pts : List (ℚ × ℚ)), pts ≠ [] →
      WorldDataFetcher.extractAllCoordinates (geometry.field "coordinates") =
        pts.map numericCoord →
      ∃ info, WorldDataFetcher.calculateGeoInfo geometry = .ok info ∧
        info.centroid = (some ((pts.map Prod.fst).sum / (pts.length : ℚ)),
          some ((pts.map Prod.snd).sum / (pts.length : ℚ)))) ∧
    (∃ info, WorldDataFetcher.calculateGeoInfo squareGeometry = .ok info ∧
      info.centroid = (some 1, some 1)) := by
  refine ⟨?_, ⟨_, WorldDataFetcher.calculateGeoInfo_square, rfl⟩⟩
  intro geometry pts hne hpts
  obtain ⟨minLon, minLat, maxLon, maxLat, -, -, -, -, hinfo⟩ :=
    WorldDataFetcher.calculateGeoInfo_numeric geometry pts hne hpts
  exact ⟨_, hinfo, rfl⟩

theorem C4_centroid_is_vertex_mean_witness :
    ∃ info, WorldDataFetcher.calculateGeoInfo squareGeometry = .ok info ∧
      info.centroid = (some ((squarePoints.map Prod.fst).sum / (squarePoints.length : ℚ)),
        some ((squarePoints.map Prod.snd).sum / (squarePoints.length : ℚ))) :=
  C4_centroid_is_vertex_mean.1 squareGeometry squarePoints (by simp [squarePoints])
    WorldDataFetcher.squareGeometry_points

namespace WorldDataFetcher

theorem countCoordinates_eq_length (v : JsVal) :
    countCoordinates v = (extractAllCoordinates v).length := by
  unfold countCoordinates extractAllCoordinates
  rw [extract_length]
  rfl

theorem extractAllCoordinates_falsy (v : JsVal) (h : v.truthy = false) :
    extractAllCoordinates v = [] := by
  cases v <;> simp_all [extractAllCoordinates, extract, JsVal.truthy]

/-- The record that the callback of `.map` builds once the country information is known. -/
theorem mapCallback_ok (feature : JsVal) (index : ℕ) (hu : feature ≠ .undefined)
    (hn : feature ≠ .null) (info : CountryInfo) (geo : GeoInfo)
    (hinfo : getCountryInfo ((feature.field "properties").or (.obj [])) = .ok info)
    (hgeo : calculateGeoInfo ((feature.field "geometry").or (.obj [])) = .ok geo) :
    ∃ r, mapCallback feature index = .ok r ∧ r.id = index + 1 ∧ r.bbox = geo.bbox ∧
      r.center = geo.center ∧ r.centroid = geo.centroid ∧
      r.coordinates_count =
        countCoordinates (((feature.field "geometry").or (.obj [])).field "coordinates") := by
  unfold mapCallback
  rw [JsVal.get_of_not_nullish feature "properties" hu hn,
    JsVal.get_of_not_nullish feature "geometry" hu hn]
  simp only [hinfo, hgeo]
  exact ⟨_, rfl, rfl, rfl, rfl, rfl, rfl⟩

end WorldDataFetcher

/-- C5: for every feature whose geometry is missing, whose coordinates are missing or empty, or
whose coordinate tree contains no coordinate pair, `calculateGeoInfo` and `countCoordinates`
return without an error, and the record that `processGeoJSONData` builds for the feature has
`bbox = [0,0,0,0]`, `center = [0,0]`, `centroid = [0,0]` and `coordinates_count = 0`; the
record is built whenever the name lookup of `getCountryInfo` succeeds, which is the only step
of the callback that can fail on a feature object. -/
theorem C5_empty_geometry_defaults (feature : JsVal) (index : ℕ)
    (hu : feature ≠ .undefined) (hn : feature ≠ .null)
    (h : (feature.field "geometry").truthy = false ∨
      (((feature.field "geometry").or (.obj [])).field "coordinates").truthy = false ∨
      ((feature.field "geometry").or (.obj [])).field "coordinates" = .arr [] ∨
      WorldDataFetcher.extractAllCoordinates
        (((feature.field "geometry").or (.obj [])).field "coordinates") = []) :
    WorldDataFetcher.calculateGeoInfo ((feature.field "geometry").or (.obj [])) =
      .ok WorldDataFetcher.zeroGeoInfo ∧
    WorldDataFetcher.countCoordinates
      (((feature.field "geometry").or (.obj [])).field "coordinates") = 0 ∧
    (∀ info, WorldDataFetcher.getCountryInfo ((feature.field "properties").or (.obj [])) =
        .ok info →
      ∃ r, WorldDataFetcher.mapCallback feature index = .ok r ∧
        r.bbox = (some 0, some 0, some 0, some 0) ∧ r.center = (some 0, some 0) ∧
        r.centroid = (some 0, some 0) ∧ r.coordinates_count = 0) ∧
    (∀ e, WorldDataFetcher.mapCallback feature index = .error e →
      WorldDataFetcher.getCountryInfo ((feature.field "properties").or (.obj [])) =
        .error e) := by
  have hnone : WorldDataFetcher.extractAllCoordinates
      (((feature.field "geometry").or (.obj [])).field "coordinates") = [] := by
    rcases h with h | h | h | h
    · have : (feature.field "geometry").or (.obj []) = .obj [] := by simp [JsVal.or, h]
      rw [this]
      rfl
    · exact WorldDataFetcher.extractAllCoordinates_falsy _ h
    · rw [h]; rfl
    · exact h
  have hgeo := WorldDataFetcher.calculateGeoInfo_no_points (feature.field "geometry") hnone
  have hcount : WorldDataFetcher.countCoordinates
      (((feature.field "geometry").or (.obj [])).field "coordinates") = 0 := by
    rw [WorldDataFetcher.countCoordinates_eq_length, hnone]
    rfl
  refine ⟨hgeo, hcount, ?_, ?_⟩
  · intro info hinfo
    obtain ⟨r, hr, -, hb, hc, hd, hk⟩ :=
      WorldDataFetcher.mapCallback_ok feature index hu hn info _ hinfo hgeo
    exact ⟨r, hr, hb, hc, hd, by rw [hk, hcount]⟩
  · intro e he
    unfold WorldDataFetcher.mapCallback at he
    rw [JsVal.get_of_not_nullish feature "properties" hu hn,
      JsVal.get_of_not_nullish feature "geometry" hu hn] at he
    simp only [hgeo] at he
    split at he
    · simp_all
    · simp at he

/-- A feature without a geometry. -/
theorem C5_empty_geometry_defaults_witness :
    WorldDataFetcher.calculateGeoInfo
      (((namedFeature "JP" "Japan").field "geometry").or (.obj [])) =
      .ok WorldDataFetcher.zeroGeoInfo ∧
    WorldDataFetcher.countCoordinates
      ((((namedFeature "JP" "Japan").field "geometry").or (.obj [])).field "coordinates") = 0 ∧
    (∀ info, WorldDataFetcher.getCountryInfo
        (((namedFeature "JP" "Japan").field "properties").or (.obj [])) = .ok info →
      ∃ r, WorldDataFetcher.mapCallback (namedFeature "JP" "Japan") 0 = .ok r ∧
        r.bbox = (some 0, some 0, some 0, some 0) ∧ r.center = (some 0, some 0) ∧
        r.centroid = (some 0, some 0) ∧ r.coordinates_count = 0) ∧
    (∀ e, WorldDataFetcher.mapCallback (namedFeature "JP" "Japan") 0 = .error e →
      WorldDataFetcher.getCountryInfo
        (((namedFeature "JP" "Japan").field "properties").or (.obj [])) = .error e) :=
  C5_empty_geometry_defaults (namedFeature "JP" "Japan") 0 (by simp [namedFeature])
    (by simp [namedFeature]) (Or.inl rfl)

/-- C6: for every coordinates value, of any nesting and shape, `countCoordinates` returns the
length of the list returned by `extractAllCoordinates`; the `coordinates_count` of a record
built by `processGeoJSONData` is therefore the number of points of the geometry that `bbox`,
`center` and `centroid` are computed from. -/
theorem C6_count_equals_extracted_length :
    (∀ coordinates : JsVal,
      WorldDataFetcher.countCoordinates coordinates =
        (WorldDataFetcher.extractAllCoordinates coordinates).length) ∧
    (∀ (feature : JsVal) (index : ℕ) (r : WorldDataFetcher.WorldRecord),
      WorldDataFetcher.mapCallback feature index = .ok r →
      r.coordinates_count =
        (WorldDataFetcher.extractAllCoordinates
          (((feature.field "geometry").or (.obj [])).field "coordinates")).length) := by
  refine ⟨WorldDataFetcher.countCoordinates_eq_length, ?_⟩
  intro feature index r hr
  have hu : feature ≠ .undefined := by
    rintro rfl
    simp [WorldDataFetcher.mapCallback, JsVal.get] at hr
  have hn : feature ≠ .null := by
    rintro rfl
    simp [WorldDataFetcher.mapCallback, JsVal.get] at hr
  unfold WorldDataFetcher.mapCallback at hr
  rw [JsVal.get_of_not_nullish feature "properties" hu hn,
    JsVal.get_of_not_nullish feature "geometry" hu hn] at hr
  simp only at hr
  split at hr
  · simp at hr
  · split at hr
    · simp at hr
    · simp only [Except.ok.injEq] at hr
      rw [← hr]
      exact WorldDataFetcher.countCoordinates_eq_length _

/-- The record of the square polygon counts its four vertices. -/
theorem C6_count_equals_extracted_length_witness :
    ∃ r, WorldDataFetcher.mapCallback (.obj [("geometry", squareGeometry)]) 0 = .ok r ∧
      r.coordinates_count =
        (WorldDataFetcher.extractAllCoordinates
          (((JsVal.field (.obj [("geometry", squareGeometry)]) "geometry").or
            (.obj [])).field "coordinates")).length :=
  ⟨_, rfl, C6_count_equals_extracted_length.2 (.obj [("geometry", squareGeometry)]) 0 _ rfl⟩

/-! ## Sovereignty filter: lemmas -/

theorem filterArray_singleton {α : Type} (keep : α → Except JsError JsVal) (x : α) (v : JsVal)
    (h : keep x = .ok v) : filterArray keep [x] = .ok (if v.truthy then [x] else []) := by
  simp [filterArray, h]

theorem JsVal.and_chain_truthy (a b : Bool) (c : JsVal) :
    (((JsVal.bool a).and (.bool b)).and c).truthy = (a && b && c.truthy) := by
  cases a <;> cases b <;> simp [JsVal.and, JsVal.truthy]

namespace CorrectedWorldData

theorem hasValidISO_str_truthy (s : String) :
    (hasValidISO (.str s)).truthy = true ↔ s ≠ "" ∧ utf16Length s = 2 := by
  by_cases hs : s = ""
  · subst hs
    simp [hasValidISO, JsVal.and, JsVal.truthy]
  · have h2 : ((utf16Length s : ℚ) = 2) ↔ utf16Length s = 2 := by
      constructor
      · intro h; exact_mod_cast h
      · intro h; exact_mod_cast h
    simp [hasValidISO, JsVal.and, JsVal.truthy, JsVal.field, JsVal.isNum, hs, h2]

/-- The value returned by the sovereignty filter once the repaired code is known. -/
theorem sovereignFilter_ok (feature : JsVal) (hu : feature ≠ .undefined)
    (hn : feature ≠ .null) (code : JsVal)
    (hcode : fixIsoA2Code (((feature.field "properties").or (.obj [])).field "ISO_A2")
      (filterName ((feature.field "properties").or (.obj []))) = .ok code) :
    sovereignFilter feature = .ok
      (((JsVal.bool (setHas UN_MEMBER_CODES code)).and
        (.bool (!setHas EXCLUDED_TERRITORIES
          (filterName ((feature.field "properties").or (.obj [])))))).and
        (hasValidISO code)) := by
  unfold sovereignFilter
  rw [JsVal.get_of_not_nullish feature "properties" hu hn]
  simp only [hcode]

theorem fixIsoA2Code_string_name (isoCode : JsVal) (s : String) :
    ∃ code, fixIsoA2Code isoCode (.str s) = .ok code := by
  unfold fixIsoA2Code
  split
  · simp only [toPropertyKey]
    split
    · exact ⟨_, rfl⟩
    · exact ⟨_, rfl⟩
  · exact ⟨_, rfl⟩

theorem fixIsoA2Code_not_sentinel (isoCode name : JsVal) (h : isoCode.isStr "-99" = false) :
    fixIsoA2Code isoCode name = .ok isoCode := by
  simp [fixIsoA2Code, h]

end CorrectedWorldData

theorem setHas_iff (set : List String) (v : JsVal) :
    setHas set v = true ↔ ∃ s, v = .str s ∧ s ∈ set := by
  cases v <;> simp [setHas]

theorem setHas_false_iff (set : List String) (v : JsVal) :
    setHas set v = false ↔ ∀ s, v = .str s → s ∉ set := by
  cases v <;> simp [setHas]

namespace CorrectedWorldData

/-- The filter value is truthy exactly when the three conditions hold. -/
theorem filter_value_truthy_iff (code name : JsVal) :
    (((JsVal.bool (setHas UN_MEMBER_CODES code)).and
        (.bool (!setHas EXCLUDED_TERRITORIES name))).and (hasValidISO code)).truthy = true ↔
      ((∃ s, code = .str s ∧ s ∈ UN_MEMBER_CODES) ∧
        (∀ s, name = .str s → s ∉ EXCLUDED_TERRITORIES) ∧
        (∃ s, code = .str s ∧ s ≠ "" ∧ utf16Length s = 2)) := by
  rw [JsVal.and_chain_truthy]
  simp only [Bool.and_eq_true, Bool.not_eq_true', setHas_iff, setHas_false_iff]
  constructor
  · rintro ⟨⟨⟨s, rfl, hs⟩, hex⟩, hv⟩
    exact ⟨⟨s, rfl, hs⟩, hex, s, rfl, (hasValidISO_str_truthy s).1 hv⟩
  · rintro ⟨⟨s, rfl, hs⟩, hex, t, ht, hv⟩
    refine ⟨⟨⟨s, rfl, hs⟩, hex⟩, ?_⟩
    cases ht
    exact (hasValidISO_str_truthy s).2 hv

theorem filter_absent_properties (feature : JsVal) (hu : feature ≠ .undefined)
    (hn : feature ≠ .null) (h : feature.field "properties" = .undefined) :
    filterArray sovereignFilter [feature] = .ok [] := by
  have hv : sovereignFilter feature = .ok (.bool false) := by
    unfold sovereignFilter
    rw [JsVal.get_of_not_nullish feature "properties" hu hn, h]
    rfl
  rw [filterArray_singleton _ _ _ hv]
  rfl

theorem ZZ_not_member : setHas UN_MEMBER_CODES (.str "ZZ") = false := by
  decide

end CorrectedWorldData

/-! ## Sovereignty filter: the claims -/

/-- C7: the sovereignty filter of `getCorrectedWorldData` retains a feature if and only if all
three conditions hold, with `name = NAME || NAME_LONG || ''` and
`code = fixIsoA2Code(ISO_A2, name)`: (1) `code` is in `UN_MEMBER_CODES`, (2) `name` is not in
`EXCLUDED_TERRITORIES`, (3) `code` is a non-empty string of exactly 2 characters; otherwise the
feature is dropped.  The code exists for every string name.  A feature whose code is `"ZZ"` is
dropped whatever its name, and a feature without properties is dropped without an error. -/
theorem C7_sovereignty_filter_three_conditions (feature : JsVal)
    (hu : feature ≠ .undefined) (hn : feature ≠ .null) :
    (∀ code,
      CorrectedWorldData.fixIsoA2Code
        (((feature.field "properties").or (.obj [])).field "ISO_A2")
        (CorrectedWorldData.filterName ((feature.field "properties").or (.obj []))) =
          .ok code →
      (((∃ s, code = .str s ∧ s ∈ CorrectedWorldData.UN_MEMBER_CODES) ∧
        (∀ s, CorrectedWorldData.filterName ((feature.field "properties").or (.obj [])) =
          .str s → s ∉ CorrectedWorldData.EXCLUDED_TERRITORIES) ∧
        (∃ s, code = .str s ∧ s ≠ "" ∧ utf16Length s = 2)) →
        filterArray CorrectedWorldData.sovereignFilter [feature] = .ok [feature]) ∧
      (¬((∃ s, code = .str s ∧ s ∈ CorrectedWorldData.UN_MEMBER_CODES) ∧
        (∀ s, CorrectedWorldData.filterName ((feature.field "properties").or (.obj [])) =
          .str s → s ∉ CorrectedWorldData.EXCLUDED_TERRITORIES) ∧
        (∃ s, code = .str s ∧ s ≠ "" ∧ utf16Length s = 2)) →
        filterArray CorrectedWorldData.sovereignFilter [feature] = .ok [])) ∧
    (∀ s, CorrectedWorldData.filterName ((feature.field "properties").or (.obj [])) = .str s →
      ∃ code, CorrectedWorldData.fixIsoA2Code
        (((feature.field "properties").or (.obj [])).field "ISO_A2")
        (CorrectedWorldData.filterName ((feature.field "properties").or (.obj []))) =
          .ok code) ∧
    (((feature.field "properties").or (.obj [])).field "ISO_A2" = .str "ZZ" →
      filterArray CorrectedWorldData.sovereignFilter [feature] = .ok []) ∧
    (feature.field "properties" = .undefined →
      filterArray CorrectedWorldData.sovereignFilter [feature] = .ok []) := by
  refine ⟨?_, ?_, ?_, CorrectedWorldData.filter_absent_properties feature hu hn⟩
  · intro code hcode
    have hv := CorrectedWorldData.sovereignFilter_ok feature hu hn code hcode
    have hiff := CorrectedWorldData.filter_value_truthy_iff code
      (CorrectedWorldData.filterName ((feature.field "properties").or (.obj [])))
    rw [filterArray_singleton _ _ _ hv]
    constructor
    · intro hc
      rw [if_pos (hiff.2 hc)]
    · intro hc
      rw [if_neg (fun ht => hc (hiff.1 ht))]
  · intro s hs
    rw [hs]
    exact CorrectedWorldData.fixIsoA2Code_string_name _ s
  · intro hzz
    have hcode := CorrectedWorldData.fixIsoA2Code_not_sentinel (.str "ZZ")
      (CorrectedWorldData.filterName ((feature.field "properties").or (.obj [])))
      (by decide)
    rw [← hzz] at hcode
    have hv := CorrectedWorldData.sovereignFilter_ok feature hu hn _ hcode
    rw [filterArray_singleton _ _ _ hv, JsVal.and_chain_truthy, hzz,
      CorrectedWorldData.ZZ_not_member]
    rfl

/-- The feature `{ISO_A2: "ZZ", NAME: "Japan"}` is dropped and `{ISO_A2: "JP", NAME: "Japan"}`
is retained. -/
theorem C7_sovereignty_filter_three_conditions_witness :
    filterArray CorrectedWorldData.sovereignFilter [namedFeature "ZZ" "Japan"] = .ok [] ∧
    filterArray CorrectedWorldData.sovereignFilter [namedFeature "JP" "Japan"] =
      .ok [namedFeature "JP" "Japan"] :=
  ⟨(C7_sovereignty_filter_three_conditions (namedFeature "ZZ" "Japan")
      (by simp [namedFeature]) (by simp [namedFeature])).2.2.1 rfl,
   ((C7_sovereignty_filter_three_conditions (namedFeature "JP" "Japan")
      (by simp [namedFeature]) (by simp [namedFeature])).1 (.str "JP") rfl).1
      ⟨⟨"JP", rfl, by decide⟩, by
        intro s hs
        have : s = "Japan" := by
          have h : CorrectedWorldData.filterName
              (((namedFeature "JP" "Japan").field "properties").or (.obj [])) =
              .str "Japan" := rfl
          rw [h] at hs
          injection hs with hs
          exact hs.symm
        subst this
        decide, "JP", rfl, by decide, by decide⟩⟩

/-- C8: exclusion wins over membership: a feature whose name `NAME || NAME_LONG || ''` is in
`EXCLUDED_TERRITORIES` is dropped by the sovereignty filter of `getCorrectedWorldData`, for
every value of its `ISO_A2` property, codes of UN member states included. -/
theorem C8_exclusion_wins_over_membership (feature : JsVal)
    (hu : feature ≠ .undefined) (hn : feature ≠ .null) (s : String)
    (hname : CorrectedWorldData.filterName ((feature.field "properties").or (.obj [])) =
      .str s)
    (hs : s ∈ CorrectedWorldData.EXCLUDED_TERRITORIES) :
    filterArray CorrectedWorldData.sovereignFilter [feature] = .ok [] := by
  obtain ⟨code, hcode⟩ := CorrectedWorldData.fixIsoA2Code_string_name
    (((feature.field "properties").or (.obj [])).field "ISO_A2") s
  rw [← hname] at hcode
  have hv := CorrectedWorldData.sovereignFilter_ok feature hu hn code hcode
  have hex : setHas CorrectedWorldData.EXCLUDED_TERRITORIES
      (CorrectedWorldData.filterName ((feature.field "properties").or (.obj []))) = true :=
    (setHas_iff _ _).2 ⟨s, hname, hs⟩
  rw [filterArray_singleton _ _ _ hv, JsVal.and_chain_truthy, hex]
  simp

/-- Greenland carrying the code of Denmark is dropped. -/
theorem C8_exclusion_wins_over_membership_witness :
    "DK" ∈ CorrectedWorldData.UN_MEMBER_CODES ∧
    filterArray CorrectedWorldData.sovereignFilter [namedFeature "DK" "Greenland"] = .ok [] :=
  ⟨by decide,
   C8_exclusion_wins_over_membership (namedFeature "DK" "Greenland") (by simp [namedFeature])
    (by simp [namedFeature]) "Greenland" rfl (by decide)⟩

/-- C9: repair path of the filter: a feature whose raw `ISO_A2` is the sentinel `"-99"` and
whose `NAME` is `"France"` or `"Norway"` is retained by the sovereignty filter of
`getCorrectedWorldData`; the code it tests is the repaired one, `"FR"` or `"NO"`. -/
theorem C9_sentinel_repair_retained (feature : JsVal)
    (hu : feature ≠ .undefined) (hn : feature ≠ .null)
    (hiso : ((feature.field "properties").or (.obj [])).field "ISO_A2" = .str "-99")
    (hname : ((feature.field "properties").or (.obj [])).field "NAME" = .str "France" ∨
      ((feature.field "properties").or (.obj [])).field "NAME" = .str "Norway") :
    filterArray CorrectedWorldData.sovereignFilter [feature] = .ok [feature] ∧
    (((feature.field "properties").or (.obj [])).field "NAME" = .str "France" →
      CorrectedWorldData.fixIsoA2Code
        (((feature.field "properties").or (.obj [])).field "ISO_A2")
        (CorrectedWorldData.filterName ((feature.field "properties").or (.obj []))) =
          .ok (.str "FR")) ∧
    (((feature.field "properties").or (.obj [])).field "NAME" = .str "Norway" →
      CorrectedWorldData.fixIsoA2Code
        (((feature.field "properties").or (.obj [])).field "ISO_A2")
        (CorrectedWorldData.filterName ((feature.field "properties").or (.obj []))) =
          .ok (.str "NO")) := by
  have hfr : ((feature.field "properties").or (.obj [])).field "NAME" = .str "France" →
      CorrectedWorldData.fixIsoA2Code
        (((feature.field "properties").or (.obj [])).field "ISO_A2")
        (CorrectedWorldData.filterName ((feature.field "properties").or (.obj []))) =
          .ok (.str "FR") := by
    intro h
    rw [hiso, CorrectedWorldData.filterName, h]
    rfl
  have hno : ((feature.field "properties").or (.obj [])).field "NAME" = .str "Norway" →
      CorrectedWorldData.fixIsoA2Code
        (((feature.field "properties").or (.obj [])).field "ISO_A2")
        (CorrectedWorldData.filterName ((feature.field "properties").or (.obj []))) =
          .ok (.str "NO") := by
    intro h
    rw [hiso, CorrectedWorldData.filterName, h]
    rfl
  refine ⟨?_, hfr, hno⟩
  rcases hname with h | h
  · have hv := CorrectedWorldData.sovereignFilter_ok feature hu hn _ (hfr h)
    rw [filterArray_singleton _ _ _ hv, CorrectedWorldData.filterName, h]
    rfl
  · have hv := CorrectedWorldData.sovereignFilter_ok feature hu hn _ (hno h)
    rw [filterArray_singleton _ _ _ hv, CorrectedWorldData.filterName, h]
    rfl

/-- France with the sentinel code is retained. -/
theorem C9_sentinel_repair_retained_witness :
    filterArray CorrectedWorldData.sovereignFilter [namedFeature "-99" "France"] =
      .ok [namedFeature "-99" "France"] :=
  (C9_sentinel_repair_retained (namedFeature "-99" "France") (by simp [namedFeature])
    (by simp [namedFeature]) rfl (Or.inl rfl)).1

/-! ## End-to-end scenario -/

set_option maxRecDepth 100000 in
/-- C10: on the three-feature collection Japan (`"JP"`), Greenland (`"GL"`), Norway (`"-99"`)
the pipeline of `getCorrectedWorldData` returns exactly two records, for Japan then Norway;
the Norway record carries the repaired code `"NO"` in `adcode`, while its `isoCode` field is
the raw sentinel `"-99"` and its continent is `"Unknown"`. -/
theorem C10_scenario_output :
    ∃ japan norway,
      CorrectedWorldData.getCorrectedWorldData scenarioCollection = .ok [japan, norway] ∧
      japan.id = 1 ∧ japan.name_en = .str "Japan" ∧ japan.isoCode = .str "JP" ∧
      norway.id = 2 ∧ norway.name_en = .str "Norway" ∧ norway.adcode = .str "NO" ∧
      norway.isoCode = .str "-99" ∧ norway.continent = .str "Unknown" :=
  ⟨_, _, rfl, rfl, rfl, rfl, rfl, rfl, rfl, rfl, rfl⟩

/-! ## Records of the two normalisers: lemmas -/

namespace CorrectedWorldData

/-- What a record returned by the callback of `processFilteredData` holds. -/
theorem toCountryRecord_fields (feature : JsVal) (index : ℕ) (r : CountryRecord)
    (h : toCountryRecord feature index = .ok r) :
    feature ≠ .undefined ∧ feature ≠ .null ∧ r.id = index + 1 ∧
    displayName (propertiesOf feature) = .ok r.name ∧
    fixIsoA2Code ((propertiesOf feature).field "ISO_A2") r.name = .ok r.adcode ∧
    getContinentFromCode ((propertiesOf feature).field "ISO_A2") = .ok r.continent ∧
    r.isoCode = (propertiesOf feature).field "ISO_A2" ∧
    r.center = calculateCenter (geometryOf feature) ∧
    r.centroid = calculateCenter (geometryOf feature) ∧
    r.population =
      (((propertiesOf feature).field "POP_EST").or
        ((propertiesOf feature).field "POPULATION")).or (.num 0) ∧
    r.area_sqkm =
      (((propertiesOf feature).field "AREA_SQKM").or
        ((propertiesOf feature).field "AREA")).or (.num 0) := by
  have hu : feature ≠ .undefined := by
    rintro rfl
    simp [toCountryRecord, JsVal.get] at h
  have hn : feature ≠ .null := by
    rintro rfl
    simp [toCountryRecord, JsVal.get] at h
  unfold toCountryRecord at h
  rw [JsVal.get_of_not_nullish feature "properties" hu hn,
    JsVal.get_of_not_nullish feature "geometry" hu hn] at h
  simp only at h
  split at h
  · simp at h
  · rename_i name hname
    split at h
    · simp at h
    · rename_i adcode hadcode
      split at h
      · simp at h
      · rename_i continent hcontinent
        simp only [Except.ok.injEq] at h
        subst h
        exact ⟨hu, hn, rfl, hname, hadcode, hcontinent, rfl, rfl, rfl, rfl, rfl⟩

/-- The callback of `processFilteredData` returns a record once its three lookups succeed. -/
theorem toCountryRecord_ok (feature : JsVal) (index : ℕ) (hu : feature ≠ .undefined)
    (hn : feature ≠ .null) (name adcode continent : JsVal)
    (hname : displayName (propertiesOf feature) = .ok name)
    (hadcode : fixIsoA2Code ((propertiesOf feature).field "ISO_A2") name = .ok adcode)
    (hcontinent : getContinentFromCode ((propertiesOf feature).field "ISO_A2") =
      .ok continent) :
    ∃ r, toCountryRecord feature index = .ok r := by
  unfold toCountryRecord
  rw [JsVal.get_of_not_nullish feature "properties" hu hn,
    JsVal.get_of_not_nullish feature "geometry" hu hn]
  unfold propertiesOf at hname hadcode hcontinent
  simp only [hname, hadcode, hcontinent]
  exact ⟨_, rfl⟩

end CorrectedWorldData

namespace WorldDataFetcher

/-- What a record returned by the callback of `.map` in `processGeoJSONData` holds. -/
theorem mapCallback_fields (feature : JsVal) (index : ℕ) (r : WorldRecord)
    (h : mapCallback feature index = .ok r) :
    feature ≠ .undefined ∧ feature ≠ .null ∧ r.id = index + 1 ∧
    (∃ info, getCountryInfo (propertiesOf feature) = .ok info ∧ r.name = info.chinese ∧
      r.name_en = info.english ∧ r.continent = info.continent) ∧
    r.population =
      (((propertiesOf feature).field "POP_EST").or
        ((propertiesOf feature).field "POPULATION")).or (.num 0) ∧
    r.area_sqkm =
      (((propertiesOf feature).field "AREA_SQKM").or
        ((propertiesOf feature).field "AREA")).or (.num 0) := by
  have hu : feature ≠ .undefined := by
    rintro rfl
    simp [mapCallback, JsVal.get] at h
  have hn : feature ≠ .null := by
    rintro rfl
    simp [mapCallback, JsVal.get] at h
  unfold mapCallback at h
  rw [JsVal.get_of_not_nullish feature "properties" hu hn,
    JsVal.get_of_not_nullish feature "geometry" hu hn] at h
  simp only at h
  split at h
  · simp at h
  · rename_i info hinfo
    split at h
    · simp at h
    · simp only [Except.ok.injEq] at h
      subst h
      exact ⟨hu, hn, rfl, ⟨info, hinfo, rfl, rfl, rfl⟩, rfl, rfl⟩

end WorldDataFetcher

/-! ## Identity normaliser: the claims -/

theorem lookupLast_mem {α : Type} (table : List (String × α)) (k : String) (v : α)
    (h : lookupLast table k = some v) : (k, v) ∈ table := by
  induction table with
  | nil => simp [lookupLast] at h
  | cons entry rest ih =>
    obtain ⟨k', w⟩ := entry
    simp only [lookupLast] at h
    split at h
    · rename_i u hu
      simp only [Option.some.injEq] at h
      subst h
      exact List.mem_cons_of_mem _ (ih hu)
    · split at h
      · rename_i hk
        simp only [Option.some.injEq] at h
        subst h hk
        exact List.mem_cons_self _ _
      · simp at h

namespace CorrectedWorldData

theorem nameToISO_values (s c : String) (h : lookupLast nameToISO s = some c) :
    c = "FR" ∨ c = "NO" := by
  have hmem := lookupLast_mem nameToISO s c h
  simp only [nameToISO, List.mem_cons, Prod.mk.injEq, List.mem_singleton] at hmem
  rcases hmem with h | h | h | h | h | h
  · exact Or.inl h.2
  · exact Or.inl h.2
  · exact Or.inl h.2
  · exact Or.inr h.2
  · exact Or.inr h.2
  · simp at h

theorem continentText_some (c s : String) (h : continentText c = some s) :
    getContinentFromCode (.str c) = .ok (.str s) := by
  unfold continentText at h
  split at h
  · rename_i t ht
    simp only [Option.some.injEq] at h
    rw [ht, h]
  · simp at h

set_option maxRecDepth 1000000 in
theorem continentText_members :
    (UN_MEMBER_CODES.all (fun c => c == "TL" ||
      (match continentText c with
       | some s => decide (s ∈ inhabitedContinents)
       | none => false))) = true := by
  decide

end CorrectedWorldData

/-- C11: `fixIsoA2Code(code, name)` returns `code` unchanged when `code` is not the sentinel
`"-99"`; on the sentinel and a string `name` that is not a member name of `Object.prototype`
it returns the entry of the repair table under `name` when there is one, else `code`, and the
entries of the table are `"FR"` and `"NO"`.  On the sentinel and the name `"constructor"` it
returns the member inherited from `Object.prototype`, which is neither `code` nor `"FR"` nor
`"NO"`. -/
theorem C11_fixIsoA2Code_repair_table :
    CorrectedWorldData.fixIsoA2Code (.str "-99") (.str "constructor") =
      .ok (.proto "constructor") ∧
    (∀ isoCode name : JsVal, isoCode.isStr "-99" = false →
      CorrectedWorldData.fixIsoA2Code isoCode name = .ok isoCode) ∧
    (∀ s : String, s ∉ objectProtoKeys →
      CorrectedWorldData.fixIsoA2Code (.str "-99") (.str s) =
        .ok (match lookupLast CorrectedWorldData.nameToISO s with
          | some c => .str c
          | none => .str "-99")) ∧
    (∀ s c : String, lookupLast CorrectedWorldData.nameToISO s = some c →
      c = "FR" ∨ c = "NO") := by
  refine ⟨rfl, CorrectedWorldData.fixIsoA2Code_not_sentinel, ?_,
    CorrectedWorldData.nameToISO_values⟩
  intro s hs
  have hsent : (JsVal.str "-99").isStr "-99" = true := by decide
  simp only [CorrectedWorldData.fixIsoA2Code, hsent, if_true, toPropertyKey, lookupTable]
  cases hl : lookupLast CorrectedWorldData.nameToISO s with
  | none => simp [hs, JsVal.truthy]
  | some c =>
    rcases CorrectedWorldData.nameToISO_values s c hl with rfl | rfl <;>
      simp [JsVal.truthy]

set_option maxRecDepth 100000 in
/-- C12: the continent of a record of `processFilteredData` is looked up under the raw
`ISO_A2`: for France and Norway carrying the sentinel `"-99"` the code is repaired in `adcode`
(`"FR"`, `"NO"`, which the table maps to `"Europe"`), while the record's `continent` is
`"Unknown"`, as for every feature whose raw `ISO_A2` is the sentinel. -/
theorem C12_continent_uses_raw_code :
    (∃ r, CorrectedWorldData.toCountryRecord (namedFeature "-99" "France") 0 = .ok r ∧
      r.adcode = .str "FR" ∧ r.continent = .str "Unknown") ∧
    (∃ r, CorrectedWorldData.toCountryRecord (namedFeature "-99" "Norway") 0 = .ok r ∧
      r.adcode = .str "NO" ∧ r.continent = .str "Unknown") ∧
    CorrectedWorldData.getContinentFromCode (.str "FR") = .ok (.str "Europe") ∧
    CorrectedWorldData.getContinentFromCode (.str "NO") = .ok (.str "Europe") ∧
    (∀ (feature : JsVal) (index : ℕ) (r : CorrectedWorldData.CountryRecord),
      (propertiesOf feature).field "ISO_A2" = .str "-99" →
      CorrectedWorldData.toCountryRecord feature index = .ok r →
      r.continent = .str "Unknown") := by
  refine ⟨⟨_, rfl, rfl, rfl⟩, ⟨_, rfl, rfl, rfl⟩, rfl, rfl, ?_⟩
  intro feature index r hiso hr
  obtain ⟨-, -, -, -, -, hcont, -⟩ := CorrectedWorldData.toCountryRecord_fields feature index r hr
  rw [hiso] at hcont
  have hraw : CorrectedWorldData.getContinentFromCode (.str "-99") = .ok (.str "Unknown") :=
    rfl
  rw [hraw] at hcont
  injection hcont with hcont
  exact hcont.symm

set_option maxRecDepth 100000 in
/-- C13: the code-to-continent table has no entry for the UN member code `"TL"`, for which
`getContinentFromCode` returns `"Unknown"`; for every other code of `UN_MEMBER_CODES` the
result is one of the six inhabited continents.  For a string code that is neither a key of the
table nor a member name of `Object.prototype` the result is `"Unknown"`; for the code
`"constructor"` it is the member inherited from `Object.prototype`. -/
theorem C13_continent_table_coverage :
    "TL" ∈ CorrectedWorldData.UN_MEMBER_CODES ∧
    CorrectedWorldData.getContinentFromCode (.str "TL") = .ok (.str "Unknown") ∧
    (∀ c ∈ CorrectedWorldData.UN_MEMBER_CODES, c ≠ "TL" →
      ∃ s ∈ inhabitedContinents,
        CorrectedWorldData.getContinentFromCode (.str c) = .ok (.str s)) ∧
    CorrectedWorldData.getContinentFromCode (.str "constructor") =
      .ok (.proto "constructor") ∧
    (∀ c : String, lookupLast CorrectedWorldData.continentMap c = none →
      c ∉ objectProtoKeys →
      CorrectedWorldData.getContinentFromCode (.str c) = .ok (.str "Unknown")) := by
  refine ⟨by decide, rfl, ?_, rfl, ?_⟩
  · intro c hc hne
    have hall := CorrectedWorldData.continentText_members
    rw [List.all_eq_true] at hall
    have h := hall c hc
    simp only [Bool.or_eq_true, beq_iff_eq, hne, false_or] at h
    split at h
    · rename_i s hs
      exact ⟨s, of_decide_eq_true h, CorrectedWorldData.continentText_some c s hs⟩
    · simp at h
  · intro c hnone hproto
    simp [CorrectedWorldData.getContinentFromCode, toPropertyKey, lookupTable, hnone, hproto,
      JsVal.or, JsVal.truthy]

set_option maxRecDepth 100000 in
/-- C14: the `isoCode` of a record of `processFilteredData` is the raw `ISO_A2` of the feature.
For a retained feature whose raw `ISO_A2` is not the sentinel it is a code of
`UN_MEMBER_CODES`, all of which are two upper-case letters; Norway carrying the sentinel is
retained and its record has the `isoCode` `"-99"`, three characters none of which is a
letter. -/
theorem C14_isoCode_is_raw_code :
    retains CorrectedWorldData.sovereignFilter (namedFeature "-99" "Norway") = true ∧
    (∃ r, CorrectedWorldData.toCountryRecord (namedFeature "-99" "Norway") 0 = .ok r ∧
      r.isoCode = .str "-99") ∧
    utf16Length "-99" = 3 ∧ ("-99".data.any Char.isAlpha) = false ∧
    (∀ (feature : JsVal) (index : ℕ) (r : CorrectedWorldData.CountryRecord),
      ((propertiesOf feature).field "ISO_A2").isStr "-99" = false →
      retains CorrectedWorldData.sovereignFilter feature = true →
      CorrectedWorldData.toCountryRecord feature index = .ok r →
      ∃ s ∈ CorrectedWorldData.UN_MEMBER_CODES, r.isoCode = .str s) ∧
    (∀ s ∈ CorrectedWorldData.UN_MEMBER_CODES,
      s.data.length = 2 ∧ s.data.all Char.isUpper = true) := by
  refine ⟨rfl, ⟨_, rfl, rfl⟩, by decide, by decide, ?_, by decide⟩
  intro feature index r hraw hkeep hr
  obtain ⟨hu, hn, -, -, -, -, hiso, -⟩ :=
    CorrectedWorldData.toCountryRecord_fields feature index r hr
  have hcode := CorrectedWorldData.fixIsoA2Code_not_sentinel
    ((propertiesOf feature).field "ISO_A2")
    (CorrectedWorldData.filterName (propertiesOf feature)) hraw
  have hv := CorrectedWorldData.sovereignFilter_ok feature hu hn _ hcode
  unfold retains at hkeep
  rw [hv] at hkeep
  simp only at hkeep
  obtain ⟨⟨s, hs, hmem⟩, -, -⟩ := (CorrectedWorldData.filter_value_truthy_iff _ _).1 hkeep
  exact ⟨s, hmem, by rw [hiso, hs]⟩

/-! ## Order and numbering of the records -/

theorem filterArray_eq_filter {α : Type} (keep : α → Except JsError JsVal) :
    ∀ (xs ys : List α), filterArray keep xs = .ok ys → ys = xs.filter (retains keep)
  | [], ys, h => by
    simp only [filterArray, Except.ok.injEq] at h
    simp [← h]
  | x :: rest, ys, h => by
    simp only [filterArray] at h
    split at h
    · simp at h
    · rename_i v hv
      split at h
      · simp at h
      · rename_i zs hzs
        simp only [Except.ok.injEq] at h
        have ih := filterArray_eq_filter keep rest zs hzs
        have hret : retains keep x = v.truthy := by simp [retains, hv]
        rw [← h, ih, List.filter_cons, hret]

theorem filterArray_total {α : Type} (keep : α → Except JsError JsVal) :
    ∀ xs : List α, (∀ x ∈ xs, ∃ v, keep x = .ok v) →
      filterArray keep xs = .ok (xs.filter (retains keep))
  | [], _ => by simp [filterArray]
  | x :: rest, h => by
    obtain ⟨v, hv⟩ := h x (List.mem_cons_self _ _)
    have ih := filterArray_total keep rest (fun y hy => h y (List.mem_cons_of_mem _ hy))
    have hret : retains keep x = v.truthy := by simp [retains, hv]
    simp only [filterArray, hv, ih, List.filter_cons, hret]

theorem mapWithIndex_spec {α β : Type} (f : α → ℕ → Except JsError β) :
    ∀ (xs : List α) (index : ℕ) (ys : List β), mapWithIndex f xs index = .ok ys →
      ys.length = xs.length ∧
      ∀ (k : ℕ) (x : α), xs[k]? = some x → ∃ y, ys[k]? = some y ∧ f x (index + k) = .ok y
  | [], index, ys, h => by
    simp only [mapWithIndex, Except.ok.injEq] at h
    subst h
    simp
  | x :: rest, index, ys, h => by
    simp only [mapWithIndex] at h
    split at h
    · simp at h
    · rename_i y hy
      split at h
      · simp at h
      · rename_i zs hzs
        simp only [Except.ok.injEq] at h
        subst h
        obtain ⟨hlen, hall⟩ := mapWithIndex_spec f rest (index + 1) zs hzs
        refine ⟨by simp [hlen], ?_⟩
        intro k a hk
        cases k with
        | zero =>
          simp only [List.getElem?_cons_zero, Option.some.injEq] at hk
          subst hk
          exact ⟨y, by simp, by simpa using hy⟩
        | succ j =>
          simp only [List.getElem?_cons_succ] at hk
          obtain ⟨b, hb, hfb⟩ := hall j a hk
          refine ⟨b, by simpa using hb, ?_⟩
          have : index + (j + 1) = index + 1 + j := by omega
          rw [this]
          exact hfb

theorem mapWithIndex_total {α β : Type} (f : α → ℕ → Except JsError β) :
    ∀ (xs : List α) (index : ℕ), (∀ x ∈ xs, ∀ j, ∃ y, f x j = .ok y) →
      ∃ ys, mapWithIndex f xs index = .ok ys
  | [], _, _ => ⟨[], rfl⟩
  | x :: rest, index, h => by
    obtain ⟨y, hy⟩ := h x (List.mem_cons_self _ _) index
    obtain ⟨zs, hzs⟩ := mapWithIndex_total f rest (index + 1)
      (fun a ha => h a (List.mem_cons_of_mem _ ha))
    exact ⟨y :: zs, by simp [mapWithIndex, hy, hzs]⟩

namespace WorldDataFetcher

/-- The result of `processGeoJSONData` in terms of its two callbacks. -/
theorem processGeoJSONData_ok (geoJSON : JsVal) (rs : List WorldRecord)
    (h : processGeoJSONData geoJSON = .ok rs) :
    ∃ fs, geoJSON.field "features" = .arr fs ∧
      mapWithIndex mapCallback (fs.filter (retains filterCallback)) 0 = .ok rs := by
  have hu : geoJSON ≠ .undefined := by
    rintro rfl
    simp [processGeoJSONData, JsVal.get] at h
  have hn : geoJSON ≠ .null := by
    rintro rfl
    simp [processGeoJSONData, JsVal.get] at h
  unfold processGeoJSONData at h
  rw [JsVal.get_of_not_nullish geoJSON "features" hu hn] at h
  simp only at h
  split at h
  · simp at h
  · rename_i fs hfs
    split at h
    · simp at h
    · rename_i kept hkept
      have hk := filterArray_eq_filter filterCallback fs kept hkept
      refine ⟨fs, ?_, by rw [← hk]; exact h⟩
      unfold asArray at hfs
      split at hfs
      · rename_i xs hxs
        simp only [Except.ok.injEq] at hfs
        rw [hxs, hfs]
      · simp at hfs

/-- The function `processGeoJSONData` returns when none of its callbacks throws. -/
theorem processGeoJSONData_total (geoJSON : JsVal) (fs : List JsVal)
    (hu : geoJSON ≠ .undefined) (hn : geoJSON ≠ .null)
    (hfs : geoJSON.field "features" = .arr fs)
    (hkeep : ∀ f ∈ fs, ∃ v, filterCallback f = .ok v)
    (hmap : ∀ f ∈ fs, ∀ j, ∃ r, mapCallback f j = .ok r) :
    ∃ rs, processGeoJSONData geoJSON = .ok rs := by
  obtain ⟨rs, hrs⟩ := mapWithIndex_total mapCallback (fs.filter (retains filterCallback)) 0
    (fun f hf j => hmap f (List.mem_of_mem_filter hf) j)
  refine ⟨rs, ?_⟩
  unfold processGeoJSONData
  rw [JsVal.get_of_not_nullish geoJSON "features" hu hn, hfs]
  simp only [asArray, filterArray_total filterCallback fs hkeep]
  exact hrs

end WorldDataFetcher

/-- C15: filter and map preserve the input order and number the records from 1.  When
`processGeoJSONData` returns, the retained features are the features kept by the filter
callback, in their input order, and the `k`-th record (counted from 0) is the record of the
`k`-th retained feature and has `id = k + 1`; it returns whenever no callback throws.  The same
holds for `processFilteredData` over its input list. -/
theorem C15_order_and_numbering :
    (∀ (geoJSON : JsVal) (rs : List WorldDataFetcher.WorldRecord),
      WorldDataFetcher.processGeoJSONData geoJSON = .ok rs →
      ∃ fs, geoJSON.field "features" = .arr fs ∧
        rs.length = (fs.filter (retains WorldDataFetcher.filterCallback)).length ∧
        ∀ (k : ℕ) (f : JsVal),
          (fs.filter (retains WorldDataFetcher.filterCallback))[k]? = some f →
          ∃ r, rs[k]? = some r ∧ WorldDataFetcher.mapCallback f k = .ok r ∧ r.id = k + 1) ∧
    (∀ (geoJSON : JsVal) (fs : List JsVal), geoJSON ≠ .undefined → geoJSON ≠ .null →
      geoJSON.field "features" = .arr fs →
      (∀ f ∈ fs, ∃ v, WorldDataFetcher.filterCallback f = .ok v) →
      (∀ f ∈ fs, ∀ j, ∃ r, WorldDataFetcher.mapCallback f j = .ok r) →
      ∃ rs, WorldDataFetcher.processGeoJSONData geoJSON = .ok rs) ∧
    (∀ (features : List JsVal) (rs : List CorrectedWorldData.CountryRecord),
      CorrectedWorldData.processFilteredData features = .ok rs →
      rs.length = features.length ∧
      ∀ (k : ℕ) (f : JsVal), features[k]? = some f →
        ∃ r, rs[k]? = some r ∧ CorrectedWorldData.toCountryRecord f k = .ok r ∧
          r.id = k + 1) ∧
    (∀ features : List JsVal,
      (∀ f ∈ features, ∀ j, ∃ r, CorrectedWorldData.toCountryRecord f j = .ok r) →
      ∃ rs, CorrectedWorldData.processFilteredData features = .ok rs) := by
  refine ⟨?_, WorldDataFetcher.processGeoJSONData_total, ?_, ?_⟩
  · intro geoJSON rs h
    obtain ⟨fs, hfs, hmap⟩ := WorldDataFetcher.processGeoJSONData_ok geoJSON rs h
    obtain ⟨hlen, hall⟩ := mapWithIndex_spec _ _ _ _ hmap
    refine ⟨fs, hfs, hlen, ?_⟩
    intro k f hk
    obtain ⟨r, hr, hf⟩ := hall k f hk
    rw [Nat.zero_add] at hf
    exact ⟨r, hr, hf, (WorldDataFetcher.mapCallback_fields f k r hf).2.2.1⟩
  · intro features rs h
    obtain ⟨hlen, hall⟩ := mapWithIndex_spec _ _ _ _ h
    refine ⟨hlen, ?_⟩
    intro k f hk
    obtain ⟨r, hr, hf⟩ := hall k f hk
    rw [Nat.zero_add] at hf
    exact ⟨r, hr, hf, (CorrectedWorldData.toCountryRecord_fields f k r hf).2.2.1⟩
  · intro features h
    exact mapWithIndex_total _ features 0 h

set_option maxRecDepth 100000 in
/-- The scenario collection through `processGeoJSONData`. -/
theorem C15_order_and_numbering_witness :
    ∃ rs fs, WorldDataFetcher.processGeoJSONData scenarioCollection = .ok rs ∧
      scenarioCollection.field "features" = .arr fs ∧
      rs.length = (fs.filter (retains WorldDataFetcher.filterCallback)).length ∧
      ∀ (k : ℕ) (f : JsVal),
        (fs.filter (retains WorldDataFetcher.filterCallback))[k]? = some f →
        ∃ r, rs[k]? = some r ∧ WorldDataFetcher.mapCallback f k = .ok r ∧ r.id = k + 1 :=
  ⟨_, (C15_order_and_numbering.1 scenarioCollection _ rfl).choose, rfl,
    (C15_order_and_numbering.1 scenarioCollection _ rfl).choose_spec⟩

/-! ## Names, population and area -/

namespace CorrectedWorldData

set_option maxRecDepth 100000 in
theorem chineseMap_values_nonempty : ∀ p ∈ chineseMap, p.2 ≠ "" := by
  decide

/-- The translation of a string name that is not a member name of `Object.prototype`. -/
theorem getChineseName_string (s : String) (hs : s ∉ objectProtoKeys) :
    getChineseName (.str s) =
      .ok (match lookupLast chineseMap s with
        | some t => .str t
        | none => .str s) := by
  simp only [getChineseName, toPropertyKey, lookupTable]
  cases hl : lookupLast chineseMap s with
  | none => simp [hs, JsVal.or, JsVal.truthy]
  | some t =>
    have hne : t ≠ "" := chineseMap_values_nonempty _ (lookupLast_mem chineseMap s t hl)
    simp [JsVal.or, JsVal.truthy, hne]

end CorrectedWorldData

set_option maxRecDepth 100000 in
/-- C16: the display name of a record of `processFilteredData` is `NAME_ZH` when that is
truthy, else the translation by `getChineseName` of `NAME_LONG`, else of `NAME`, a string
that is not a member name of `Object.prototype` being translated by the table or kept.  There
is no further default: for a feature with none of the three properties, which the filter
retains under the code `"JP"`, the name is `undefined`, whereas `getCountryInfo` of
`worldDataFetcher.js` answers `"Unknown"` on the same properties. -/
theorem C16_display_name_resolution :
    (∃ r, CorrectedWorldData.toCountryRecord namelessFeature 0 = .ok r ∧
      r.name = .undefined) ∧
    retains CorrectedWorldData.sovereignFilter namelessFeature = true ∧
    (∃ info, WorldDataFetcher.getCountryInfo (propertiesOf namelessFeature) = .ok info ∧
      info.chinese = .str "Unknown" ∧ info.english = .str "Unknown") ∧
    (∀ properties : JsVal, (properties.field "NAME_ZH").truthy = true →
      CorrectedWorldData.displayName properties = .ok (properties.field "NAME_ZH")) ∧
    (∀ properties : JsVal, (properties.field "NAME_ZH").truthy = false →
      (properties.field "NAME_LONG").truthy = true →
      CorrectedWorldData.displayName properties =
        CorrectedWorldData.getChineseName (properties.field "NAME_LONG")) ∧
    (∀ properties : JsVal, (properties.field "NAME_ZH").truthy = false →
      (properties.field "NAME_LONG").truthy = false →
      CorrectedWorldData.displayName properties =
        CorrectedWorldData.getChineseName (properties.field "NAME")) ∧
    (∀ s : String, s ∉ objectProtoKeys →
      CorrectedWorldData.getChineseName (.str s) =
        .ok (match lookupLast CorrectedWorldData.chineseMap s with
          | some t => .str t
          | none => .str s)) ∧
    CorrectedWorldData.getChineseName .undefined = .ok .undefined := by
  refine ⟨⟨_, rfl, rfl⟩, rfl, ⟨_, rfl, rfl, rfl⟩, ?_, ?_, ?_,
    CorrectedWorldData.getChineseName_string, rfl⟩
  · intro properties h
    simp [CorrectedWorldData.displayName, h]
  · intro properties h hl
    simp [CorrectedWorldData.displayName, h, JsVal.or, hl]
  · intro properties h hl
    simp [CorrectedWorldData.displayName, h, JsVal.or, hl]

set_option maxRecDepth 100000 in
/-- C17 (counterexample): Japan with `POP_EST = -5` is retained by `processGeoJSONData` and its
record has the population `-5`, a negative number. -/
theorem C17_negative_population_counterexample :
    ∃ r, WorldDataFetcher.processGeoJSONData (collectionOf [negativePopulationFeature]) =
        .ok [r] ∧
      r.population = .num (-5) ∧ ((-5 : ℚ) < 0) :=
  ⟨_, rfl, rfl, by norm_num⟩

/-- C17 (amended): in a record of `processGeoJSONData`, and of `processFilteredData`,
`population` is `POP_EST` when truthy, else `POPULATION` when truthy, else `0`, and `area_sqkm`
is `AREA_SQKM` when truthy, else `AREA` when truthy, else `0`: the values are copied without
a check of sign or type, and are `0` when both source fields are absent or falsy. -/
theorem C17_population_and_area_copied :
    (∀ (feature : JsVal) (index : ℕ) (r : WorldDataFetcher.WorldRecord),
      WorldDataFetcher.mapCallback feature index = .ok r →
      r.population =
        (((propertiesOf feature).field "POP_EST").or
          ((propertiesOf feature).field "POPULATION")).or (.num 0) ∧
      r.area_sqkm =
        (((propertiesOf feature).field "AREA_SQKM").or
          ((propertiesOf feature).field "AREA")).or (.num 0) ∧
      (((propertiesOf feature).field "POP_EST").truthy = false →
        ((propertiesOf feature).field "POPULATION").truthy = false →
        r.population = .num 0) ∧
      (((propertiesOf feature).field "AREA_SQKM").truthy = false →
        ((propertiesOf feature).field "AREA").truthy = false →
        r.area_sqkm = .num 0)) ∧
    (∀ (feature : JsVal) (index : ℕ) (r : CorrectedWorldData.CountryRecord),
      CorrectedWorldData.toCountryRecord feature index = .ok r →
      r.population =
        (((propertiesOf feature).field "POP_EST").or
          ((propertiesOf feature).field "POPULATION")).or (.num 0) ∧
      r.area_sqkm =
        (((propertiesOf feature).field "AREA_SQKM").or
          ((propertiesOf feature).field "AREA")).or (.num 0)) := by
  constructor
  · intro feature index r h
    obtain ⟨-, -, -, -, hp, ha⟩ := WorldDataFetcher.mapCallback_fields feature index r h
    refine ⟨hp, ha, ?_, ?_⟩
    · intro h1 h2
      rw [hp]
      simp [JsVal.or, h1, h2]
    · intro h1 h2
      rw [ha]
      simp [JsVal.or, h1, h2]
  · intro feature index r h
    obtain ⟨-, -, -, -, -, -, -, -, -, hp, ha⟩ :=
      CorrectedWorldData.toCountryRecord_fields feature index r h
    exact ⟨hp, ha⟩

set_option maxRecDepth 100000 in
/-- Japan without population and area properties gets `0` for both. -/
theorem C17_population_and_area_copied_witness :
    ∃ r, WorldDataFetcher.mapCallback (namedFeature "JP" "Japan") 0 = .ok r ∧
      r.population = .num 0 ∧ r.area_sqkm = .num 0 :=
  ⟨_, rfl,
    ((C17_population_and_area_copied.1 (namedFeature "JP" "Japan") 0 _ rfl).2.2.1 rfl rfl),
    ((C17_population_and_area_copied.1 (namedFeature "JP" "Japan") 0 _ rfl).2.2.2 rfl rfl)⟩

/-! ## Totality of the normaliser -/

theorem isTextOrAbsent_or (a b : JsVal) (ha : isTextOrAbsent a = true)
    (hb : isTextOrAbsent b = true) : isTextOrAbsent (a.or b) = true := by
  unfold JsVal.or
  split <;> assumption

theorem toPropertyKey_text (v : JsVal) (h : isTextOrAbsent v = true) :
    ∃ k, toPropertyKey v = .ok k := by
  cases v <;> simp_all [isTextOrAbsent, toPropertyKey]

namespace WorldDataFetcher

theorem optionalIncludes_text (v : JsVal) (needle : String) (h : isTextOrAbsent v = true) :
    ∃ w, optionalIncludes v needle = .ok w := by
  cases v <;> simp_all [isTextOrAbsent, optionalIncludes]

theorem filterCallback_text (feature : JsVal) (h : hasTextNames feature) :
    ∃ v, filterCallback feature = .ok v := by
  obtain ⟨hu, hn, hk⟩ := h
  obtain ⟨a, ha⟩ := optionalIncludes_text _ "PS" (hk "ADM0_A3" (by simp))
  obtain ⟨b, hb⟩ := optionalIncludes_text _ "Antarctica" (hk "NAME" (by simp))
  obtain ⟨c, hc⟩ := optionalIncludes_text _ "Disputed" (hk "NAME" (by simp))
  unfold propertiesOf at ha hb hc
  unfold filterCallback
  rw [JsVal.get_of_not_nullish feature "properties" hu hn]
  simp only [ha, hb, hc]
  split
  · exact ⟨_, rfl⟩
  · split
    · exact ⟨_, rfl⟩
    · exact ⟨_, rfl⟩

theorem getCountryInfo_text (feature : JsVal) (h : hasTextNames feature) :
    ∃ info, getCountryInfo (propertiesOf feature) = .ok info := by
  obtain ⟨-, -, hk⟩ := h
  have hname : isTextOrAbsent
      (((((propertiesOf feature).field "NAME_LONG").or
        ((propertiesOf feature).field "NAME")).or
        ((propertiesOf feature).field "ADMIN")).or (.str "Unknown")) = true :=
    isTextOrAbsent_or _ _
      (isTextOrAbsent_or _ _
        (isTextOrAbsent_or _ _ (hk "NAME_LONG" (by simp)) (hk "NAME" (by simp)))
        (hk "ADMIN" (by simp))) rfl
  obtain ⟨k1, hk1⟩ := toPropertyKey_text _ hname
  obtain ⟨k2, hk2⟩ := toPropertyKey_text _ (hk "CONTINENT" (by simp))
  unfold getCountryInfo
  simp only [hk1, hk2]
  exact ⟨_, rfl⟩

/-- On a geometry whose extracted points are pairs of numbers, `calculateGeoInfo`
returns. -/
theorem calculateGeoInfo_numeric_points (g : JsVal)
    (h : hasNumericPoints ((g.or (.obj [])).field "coordinates")) :
    ∃ info, calculateGeoInfo (g.or (.obj [])) = .ok info := by
  obtain ⟨pts, hpts, -, -⟩ := h
  by_cases hne : pts = []
  · rw [hne] at hpts
    exact ⟨_, calculateGeoInfo_no_points g hpts⟩
  · obtain ⟨_, _, _, _, -, -, -, -, hinfo⟩ := calculateGeoInfo_numeric _ pts hne hpts
    exact ⟨_, hinfo⟩

theorem mapCallback_text (feature : JsVal) (index : ℕ) (h : hasTextNames feature)
    (hp : hasNumericPoints ((geometryOf feature).field "coordinates")) :
    ∃ r, mapCallback feature index = .ok r := by
  obtain ⟨info, hinfo⟩ := getCountryInfo_text feature h
  obtain ⟨geo, hgeo⟩ := calculateGeoInfo_numeric_points (feature.field "geometry") hp
  obtain ⟨r, hr, -⟩ := mapCallback_ok feature index h.1 h.2.1 info geo hinfo hgeo
  exact ⟨r, hr⟩

end WorldDataFetcher

set_option maxRecDepth 100000 in
/-- C18 (counterexample): on a collection whose only feature is the object with
`ISO_A2 = "JP"`, `NAME = "Japan"` and the number `5` as `ADM0_A3`, `processGeoJSONData` throws
a `TypeError` in its filter callback. -/
theorem C18_numeric_property_counterexample :
    WorldDataFetcher.processGeoJSONData (collectionOf [numericAdm0Feature]) =
      .error (.typeError "includes is not a function") ∧
    (propertiesOf numericAdm0Feature).field "ADM0_A3" = .num 5 :=
  ⟨rfl, rfl⟩

/-- C18 (amended): for every feature collection whose features are objects in which the
properties `ADM0_A3`, `NAME`, `NAME_LONG`, `ADMIN` and `CONTINENT` are strings or absent, and of
which the geometry is missing or yields only pairs of two numbers, at most `spreadArgumentBound`
of them and nested at most `nestingBound` deep (the coordinates may hold further malformed
entries, which are skipped, and the other properties are arbitrary), `processGeoJSONData`
returns without raising, with one record per feature kept by its filter. -/
theorem C18_total_on_text_names (geoJSON : JsVal) (fs : List JsVal)
    (hu : geoJSON ≠ .undefined) (hn : geoJSON ≠ .null)
    (hfs : geoJSON.field "features" = .arr fs)
    (htext : ∀ f ∈ fs,
      hasTextNames f ∧ hasNumericPoints ((geometryOf f).field "coordinates")) :
    ∃ rs, WorldDataFetcher.processGeoJSONData geoJSON = .ok rs ∧
      rs.length = (fs.filter (retains WorldDataFetcher.filterCallback)).length := by
  obtain ⟨rs, hrs⟩ := WorldDataFetcher.processGeoJSONData_total geoJSON fs hu hn hfs
    (fun f hf => WorldDataFetcher.filterCallback_text f (htext f hf).1)
    (fun f hf j => WorldDataFetcher.mapCallback_text f j (htext f hf).1 (htext f hf).2)
  refine ⟨rs, hrs, ?_⟩
  obtain ⟨fs', hfs', hmap⟩ := WorldDataFetcher.processGeoJSONData_ok geoJSON rs hrs
  rw [hfs] at hfs'
  injection hfs' with hfs'
  subst hfs'
  exact (mapWithIndex_spec _ _ _ _ hmap).1

/-- A collection of one feature without names, whose coordinates hold one pair of numbers
next to malformed entries. -/
theorem C18_total_on_text_names_witness :
    ∃ rs, WorldDataFetcher.processGeoJSONData
        (collectionOf [.obj [("properties", .obj [("ISO_A2", .str "JP")]),
          ("geometry", .obj [("coordinates",
            .arr [.str "x", .null, .arr [.num 1, .num 2]])])]]) = .ok rs ∧
      rs.length =
        ([JsVal.obj [("properties", .obj [("ISO_A2", .str "JP")]),
          ("geometry", .obj [("coordinates",
            .arr [.str "x", .null, .arr [.num 1, .num 2]])])]].filter
            (retains WorldDataFetcher.filterCallback)).length :=
  C18_total_on_text_names _ _ (by simp [collectionOf]) (by simp [collectionOf]) rfl
    (by
      intro f hf
      simp only [List.mem_singleton] at hf
      subst hf
      refine ⟨⟨by simp, by simp, ?_⟩, ⟨[(1, 2)], rfl, by decide, by decide⟩⟩
      intro k hk
      simp only [List.mem_cons, List.mem_singleton, List.not_mem_nil, or_false] at hk
      rcases hk with rfl | rfl | rfl | rfl | rfl <;> rfl)

/-! ## Malformed leaves -/

namespace WorldDataFetcher

mutual
theorem extract_first_number : ∀ (v : JsVal) (acc : List Coord),
    (∀ c ∈ acc, c.1.isNumber = true) → ∀ c ∈ extract v acc, c.1.isNumber = true
  | .arr xs, acc, hacc => by
    unfold extract
    split
    · rename_i hpair
      intro c hc
      simp only [List.mem_append, List.mem_singleton] at hc
      rcases hc with hc | hc
      · exact hacc c hc
      · rw [hc]
        simp only [isCoordinatePair, Bool.and_eq_true] at hpair
        exact hpair.2
    · exact extractEach_first_number xs acc hacc
  | .undefined, acc, hacc => by simpa [extract] using hacc
  | .null, acc, hacc => by simpa [extract] using hacc
  | .bool _, acc, hacc => by simpa [extract] using hacc
  | .num _, acc, hacc => by simpa [extract] using hacc
  | .str _, acc, hacc => by simpa [extract] using hacc
  | .obj _, acc, hacc => by simpa [extract] using hacc
  | .proto _, acc, hacc => by simpa [extract] using hacc
theorem extractEach_first_number : ∀ (xs : List JsVal) (acc : List Coord),
    (∀ c ∈ acc, c.1.isNumber = true) → ∀ c ∈ extractEach xs acc, c.1.isNumber = true
  | [], acc, hacc => by simpa [extractEach] using hacc
  | x :: rest, acc, hacc => by
    rw [extractEach]
    exact extractEach_first_number rest _ (extract_first_number x acc hacc)
end

end WorldDataFetcher

/-- C19 (counterexample): on the array `[1, "a"]` both copies of `extractAllCoordinates` return
the pair `[1, "a"]`, whose second element is not a number; on `[[1, "a"], [2, [3, 4]]]` they
return two such pairs. -/
theorem C19_non_numeric_second_counterexample :
    WorldDataFetcher.extractAllCoordinates (.arr [.num 1, .str "a"]) =
      [(.num 1, .str "a")] ∧
    CorrectedWorldData.extractAllCoordinates (.arr [.num 1, .str "a"]) =
      [(.num 1, .str "a")] ∧
    (JsVal.str "a").isNumber = false ∧
    WorldDataFetcher.extractAllCoordinates
      (.arr [.arr [.num 1, .str "a"], .arr [.num 2, .arr [.num 3, .num 4]]]) =
      [(.num 1, .str "a"), (.num 2, .arr [.num 3, .num 4])] :=
  ⟨rfl, rfl, rfl, rfl⟩

/-- C19 (amended): every element of the list returned by `extractAllCoordinates` is a pair
whose first element is a number; the second element is not tested.  A value that is not an
array contributes nothing, and an array that is shorter than 2 or whose first element is not a
number contributes exactly what its children contribute. -/
theorem C19_first_element_is_number :
    (∀ (v : JsVal) (c : Coord), c ∈ WorldDataFetcher.extractAllCoordinates v →
      c.1.isNumber = true) ∧
    (∀ (v : JsVal) (c : Coord), c ∈ CorrectedWorldData.extractAllCoordinates v →
      c.1.isNumber = true) ∧
    (∀ v : JsVal, v.isArray = false →
      WorldDataFetcher.extractAllCoordinates v = [] ∧
      CorrectedWorldData.extractAllCoordinates v = []) ∧
    (∀ xs : List JsVal, isCoordinatePair xs = false →
      WorldDataFetcher.extractAllCoordinates (.arr xs) =
        xs.flatMap WorldDataFetcher.extractAllCoordinates ∧
      CorrectedWorldData.extractAllCoordinates (.arr xs) =
        xs.flatMap CorrectedWorldData.extractAllCoordinates) := by
  have hfun : CorrectedWorldData.extractAllCoordinates =
      WorldDataFetcher.extractAllCoordinates :=
    funext CorrectedWorldData.extractAllCoordinates_eq
  have h1 : ∀ (v : JsVal) (c : Coord), c ∈ WorldDataFetcher.extractAllCoordinates v →
      c.1.isNumber = true := fun v c hc =>
    WorldDataFetcher.extract_first_number v [] (by simp) c hc
  have h4 : ∀ xs : List JsVal, isCoordinatePair xs = false →
      WorldDataFetcher.extractAllCoordinates (.arr xs) =
        xs.flatMap WorldDataFetcher.extractAllCoordinates := by
    intro xs hx
    rw [WorldDataFetcher.extractAllCoordinates_arr, hx]
    simp
  rw [hfun]
  exact ⟨h1, h1, fun v hv => ⟨WorldDataFetcher.extractAllCoordinates_not_arr v hv,
    WorldDataFetcher.extractAllCoordinates_not_arr v hv⟩, fun xs hx => ⟨h4 xs hx, h4 xs hx⟩⟩

/-- The pair `[1, "a"]` is emitted and its first element is a number. -/
theorem C19_first_element_is_number_witness :
    (JsVal.num 1, JsVal.str "a") ∈
      WorldDataFetcher.extractAllCoordinates (.arr [.num 1, .str "a"]) ∧
    (JsVal.num 1).isNumber = true :=
  ⟨by simp [WorldDataFetcher.extractAllCoordinates, WorldDataFetcher.extract,
      isCoordinatePair, elemAt, JsVal.isNumber],
    C19_first_element_is_number.1 (.arr [.num 1, .str "a"]) (.num 1, .str "a")
      (by simp [WorldDataFetcher.extractAllCoordinates, WorldDataFetcher.extract,
        isCoordinatePair, elemAt, JsVal.isNumber])⟩

/-! ## Centroid of the filtered records -/

namespace CorrectedWorldData

theorem calculateCenter_skewed :
    calculateCenter skewedGeometry = (some (3 / 2), some (3 / 2)) := by
  have hc : (skewedGeometry.field "coordinates").truthy = true := rfl
  have hg : skewedGeometry.truthy = true := rfl
  have hpts : extractAllCoordinates (skewedGeometry.field "coordinates") =
      [(.num 0, .num 0), (.num 0, .num 0), (.num 3, .num 3)] := rfl
  unfold calculateCenter
  simp only [hc, hg, hpts]
  simp [JsVal.asNum, mathMin, mathMax, JsNum.min, JsNum.max, JsNum.add, JsNum.divNat]

end CorrectedWorldData

theorem calculateGeoInfo_skewed_centroid :
    ∃ info, WorldDataFetcher.calculateGeoInfo skewedGeometry = .ok info ∧
      info.centroid = (some 1, some 1) := by
  have hc : (skewedGeometry.field "coordinates").truthy = true := rfl
  have hget : skewedGeometry.get "coordinates" = .ok (skewedGeometry.field "coordinates") :=
    rfl
  have hpts : WorldDataFetcher.extractAllCoordinates (skewedGeometry.field "coordinates") =
      [(.num 0, .num 0), (.num 0, .num 0), (.num 3, .num 3)] := rfl
  unfold WorldDataFetcher.calculateGeoInfo
  rw [hget]
  simp only [hc, hpts]
  simp [JsVal.asNum, mathMin, mathMax, JsNum.min, JsNum.max, JsNum.add, JsNum.divNat]

set_option maxRecDepth 100000 in
/-- C20: in every record of `processFilteredData` the `centroid` is the value of
`calculateCenter`, the same bounding-box midpoint as `center`, and not the mean of the
vertices: for the line (0,0), (0,0), (3,3) both fields are `[3/2, 3/2]`, whereas the vertex
mean, which `calculateGeoInfo` of `worldDataFetcher.js` returns as centroid, is `[1, 1]`. -/
theorem C20_centroid_equals_center :
    (∀ (feature : JsVal) (index : ℕ) (r : CorrectedWorldData.CountryRecord),
      CorrectedWorldData.toCountryRecord feature index = .ok r →
      r.centroid = r.center ∧
      r.centroid = CorrectedWorldData.calculateCenter (geometryOf feature)) ∧
    (∃ r, CorrectedWorldData.toCountryRecord skewedFeature 0 = .ok r ∧
      r.center = (some (3 / 2), some (3 / 2)) ∧ r.centroid = (some (3 / 2), some (3 / 2))) ∧
    (∃ info, WorldDataFetcher.calculateGeoInfo skewedGeometry = .ok info ∧
      info.centroid = (some 1, some 1)) := by
  refine ⟨?_, ?_, calculateGeoInfo_skewed_centroid⟩
  · intro feature index r h
    obtain ⟨-, -, -, -, -, -, -, hc, hd, -⟩ :=
      CorrectedWorldData.toCountryRecord_fields feature index r h
    exact ⟨by rw [hc, hd], hd⟩
  · have hr : ∃ r, CorrectedWorldData.toCountryRecord skewedFeature 0 = .ok r := ⟨_, rfl⟩
    obtain ⟨r, hr⟩ := hr
    obtain ⟨-, -, -, -, -, -, -, hc, hd, -⟩ :=
      CorrectedWorldData.toCountryRecord_fields skewedFeature 0 r hr
    have hgeo : geometryOf skewedFeature = skewedGeometry := rfl
    rw [hgeo, CorrectedWorldData.calculateCenter_skewed] at hc hd
    exact ⟨r, hr, hc, hd⟩

/-! ## The member set and the third filter condition -/

namespace CorrectedWorldData

set_option maxRecDepth 1000000 in
theorem UN_MEMBER_CODES_nodup : UN_MEMBER_CODES.Nodup := by
  decide

set_option maxRecDepth 100000 in
theorem UN_MEMBER_CODES_upper :
    ∀ s ∈ UN_MEMBER_CODES, s.data.length = 2 ∧ s.data.all Char.isUpper = true := by
  decide

set_option maxRecDepth 100000 in
theorem UN_MEMBER_CODES_valid :
    ∀ s ∈ UN_MEMBER_CODES, s ≠ "" ∧ utf16Length s = 2 := by
  decide

end CorrectedWorldData

set_option maxRecDepth 100000 in
/-- C23: `UN_MEMBER_CODES` contains exactly 193 codes, and they are pairwise distinct. -/
theorem C23_un_member_codes_count :
    CorrectedWorldData.UN_MEMBER_CODES.length = 193 ∧
    CorrectedWorldData.UN_MEMBER_CODES.Nodup :=
  ⟨by decide, CorrectedWorldData.UN_MEMBER_CODES_nodup⟩

/-- C27: every element of `UN_MEMBER_CODES` is a string of exactly two upper-case ASCII
letters, so the third condition of the sovereignty filter of `getCorrectedWorldData` never
changes the outcome: the filter retains a feature if and only if the repaired code is in
`UN_MEMBER_CODES` and the name is not in `EXCLUDED_TERRITORIES`. -/
theorem C27_membership_implies_validity :
    (∀ s ∈ CorrectedWorldData.UN_MEMBER_CODES,
      s.data.length = 2 ∧ s.data.all Char.isUpper = true ∧ s ≠ "" ∧ utf16Length s = 2) ∧
    (∀ (feature code : JsVal), feature ≠ .undefined → feature ≠ .null →
      CorrectedWorldData.fixIsoA2Code ((propertiesOf feature).field "ISO_A2")
        (CorrectedWorldData.filterName (propertiesOf feature)) = .ok code →
      (retains CorrectedWorldData.sovereignFilter feature = true ↔
        (∃ s, code = .str s ∧ s ∈ CorrectedWorldData.UN_MEMBER_CODES) ∧
        (∀ s, CorrectedWorldData.filterName (propertiesOf feature) = .str s →
          s ∉ CorrectedWorldData.EXCLUDED_TERRITORIES))) := by
  refine ⟨fun s hs => ⟨(CorrectedWorldData.UN_MEMBER_CODES_upper s hs).1,
    (CorrectedWorldData.UN_MEMBER_CODES_upper s hs).2,
    (CorrectedWorldData.UN_MEMBER_CODES_valid s hs).1,
    (CorrectedWorldData.UN_MEMBER_CODES_valid s hs).2⟩, ?_⟩
  intro feature code hu hn hcode
  have hv := CorrectedWorldData.sovereignFilter_ok feature hu hn code hcode
  have hiff := CorrectedWorldData.filter_value_truthy_iff code
    (CorrectedWorldData.filterName (propertiesOf feature))
  unfold retains
  rw [hv]
  simp only
  constructor
  · intro h
    exact ⟨(hiff.1 h).1, (hiff.1 h).2.1⟩
  · rintro ⟨⟨s, hs, hmem⟩, hex⟩
    exact hiff.2 ⟨⟨s, hs, hmem⟩, hex, s, hs,
      (CorrectedWorldData.UN_MEMBER_CODES_valid s hmem).1,
      (CorrectedWorldData.UN_MEMBER_CODES_valid s hmem).2⟩

/-- Japan is retained: its code is a member and its name is not excluded. -/
theorem C27_membership_implies_validity_witness :
    retains CorrectedWorldData.sovereignFilter (namedFeature "JP" "Japan") = true ↔
      (∃ s, JsVal.str "JP" = .str s ∧ s ∈ CorrectedWorldData.UN_MEMBER_CODES) ∧
      (∀ s, CorrectedWorldData.filterName (propertiesOf (namedFeature "JP" "Japan")) =
        .str s → s ∉ CorrectedWorldData.EXCLUDED_TERRITORIES) :=
  C27_membership_implies_validity.2 (namedFeature "JP" "Japan") (.str "JP")
    (by simp [namedFeature]) (by simp [namedFeature]) rfl

/-! ## Binary64 rounding: lemmas -/

theorem roundHalfEven_intCast (n : ℤ) : roundHalfEven (n : ℚ) = n := by
  simp [roundHalfEven]

theorem roundHalfEven_below (y : ℚ) (f : ℤ) (h1 : (f : ℚ) ≤ y) (h2 : y < f + 1 / 2) :
    roundHalfEven y = f := by
  have hf : ⌊y⌋ = f := Int.floor_eq_iff.2 ⟨h1, by linarith⟩
  unfold roundHalfEven
  rw [hf, if_pos (by linarith)]

theorem roundHalfEven_above (y : ℚ) (f : ℤ) (h1 : (f : ℚ) + 1 / 2 < y) (h2 : y < f + 1) :
    roundHalfEven y = f + 1 := by
  have hf : ⌊y⌋ = f := Int.floor_eq_iff.2 ⟨by linarith, h2⟩
  unfold roundHalfEven
  rw [hf, if_neg (by linarith), if_pos (by linarith)]

theorem roundHalfEven_tie (y : ℚ) (f : ℤ) (h : y = f + 1 / 2) :
    roundHalfEven y = if f % 2 = 0 then f else f + 1 := by
  have hf : ⌊y⌋ = f := Int.floor_eq_iff.2 ⟨by linarith, by linarith⟩
  unfold roundHalfEven
  rw [hf, if_neg (by linarith), if_neg (by linarith)]

theorem log_two_eq (x : ℚ) (e : ℤ) (hx : 0 < x) (h1 : (2 : ℚ) ^ e ≤ x) (h2 : x < (2 : ℚ) ^ (e + 1)) :
    Int.log 2 x = e := by
  have ha : e ≤ Int.log 2 x := (Int.zpow_le_iff_le_log (by norm_num) hx).1 (by exact_mod_cast h1)
  have hb : Int.log 2 x < e + 1 := (Int.lt_zpow_iff_log_lt (by norm_num) hx).1 (by exact_mod_cast h2)
  omega

/-- Evaluation of `roundDouble` at a positive number whose binade is known. -/
theorem roundDouble_pos (x : ℚ) (e m : ℤ) (hx : 0 < x) (h1 : (2 : ℚ) ^ (e + 52) ≤ x)
    (h2 : x < (2 : ℚ) ^ (e + 52 + 1)) (hm : roundHalfEven (x / (2 : ℚ) ^ e) = m) :
    roundDouble x = (m : ℚ) * (2 : ℚ) ^ e := by
  have hlog : Int.log 2 |x| = e + 52 := by
    rw [abs_of_pos hx]
    exact log_two_eq x (e + 52) hx h1 h2
  unfold roundDouble
  rw [if_neg (ne_of_gt hx), hlog]
  have : e + 52 - 52 = e := by omega
  rw [this, hm]

theorem roundDouble_tenth : roundDouble tenth = tenth := by
  rw [roundDouble_pos tenth (-56) 7205759403792794 (by norm_num [tenth]) (by norm_num [tenth])
    (by norm_num [tenth]) ?_]
  · norm_num [tenth]
  · have : tenth / (2 : ℚ) ^ (-56 : ℤ) = ((7205759403792794 : ℤ) : ℚ) := by norm_num [tenth]
    rw [this, roundHalfEven_intCast]

theorem roundDouble_two_tenths : roundDouble (tenth + tenth) = tenth + tenth := by
  rw [roundDouble_pos (tenth + tenth) (-55) 7205759403792794 (by norm_num [tenth])
    (by norm_num [tenth]) (by norm_num [tenth]) ?_]
  · norm_num [tenth]
  · have : (tenth + tenth) / (2 : ℚ) ^ (-55 : ℤ) = ((7205759403792794 : ℤ) : ℚ) := by
      norm_num [tenth]
    rw [this, roundHalfEven_intCast]

/-- The sum of three tenths rounds up at a tie: it is `0.30000000000000004`. -/
theorem roundDouble_three_tenths :
    roundDouble (tenth + tenth + tenth) = 5404319552844596 / 18014398509481984 := by
  rw [roundDouble_pos (tenth + tenth + tenth) (-54) 5404319552844596 (by norm_num [tenth])
    (by norm_num [tenth]) (by norm_num [tenth]) ?_]
  · norm_num
  · rw [roundHalfEven_tie _ 5404319552844595 (by norm_num [tenth])]
    norm_num

/-- The third of `0.30000000000000004` rounds to the successor of `0.1`. -/
theorem roundDouble_third :
    roundDouble (5404319552844596 / 18014398509481984 / (3 : ℚ)) = tenthSuccessor := by
  rw [roundDouble_pos _ (-56) 7205759403792795 (by norm_num) (by norm_num) (by norm_num) ?_]
  · norm_num [tenthSuccessor]
  · have h := roundHalfEven_above
      (5404319552844596 / 18014398509481984 / (3 : ℚ) / (2 : ℚ) ^ (-56 : ℤ))
      7205759403792794 (by norm_num) (by norm_num)
    rw [h]
    norm_num

namespace WorldDataFetcher

theorem tenthsGeometry_points :
    extractAllCoordinates (tenthsGeometry.field "coordinates") =
      [(tenth, tenth), (tenth, tenth), (tenth, tenth)].map numericCoord := rfl

theorem calculateGeoInfoWith_tenths :
    calculateGeoInfoWith roundDouble tenthsGeometry = .ok
      { center := (some tenth, some tenth)
        centroid := (some tenthSuccessor, some tenthSuccessor)
        bbox := (some tenth, some tenth, some tenth, some tenth) } := by
  have hc : (tenthsGeometry.field "coordinates").truthy = true := rfl
  have hget : tenthsGeometry.get "coordinates" = .ok (tenthsGeometry.field "coordinates") :=
    rfl
  have hhalf : roundDouble ((tenth + tenth) / ((2 : ℕ) : ℚ)) = tenth := by
    have : (tenth + tenth) / ((2 : ℕ) : ℚ) = tenth := by norm_num
    rw [this, roundDouble_tenth]
  have hzero : (0 : ℚ) + tenth = tenth := by norm_num
  unfold calculateGeoInfoWith
  rw [hget]
  simp only [hc, tenthsGeometry_points]
  simp [numericCoord, JsVal.asNum, mathMin, mathMax, JsNum.min, JsNum.max, JsNum.addWith,
    JsNum.divNatWith, roundDouble_tenth, roundDouble_two_tenths, roundDouble_three_tenths,
    roundDouble_third, hhalf, hzero]

end WorldDataFetcher

theorem roundHalfEven_bounds (y : ℚ) : ⌊y⌋ ≤ roundHalfEven y ∧ roundHalfEven y ≤ ⌊y⌋ + 1 := by
  unfold roundHalfEven
  split_ifs <;> omega

theorem roundHalfEven_mono {y z : ℚ} (h : y ≤ z) : roundHalfEven y ≤ roundHalfEven z := by
  have hf : ⌊y⌋ ≤ ⌊z⌋ := Int.floor_mono h
  rcases eq_or_lt_of_le hf with heq | hlt
  · unfold roundHalfEven
    rw [← heq]
    split_ifs <;> first | omega | linarith
  · have h1 := (roundHalfEven_bounds y).2
    have h2 := (roundHalfEven_bounds z).1
    omega

theorem roundHalfEven_neg (y : ℚ) : roundHalfEven (-y) = -roundHalfEven y := by
  by_cases hint : y = (⌊y⌋ : ℚ)
  · rw [hint, ← Int.cast_neg, roundHalfEven_intCast, roundHalfEven_intCast]
  · have hlt : (⌊y⌋ : ℚ) < y := lt_of_le_of_ne (Int.floor_le y) (Ne.symm hint)
    have hlt2 : y < (⌊y⌋ : ℚ) + 1 := Int.lt_floor_add_one y
    have hfl : ⌊-y⌋ = -⌊y⌋ - 1 := by
      rw [Int.floor_eq_iff]
      push_cast
      constructor <;> linarith
    unfold roundHalfEven
    rw [hfl]
    push_cast
    split_ifs <;> first | omega | linarith

theorem two_zpow_pos (e : ℤ) : (0 : ℚ) < (2 : ℚ) ^ e := zpow_pos (by norm_num) e

theorem roundDouble_neg (x : ℚ) : roundDouble (-x) = -roundDouble x := by
  unfold roundDouble
  by_cases hx : x = 0
  · simp [hx]
  · rw [if_neg (neg_ne_zero.2 hx), if_neg hx, abs_neg, neg_div, roundHalfEven_neg]
    push_cast
    ring

/-- A positive number rounds into its own binade, boundaries included. -/
theorem roundDouble_binade (x : ℚ) (hx : 0 < x) :
    (2 : ℚ) ^ Int.log 2 x ≤ roundDouble x ∧ roundDouble x ≤ (2 : ℚ) ^ (Int.log 2 x + 1) := by
  have hq := two_zpow_pos (Int.log 2 x - 52)
  have h1 : (2 : ℚ) ^ Int.log 2 x ≤ x := by
    have := Int.zpow_log_le_self (R := ℚ) (b := 2) (by norm_num) hx
    exact_mod_cast this
  have h2 : x < (2 : ℚ) ^ (Int.log 2 x + 1) := by
    have := Int.lt_zpow_succ_log_self (R := ℚ) (b := 2) (by norm_num) x
    exact_mod_cast this
  have e1 : (2 : ℚ) ^ Int.log 2 x = ((2 ^ 52 : ℤ) : ℚ) * (2 : ℚ) ^ (Int.log 2 x - 52) := by
    rw [zpow_sub₀ (by norm_num : (2 : ℚ) ≠ 0)]
    push_cast
    norm_num
    ring
  have e2 : (2 : ℚ) ^ (Int.log 2 x + 1) =
      ((2 ^ 53 : ℤ) : ℚ) * (2 : ℚ) ^ (Int.log 2 x - 52) := by
    rw [zpow_sub₀ (by norm_num : (2 : ℚ) ≠ 0), zpow_add₀ (by norm_num : (2 : ℚ) ≠ 0)]
    push_cast
    norm_num
    ring
  have hlo : ((2 ^ 52 : ℤ) : ℚ) ≤ x / (2 : ℚ) ^ (Int.log 2 x - 52) := by
    rw [le_div_iff₀ hq, ← e1]
    exact h1
  have hhi : x / (2 : ℚ) ^ (Int.log 2 x - 52) ≤ ((2 ^ 53 : ℤ) : ℚ) := by
    rw [div_le_iff₀ hq, ← e2]
    exact le_of_lt h2
  have m1 : (2 ^ 52 : ℤ) ≤ roundHalfEven (x / (2 : ℚ) ^ (Int.log 2 x - 52)) := by
    have := roundHalfEven_mono hlo
    rwa [roundHalfEven_intCast] at this
  have m2 : roundHalfEven (x / (2 : ℚ) ^ (Int.log 2 x - 52)) ≤ (2 ^ 53 : ℤ) := by
    have := roundHalfEven_mono hhi
    rwa [roundHalfEven_intCast] at this
  unfold roundDouble
  rw [if_neg (ne_of_gt hx), abs_of_pos hx, e1, e2]
  constructor
  · exact mul_le_mul_of_nonneg_right (by exact_mod_cast m1) (le_of_lt hq)
  · exact mul_le_mul_of_nonneg_right (by exact_mod_cast m2) (le_of_lt hq)

theorem roundDouble_nonneg (x : ℚ) (hx : 0 ≤ x) : 0 ≤ roundDouble x := by
  rcases eq_or_lt_of_le hx with h | h
  · rw [← h]
    simp [roundDouble]
  · exact le_trans (le_of_lt (two_zpow_pos _)) (roundDouble_binade x h).1

theorem roundDouble_mono_pos {x y : ℚ} (hx : 0 < x) (h : x ≤ y) :
    roundDouble x ≤ roundDouble y := by
  have hy : 0 < y := lt_of_lt_of_le hx h
  have hlog : Int.log 2 x ≤ Int.log 2 y := Int.log_mono_right hx h
  rcases eq_or_lt_of_le hlog with heq | hlt
  · unfold roundDouble
    rw [if_neg (ne_of_gt hx), if_neg (ne_of_gt hy), abs_of_pos hx, abs_of_pos hy, heq]
    have hq := two_zpow_pos (Int.log 2 y - 52)
    apply mul_le_mul_of_nonneg_right _ (le_of_lt hq)
    have : x / (2 : ℚ) ^ (Int.log 2 y - 52) ≤ y / (2 : ℚ) ^ (Int.log 2 y - 52) :=
      div_le_div_of_nonneg_right h (le_of_lt hq)
    exact_mod_cast roundHalfEven_mono this
  · have h1 := (roundDouble_binade x hx).2
    have h2 := (roundDouble_binade y hy).1
    have h3 : (2 : ℚ) ^ (Int.log 2 x + 1) ≤ (2 : ℚ) ^ Int.log 2 y :=
      zpow_le_zpow_right₀ (by norm_num) (by omega)
    linarith

/-- Rounding to binary64 is monotone. -/
theorem roundDouble_mono {x y : ℚ} (h : x ≤ y) : roundDouble x ≤ roundDouble y := by
  by_cases hx : 0 < x
  · exact roundDouble_mono_pos hx h
  · have hx0 : x ≤ 0 := le_of_not_lt hx
    have hnx : roundDouble x ≤ 0 := by
      have := roundDouble_nonneg (-x) (by linarith)
      rw [roundDouble_neg] at this
      linarith
    by_cases hy : 0 ≤ y
    · exact le_trans hnx (roundDouble_nonneg y hy)
    · have hy0 : 0 < -y := by linarith
      have := roundDouble_mono_pos hy0 (by linarith : -y ≤ -x)
      rw [roundDouble_neg, roundDouble_neg] at this
      linarith

/-- Doubling commutes with rounding to binary64. -/
theorem roundDouble_two_mul (x : ℚ) : roundDouble (2 * x) = 2 * roundDouble x := by
  by_cases hx : x = 0
  · simp [hx, roundDouble]
  · have habs : 0 < |x| := abs_pos.2 hx
    have h1 : (2 : ℚ) ^ Int.log 2 |x| ≤ |x| := by
      have := Int.zpow_log_le_self (R := ℚ) (b := 2) (by norm_num) habs
      exact_mod_cast this
    have h2 : |x| < (2 : ℚ) ^ (Int.log 2 |x| + 1) := by
      have := Int.lt_zpow_succ_log_self (R := ℚ) (b := 2) (by norm_num) |x|
      exact_mod_cast this
    have habs2 : |2 * x| = 2 * |x| := by rw [abs_mul]; norm_num
    have hlog : Int.log 2 |2 * x| = Int.log 2 |x| + 1 := by
      rw [habs2]
      apply log_two_eq _ _ (by linarith)
      · rw [zpow_add₀ (by norm_num : (2 : ℚ) ≠ 0)]
        norm_num
        linarith
      · rw [zpow_add₀ (by norm_num : (2 : ℚ) ≠ 0) (Int.log 2 |x| + 1)]
        norm_num
        linarith
    have hq : (2 : ℚ) ^ (Int.log 2 |x| + 1 - 52) = 2 * (2 : ℚ) ^ (Int.log 2 |x| - 52) := by
      have : Int.log 2 |x| + 1 - 52 = Int.log 2 |x| - 52 + 1 := by omega
      rw [this, zpow_add₀ (by norm_num : (2 : ℚ) ≠ 0)]
      norm_num
      ring
    have hqpos := two_zpow_pos (Int.log 2 |x| - 52)
    unfold roundDouble
    rw [if_neg (mul_ne_zero (by norm_num) hx), if_neg hx, hlog, hq]
    have hdiv : 2 * x / (2 * (2 : ℚ) ^ (Int.log 2 |x| - 52)) =
        x / (2 : ℚ) ^ (Int.log 2 |x| - 52) := by
      field_simp
      ring
    rw [hdiv]
    ring

/-! ## Center and centroid inside the bounding box -/

theorem sum_bounds (l : List ℚ) (lo hi : ℚ) (h : ∀ x ∈ l, lo ≤ x ∧ x ≤ hi) :
    lo * (l.length : ℚ) ≤ l.sum ∧ l.sum ≤ hi * (l.length : ℚ) := by
  induction l with
  | nil => simp
  | cons a rest ih =>
    obtain ⟨h1, h2⟩ := ih (fun x hx => h x (List.mem_cons_of_mem _ hx))
    obtain ⟨ha1, ha2⟩ := h a (List.mem_cons_self _ _)
    simp only [List.length_cons, List.sum_cons, Nat.cast_add, Nat.cast_one]
    constructor <;> nlinarith

theorem mean_bounds (l : List ℚ) (hne : l ≠ []) (lo hi : ℚ)
    (h : ∀ x ∈ l, lo ≤ x ∧ x ≤ hi) :
    lo ≤ l.sum / (l.length : ℚ) ∧ l.sum / (l.length : ℚ) ≤ hi := by
  have hpos : (0 : ℚ) < (l.length : ℚ) := by
    have : 0 < l.length := List.length_pos.2 hne
    exact_mod_cast this
  obtain ⟨h1, h2⟩ := sum_bounds l lo hi h
  exact ⟨(le_div_iff₀ hpos).2 h1, (div_le_iff₀ hpos).2 h2⟩

/-- The rounded midpoint of two binary64 values lies between them. -/
theorem rounded_midpoint_bounds (a b : ℚ) (hab : a ≤ b) (ha : roundDouble a = a)
    (hb : roundDouble b = b) :
    a ≤ roundDouble (roundDouble (a + b) / ((2 : ℕ) : ℚ)) ∧
      roundDouble (roundDouble (a + b) / ((2 : ℕ) : ℚ)) ≤ b := by
  have h2a : 2 * a ≤ roundDouble (a + b) := by
    have := roundDouble_mono (by linarith : 2 * a ≤ a + b)
    rwa [roundDouble_two_mul, ha] at this
  have h2b : roundDouble (a + b) ≤ 2 * b := by
    have := roundDouble_mono (by linarith : a + b ≤ 2 * b)
    rwa [roundDouble_two_mul, hb] at this
  have hc : ((2 : ℕ) : ℚ) = 2 := by norm_num
  rw [hc]
  constructor
  · have := roundDouble_mono (by linarith : a ≤ roundDouble (a + b) / 2)
    rwa [ha] at this
  · have := roundDouble_mono (by linarith : roundDouble (a + b) / 2 ≤ b)
    rwa [hb] at this

namespace WorldDataFetcher

/-- With the identity as rounding, `calculateGeoInfoWith` is `calculateGeoInfo`. -/
theorem calculateGeoInfoWith_id (geometry : JsVal) :
    calculateGeoInfoWith id geometry = calculateGeoInfo geometry := by
  have hadd : JsNum.addWith id = JsNum.add := by
    funext a b
    cases a <;> cases b <;> rfl
  have hdiv : JsNum.divNatWith id = JsNum.divNat := by
    funext a n
    cases a <;> rfl
  unfold calculateGeoInfoWith calculateGeoInfo
  rw [hadd, hdiv]

/-- On a geometry whose extracted points are the numeric pairs `pts`, not empty, the rounded
computation returns the minima and maxima of the coordinates as `bbox` and their rounded
midpoints as `center`. -/
theorem calculateGeoInfoWith_numeric (fl : ℚ → ℚ) (geometry : JsVal) (pts : List (ℚ × ℚ))
    (hne : pts ≠ [])
    (hpts : extractAllCoordinates (geometry.field "coordinates") = pts.map numericCoord) :
    ∃ minLon minLat maxLon maxLat : ℚ,
      IsLeast {x | x ∈ pts.map Prod.fst} minLon ∧ IsLeast {y | y ∈ pts.map Prod.snd} minLat ∧
      IsGreatest {x | x ∈ pts.map Prod.fst} maxLon ∧
      IsGreatest {y | y ∈ pts.map Prod.snd} maxLat ∧
      ∃ info, calculateGeoInfoWith fl geometry = .ok info ∧
        info.bbox = (some minLon, some minLat, some maxLon, some maxLat) ∧
        info.center = (some (fl (fl (minLon + maxLon) / ((2 : ℕ) : ℚ))),
          some (fl (fl (minLat + maxLat) / ((2 : ℕ) : ℚ)))) := by
  obtain ⟨p, ps, rfl⟩ := List.exists_cons_of_ne_nil hne
  have hcoord : (geometry.field "coordinates").truthy = true := by
    cases hc : geometry.field "coordinates" <;>
      simp_all [extractAllCoordinates, extract, JsVal.truthy]
  have hget : geometry.get "coordinates" = .ok (geometry.field "coordinates") := by
    cases geometry <;> simp_all [JsVal.get, JsVal.field, JsVal.truthy]
  obtain ⟨lo1, hlo1, hL1⟩ := mathMin_numbers p.1 (ps.map Prod.fst)
  obtain ⟨lo2, hlo2, hL2⟩ := mathMin_numbers p.2 (ps.map Prod.snd)
  obtain ⟨hi1, hhi1, hG1⟩ := mathMax_numbers p.1 (ps.map Prod.fst)
  obtain ⟨hi2, hhi2, hG2⟩ := mathMax_numbers p.2 (ps.map Prod.snd)
  refine ⟨lo1, lo2, hi1, hi2, by simpa using hL1, by simpa using hL2, by simpa using hG1,
    by simpa using hG2, ?_⟩
  have hlons : (List.map numericCoord (p :: ps)).map (fun coord => coord.1.asNum) =
      (p.1 :: ps.map Prod.fst).map some := by
    simp [numericCoord, JsVal.asNum, Function.comp_def]
  have hlats : (List.map numericCoord (p :: ps)).map (fun coord => coord.2.asNum) =
      (p.2 :: ps.map Prod.snd).map some := by
    simp [numericCoord, JsVal.asNum, Function.comp_def]
  unfold calculateGeoInfoWith
  rw [hget]
  simp only [hcoord, hpts, Bool.not_true, Bool.false_eq_true, if_false]
  rw [if_neg (by simp)]
  refine ⟨_, rfl, ?_, ?_⟩
  · simp only [hlons, hlats, hlo1, hlo2, hhi1, hhi2]
  · simp only [hlons, hlats, hlo1, hlo2, hhi1, hhi2, JsNum.addWith, JsNum.divNatWith]

end WorldDataFetcher

theorem isBinary64_tenth : isBinary64 tenth := by
  refine ⟨roundDouble_tenth, Or.inr ?_⟩
  rw [abs_of_pos (by norm_num [tenth] : (0 : ℚ) < tenth)]
  constructor <;> norm_num [tenth]

/-- In exact arithmetic (the identity as rounding) both the center and the centroid lie inside
the bbox. -/
theorem exact_center_and_centroid_in_bbox (geometry : JsVal) (pts : List (ℚ × ℚ))
    (hne : pts ≠ [])
    (hpts : WorldDataFetcher.extractAllCoordinates (geometry.field "coordinates") =
      pts.map numericCoord) :
    ∃ info minLon minLat maxLon maxLat centerLon centerLat centroidLon centroidLat,
      WorldDataFetcher.calculateGeoInfoWith id geometry = .ok info ∧
      info.bbox = (some minLon, some minLat, some maxLon, some maxLat) ∧
      info.center = (some centerLon, some centerLat) ∧
      info.centroid = (some centroidLon, some centroidLat) ∧
      minLon ≤ centerLon ∧ centerLon ≤ maxLon ∧ minLat ≤ centerLat ∧ centerLat ≤ maxLat ∧
      minLon ≤ centroidLon ∧ centroidLon ≤ maxLon ∧
      minLat ≤ centroidLat ∧ centroidLat ≤ maxLat := by
  obtain ⟨minLon, minLat, maxLon, maxLat, hL1, hL2, hG1, hG2, hinfo⟩ :=
    WorldDataFetcher.calculateGeoInfo_numeric geometry pts hne hpts
  have hlon : minLon ≤ maxLon := hG1.2 hL1.1
  have hlat : minLat ≤ maxLat := hG2.2 hL2.1
  have hne1 : pts.map Prod.fst ≠ [] := by simpa using hne
  have hne2 : pts.map Prod.snd ≠ [] := by simpa using hne
  have hm1 := mean_bounds (pts.map Prod.fst) hne1 minLon maxLon
    (fun x hx => ⟨hL1.2 hx, hG1.2 hx⟩)
  have hm2 := mean_bounds (pts.map Prod.snd) hne2 minLat maxLat
    (fun x hx => ⟨hL2.2 hx, hG2.2 hx⟩)
  simp only [List.length_map] at hm1 hm2
  rw [WorldDataFetcher.calculateGeoInfoWith_id]
  refine ⟨_, minLon, minLat, maxLon, maxLat, _, _, _, _, hinfo, rfl, rfl, rfl, ?_, ?_, ?_,
    ?_, hm1.1, hm1.2, hm2.1, hm2.2⟩
  · linarith
  · linarith
  · linarith
  · linarith

/-- C28 (counterexample): for three vertices at `[0.1, 0.1]`, with the binary64 arithmetic of
the running code, `calculateGeoInfo` returns the bbox `[0.1, 0.1, 0.1, 0.1]` and the centroid
`[0.10000000000000002, 0.10000000000000002]`: the sum `0.30000000000000004` divided by 3
rounds above `0.1`, so the centroid lies outside the bbox. -/
theorem C28_rounded_centroid_counterexample :
    isBinary64 tenth ∧
    (∃ info, WorldDataFetcher.calculateGeoInfoWith roundDouble tenthsGeometry = .ok info ∧
      info.bbox = (some tenth, some tenth, some tenth, some tenth) ∧
      info.centroid = (some tenthSuccessor, some tenthSuccessor)) ∧
    tenth < tenthSuccessor :=
  ⟨isBinary64_tenth, ⟨_, WorldDataFetcher.calculateGeoInfoWith_tenths, rfl, rfl⟩,
    by norm_num [tenth, tenthSuccessor]⟩

/-- C28 (amended): for every geometry with a non-empty sequence of numeric points whose
coordinates are binary64 values (at most `spreadArgumentBound` points, nested at most
`nestingBound` deep), `calculateGeoInfo` in the binary64 arithmetic of the running code returns
a `center` that lies inside the returned `bbox`: `bbox[0] <= center[0] <= bbox[2]` and
`bbox[1] <= center[1] <= bbox[3]`.  The `centroid` is not bounded by the `bbox`. -/
theorem C28_center_in_bbox (geometry : JsVal) (pts : List (ℚ × ℚ)) (hne : pts ≠ [])
    (hpts : WorldDataFetcher.extractAllCoordinates (geometry.field "coordinates") =
      pts.map numericCoord)
    (_hlen : pts.length ≤ spreadArgumentBound)
    (_hdepth : (geometry.field "coordinates").depth ≤ nestingBound)
    (hdouble : ∀ p ∈ pts, isBinary64 p.1 ∧ isBinary64 p.2) :
    ∃ info minLon minLat maxLon maxLat centerLon centerLat,
      WorldDataFetcher.calculateGeoInfoWith roundDouble geometry = .ok info ∧
      info.bbox = (some minLon, some minLat, some maxLon, some maxLat) ∧
      info.center = (some centerLon, some centerLat) ∧
      minLon ≤ centerLon ∧ centerLon ≤ maxLon ∧ minLat ≤ centerLat ∧ centerLat ≤ maxLat := by
  obtain ⟨minLon, minLat, maxLon, maxLat, hL1, hL2, hG1, hG2, info, hinfo, hbbox, hcenter⟩ :=
    WorldDataFetcher.calculateGeoInfoWith_numeric roundDouble geometry pts hne hpts
  have hmem : ∀ x ∈ pts.map Prod.fst, roundDouble x = x := by
    intro x hx
    obtain ⟨p, hp, rfl⟩ := List.mem_map.1 hx
    exact (hdouble p hp).1.1
  have hmem2 : ∀ y ∈ pts.map Prod.snd, roundDouble y = y := by
    intro y hy
    obtain ⟨p, hp, rfl⟩ := List.mem_map.1 hy
    exact (hdouble p hp).2.1
  have h1 := rounded_midpoint_bounds minLon maxLon (hG1.2 hL1.1) (hmem _ hL1.1)
    (hmem _ hG1.1)
  have h2 := rounded_midpoint_bounds minLat maxLat (hG2.2 hL2.1) (hmem2 _ hL2.1)
    (hmem2 _ hG2.1)
  exact ⟨info, minLon, minLat, maxLon, maxLat, _, _, hinfo, hbbox, hcenter, h1.1, h1.2,
    h2.1, h2.2⟩

/-- The three vertices at `[0.1, 0.1]`: the rounded center lies in the bbox. -/
theorem C28_center_in_bbox_witness :
    ∃ info minLon minLat maxLon maxLat centerLon centerLat,
      WorldDataFetcher.calculateGeoInfoWith roundDouble tenthsGeometry = .ok info ∧
      info.bbox = (some minLon, some minLat, some maxLon, some maxLat) ∧
      info.center = (some centerLon, some centerLat) ∧
      minLon ≤ centerLon ∧ centerLon ≤ maxLon ∧ minLat ≤ centerLat ∧ centerLat ≤ maxLat :=
  C28_center_in_bbox tenthsGeometry [(tenth, tenth), (tenth, tenth), (tenth, tenth)]
    (by simp) WorldDataFetcher.tenthsGeometry_points (by decide) (by decide)
    (by
      intro p hp
      simp only [List.mem_cons, List.mem_singleton, List.not_mem_nil, or_false, or_self] at hp
      rw [hp]
      exact ⟨isBinary64_tenth, isBinary64_tenth⟩)

/-! ## Agreement of the two geometry implementations -/

namespace WorldDataFetcher

/-- Whenever `calculateGeoInfo` returns, its `center` is the value of `calculateCenter`. -/
theorem center_eq_calculateCenter (geometry : JsVal) (info : GeoInfo)
    (h : calculateGeoInfo geometry = .ok info) :
    info.center = CorrectedWorldData.calculateCenter geometry := by
  have hu : geometry ≠ .undefined := by
    rintro rfl
    simp [calculateGeoInfo, JsVal.get] at h
  have hn : geometry ≠ .null := by
    rintro rfl
    simp [calculateGeoInfo, JsVal.get] at h
  unfold calculateGeoInfo at h
  unfold CorrectedWorldData.calculateCenter
  rw [JsVal.get_of_not_nullish geometry "coordinates" hu hn] at h
  simp only [CorrectedWorldData.extractAllCoordinates_eq]
  by_cases hc : (geometry.field "coordinates").truthy = true
  · have hg : geometry.truthy = true := by
      cases geometry <;> simp_all [JsVal.truthy, JsVal.field]
    simp only [hc, hg, Bool.not_true, Bool.or_self, Bool.false_eq_true, if_false] at h ⊢
    split at h
    · rename_i h0
      simp only [Except.ok.injEq] at h
      rw [if_pos h0, ← h]
      rfl
    · rename_i h0
      simp only [Except.ok.injEq] at h
      rw [if_neg h0, ← h]
  · simp only [Bool.not_eq_true] at hc
    simp only [hc, Bool.not_false, Bool.or_true, if_true, Except.ok.injEq] at h ⊢
    rw [← h]
    rfl

end WorldDataFetcher

/-- C29: the two geometry implementations agree: for every geometry (a value other than
`undefined` and `null`) whose extracted points are pairs of numbers, within the size limits of
the engine, `calculateGeoInfo` of `worldDataFetcher.js` returns and its `center` is the pair of
numbers that `calculateCenter` of `correctedWorldData.js` returns; and the two
`extractAllCoordinates` functions return the same list on every input. -/
theorem C29_geometry_implementations_agree :
    (∀ geometry : JsVal, geometry ≠ .undefined → geometry ≠ .null →
      hasNumericPoints (geometry.field "coordinates") →
      ∃ info lon lat, WorldDataFetcher.calculateGeoInfo geometry = .ok info ∧
        info.center = (some lon, some lat) ∧
        CorrectedWorldData.calculateCenter geometry = (some lon, some lat)) ∧
    (∀ coordinates : JsVal,
      CorrectedWorldData.extractAllCoordinates coordinates =
        WorldDataFetcher.extractAllCoordinates coordinates) := by
  refine ⟨?_, CorrectedWorldData.extractAllCoordinates_eq⟩
  intro geometry hu hn hpts
  obtain ⟨pts, hpts, -, -⟩ := hpts
  by_cases hne : pts = []
  · rw [hne] at hpts
    have hinfo : WorldDataFetcher.calculateGeoInfo geometry =
        .ok WorldDataFetcher.zeroGeoInfo := by
      unfold WorldDataFetcher.calculateGeoInfo
      rw [JsVal.get_of_not_nullish geometry "coordinates" hu hn]
      simp only [hpts]
      split <;> simp
    refine ⟨_, 0, 0, hinfo, rfl, ?_⟩
    rw [← WorldDataFetcher.center_eq_calculateCenter geometry _ hinfo]
    rfl
  · obtain ⟨minLon, minLat, maxLon, maxLat, -, -, -, -, hinfo⟩ :=
      WorldDataFetcher.calculateGeoInfo_numeric geometry pts hne hpts
    refine ⟨_, _, _, hinfo, rfl, ?_⟩
    rw [← WorldDataFetcher.center_eq_calculateCenter geometry _ hinfo]

/-- The square through both implementations. -/
theorem C29_geometry_implementations_agree_witness :
    ∃ info lon lat, WorldDataFetcher.calculateGeoInfo squareGeometry = .ok info ∧
      info.center = (some lon, some lat) ∧
      CorrectedWorldData.calculateCenter squareGeometry = (some lon, some lat) :=
  C29_geometry_implementations_agree.1 squareGeometry (by simp [squareGeometry])
    (by simp [squareGeometry])
    ⟨squarePoints, WorldDataFetcher.squareGeometry_points, by decide, by decide⟩

/-! ## Continent of the records of `processGeoJSONData` -/

namespace WorldDataFetcher

theorem continentMap_values (c t : String) (h : lookupLast continentMap c = some t) :
    t ∈ continentNames ∧ t ≠ "" := by
  have hmem := lookupLast_mem continentMap c t h
  simp only [continentMap, List.mem_cons, Prod.mk.injEq, List.mem_singleton,
    List.not_mem_nil, or_false] at hmem
  rcases hmem with h | h | h | h | h | h | h <;> rw [h.2] <;> decide

/-- The continent computed by `getCountryInfo` from a string `CONTINENT`. -/
theorem getCountryInfo_continent_string (properties : JsVal) (info : CountryInfo) (c : String)
    (h : getCountryInfo properties = .ok info) (hc : properties.field "CONTINENT" = .str c) :
    info.continent =
      ((lookupTable continentMap (some c)).or (properties.field "REGION_UN")).or
        (.str "Unknown") := by
  unfold getCountryInfo at h
  simp only at h
  split at h
  · simp at h
  · rw [hc] at h
    simp only [toPropertyKey, Except.ok.injEq] at h
    rw [← h]

theorem getCountryInfo_continent_absent (properties : JsVal) (info : CountryInfo)
    (h : getCountryInfo properties = .ok info)
    (hc : properties.field "CONTINENT" = .undefined) :
    info.continent = (properties.field "REGION_UN").or (.str "Unknown") := by
  unfold getCountryInfo at h
  simp only at h
  split at h
  · simp at h
  · rw [hc] at h
    simp only [toPropertyKey, Except.ok.injEq] at h
    rw [← h]
    have : lookupTable continentMap (some "undefined") = .undefined := rfl
    rw [this]
    simp [JsVal.or, JsVal.truthy]

end WorldDataFetcher

set_option maxRecDepth 100000 in
/-- C21 (counterexample): for a property bag in the style of the source dataset, with
`CONTINENT = "North America"` and `REGION_UN = "Americas"`, the record of `processGeoJSONData`
has the continent `"Americas"`, which is not one of the eight names. -/
theorem C21_region_as_continent_counterexample :
    ∃ r, WorldDataFetcher.processGeoJSONData (collectionOf [americasFeature]) = .ok [r] ∧
      r.continent = .str "Americas" ∧ "Americas" ∉ continentNames :=
  ⟨_, rfl, rfl, by decide⟩

/-- C21 (amended): in a record of `processGeoJSONData` the continent is the entry of the table
of `getCountryInfo` under `CONTINENT` when `CONTINENT` is one of its seven codes, and is then
one of the seven continent names; when `CONTINENT` is absent, or is a string that is neither a
code of the table nor a member name of `Object.prototype`, the continent is `REGION_UN` copied
as it is when truthy, else `"Unknown"`. -/
theorem C21_continent_from_code_or_region (feature : JsVal) (index : ℕ)
    (r : WorldDataFetcher.WorldRecord)
    (h : WorldDataFetcher.mapCallback feature index = .ok r) :
    (∀ c t : String, (propertiesOf feature).field "CONTINENT" = .str c →
      lookupLast WorldDataFetcher.continentMap c = some t →
      r.continent = .str t ∧ t ∈ continentNames) ∧
    (∀ c : String, (propertiesOf feature).field "CONTINENT" = .str c →
      lookupLast WorldDataFetcher.continentMap c = none → c ∉ objectProtoKeys →
      r.continent = ((propertiesOf feature).field "REGION_UN").or (.str "Unknown")) ∧
    ((propertiesOf feature).field "CONTINENT" = .undefined →
      r.continent = ((propertiesOf feature).field "REGION_UN").or (.str "Unknown")) := by
  obtain ⟨-, -, -, ⟨info, hinfo, -, -, hcont⟩, -, -⟩ :=
    WorldDataFetcher.mapCallback_fields feature index r h
  refine ⟨?_, ?_, ?_⟩
  · intro c t hc ht
    obtain ⟨hmem, hne⟩ := WorldDataFetcher.continentMap_values c t ht
    rw [hcont, WorldDataFetcher.getCountryInfo_continent_string _ info c hinfo hc]
    simp [lookupTable, ht, JsVal.or, JsVal.truthy, hne, hmem]
  · intro c hc hnone hproto
    rw [hcont, WorldDataFetcher.getCountryInfo_continent_string _ info c hinfo hc]
    simp [lookupTable, hnone, hproto, JsVal.or, JsVal.truthy]
  · intro hc
    rw [hcont]
    exact WorldDataFetcher.getCountryInfo_continent_absent _ info hinfo hc

set_option maxRecDepth 100000 in
/-- A feature with `CONTINENT = "EU"` gets `"Europe"`. -/
theorem C21_continent_from_code_or_region_witness :
    ∃ r, WorldDataFetcher.mapCallback
        (featureOf [("ISO_A2", .str "FR"), ("CONTINENT", .str "EU")]) 0 = .ok r ∧
      r.continent = .str "Europe" ∧ "Europe" ∈ continentNames :=
  ⟨_, rfl,
    (C21_continent_from_code_or_region
      (featureOf [("ISO_A2", .str "FR"), ("CONTINENT", .str "EU")]) 0 _ rfl).1
      "EU" "Europe" rfl rfl⟩

/-! ## Kinds of errors -/

mutual
theorem toPropertyKey_error : ∀ (v : JsVal) (e : JsError),
    toPropertyKey v = .error e → e.isTypeError = true
  | .arr xs, e, h => by
    rw [toPropertyKey] at h
    exact joinKeys_error xs e h
  | .obj fs, e, h => by
    rw [toPropertyKey] at h
    split at h
    · simp only [Except.error.injEq] at h
      rw [← h]
      rfl
    · simp at h
  | .undefined, e, h => by simp [toPropertyKey] at h
  | .null, e, h => by simp [toPropertyKey] at h
  | .bool _, e, h => by simp [toPropertyKey] at h
  | .num _, e, h => by simp [toPropertyKey] at h
  | .str _, e, h => by simp [toPropertyKey] at h
  | .proto _, e, h => by simp [toPropertyKey] at h
theorem joinKeys_error : ∀ (xs : List JsVal) (e : JsError),
    joinKeys xs = .error e → e.isTypeError = true
  | [], e, h => by simp [joinKeys] at h
  | x :: rest, e, h => by
    rw [joinKeys] at h
    split at h
    · rename_i e' he'
      simp only [Except.error.injEq] at h
      rw [← h]
      exact elementKey_error x e' he'
    · split at h
      · simp at h
      · split at h
        · rename_i e' he'
          simp only [Except.error.injEq] at h
          rw [← h]
          exact joinKeys_error _ e' he'
        · split at h <;> simp at h
theorem elementKey_error : ∀ (v : JsVal) (e : JsError),
    elementKey v = .error e → e.isTypeError = true
  | .arr xs, e, h => by
    rw [elementKey] at h
    exact joinKeys_error xs e h
  | .obj fs, e, h => by
    rw [elementKey] at h
    split at h
    · simp only [Except.error.injEq] at h
      rw [← h]
      rfl
    · simp at h
  | .undefined, e, h => by simp [elementKey] at h
  | .null, e, h => by simp [elementKey] at h
  | .bool _, e, h => by simp [elementKey] at h
  | .num _, e, h => by simp [elementKey] at h
  | .str _, e, h => by simp [elementKey] at h
  | .proto _, e, h => by simp [elementKey] at h
end

theorem JsVal.get_error (v : JsVal) (k : String) (e : JsError) (h : v.get k = .error e) :
    e.isTypeError = true := by
  cases v <;> simp [JsVal.get] at h <;> rw [← h] <;> rfl

theorem asArray_error (v : JsVal) (what : String) (e : JsError)
    (h : asArray v what = .error e) : e.isTypeError = true := by
  cases v <;> simp [asArray] at h <;> rw [← h] <;> rfl

theorem filterArray_error {α : Type} (keep : α → Except JsError JsVal) :
    ∀ (xs : List α) (e : JsError), filterArray keep xs = .error e →
      ∃ x ∈ xs, keep x = .error e
  | [], e, h => by simp [filterArray] at h
  | x :: rest, e, h => by
    simp only [filterArray] at h
    split at h
    · rename_i e' he'
      simp only [Except.error.injEq] at h
      exact ⟨x, List.mem_cons_self _ _, by rw [he', h]⟩
    · split at h
      · rename_i e' he'
        simp only [Except.error.injEq] at h
        obtain ⟨y, hy, hk⟩ := filterArray_error keep rest e' he'
        exact ⟨y, List.mem_cons_of_mem _ hy, by rw [hk, h]⟩
      · simp at h

theorem mapWithIndex_error {α β : Type} (f : α → ℕ → Except JsError β) :
    ∀ (xs : List α) (index : ℕ) (e : JsError), mapWithIndex f xs index = .error e →
      ∃ x ∈ xs, ∃ j, f x j = .error e
  | [], _, e, h => by simp [mapWithIndex] at h
  | x :: rest, index, e, h => by
    simp only [mapWithIndex] at h
    split at h
    · rename_i e' he'
      simp only [Except.error.injEq] at h
      exact ⟨x, List.mem_cons_self _ _, index, by rw [he', h]⟩
    · split at h
      · rename_i e' he'
        simp only [Except.error.injEq] at h
        obtain ⟨y, hy, j, hk⟩ := mapWithIndex_error f rest (index + 1) e' he'
        exact ⟨y, List.mem_cons_of_mem _ hy, j, by rw [hk, h]⟩
      · simp at h

namespace CorrectedWorldData

theorem fixIsoA2Code_error (isoCode name : JsVal) (e : JsError)
    (h : fixIsoA2Code isoCode name = .error e) : e.isTypeError = true := by
  unfold fixIsoA2Code at h
  split at h
  · split at h
    · rename_i e' he'
      simp only [Except.error.injEq] at h
      rw [← h]
      exact toPropertyKey_error _ e' he'
    · split at h <;> simp at h
  · simp at h

theorem getChineseName_error (englishName : JsVal) (e : JsError)
    (h : getChineseName englishName = .error e) : e.isTypeError = true := by
  unfold getChineseName at h
  split at h
  · rename_i e' he'
    simp only [Except.error.injEq] at h
    rw [← h]
    exact toPropertyKey_error _ e' he'
  · simp at h

theorem getContinentFromCode_error (countryCode : JsVal) (e : JsError)
    (h : getContinentFromCode countryCode = .error e) : e.isTypeError = true := by
  unfold getContinentFromCode at h
  split at h
  · rename_i e' he'
    simp only [Except.error.injEq] at h
    rw [← h]
    exact toPropertyKey_error _ e' he'
  · simp at h

theorem displayName_error (properties : JsVal) (e : JsError)
    (h : displayName properties = .error e) : e.isTypeError = true := by
  unfold displayName at h
  split at h
  · simp at h
  · exact getChineseName_error _ e h

theorem sovereignFilter_error (feature : JsVal) (e : JsError)
    (h : sovereignFilter feature = .error e) : e.isTypeError = true := by
  unfold sovereignFilter at h
  split at h
  · rename_i e' he'
    simp only [Except.error.injEq] at h
    rw [← h]
    exact JsVal.get_error _ _ e' he'
  · simp only at h
    split at h
    · rename_i e' he'
      simp only [Except.error.injEq] at h
      rw [← h]
      exact fixIsoA2Code_error _ _ e' he'
    · simp at h

theorem toCountryRecord_error (feature : JsVal) (index : ℕ) (e : JsError)
    (h : toCountryRecord feature index = .error e) : e.isTypeError = true := by
  unfold toCountryRecord at h
  split at h
  · rename_i e' he'
    simp only [Except.error.injEq] at h
    rw [← h]
    exact JsVal.get_error _ _ e' he'
  · split at h
    · rename_i e' he'
      simp only [Except.error.injEq] at h
      rw [← h]
      exact JsVal.get_error _ _ e' he'
    · simp only at h
      split at h
      · rename_i e' he'
        simp only [Except.error.injEq] at h
        rw [← h]
        exact displayName_error _ e' he'
      · split at h
        · rename_i e' he'
          simp only [Except.error.injEq] at h
          rw [← h]
          exact fixIsoA2Code_error _ _ e' he'
        · split at h
          · rename_i e' he'
            simp only [Except.error.injEq] at h
            rw [← h]
            exact getContinentFromCode_error _ e' he'
          · simp at h

theorem processFilteredData_error (features : List JsVal) (e : JsError)
    (h : processFilteredData features = .error e) : e.isTypeError = true := by
  obtain ⟨x, -, j, hx⟩ := mapWithIndex_error toCountryRecord features 0 e h
  exact toCountryRecord_error x j e hx

/-- Past the shape test, no step of `getCorrectedWorldData` raises the shape error: the
property reads, the filter and the record construction raise `TypeError`s only.  (The writes of
the file system, which are not represented, raise errors of the file system, whose messages
are not the shape message either.) -/
theorem getCorrectedWorldData_not_shape_error (data : JsVal)
    (hd : data.truthy = true) (hf : (data.field "features").truthy = true) :
    getCorrectedWorldData data ≠ .error (.error "无效的数据格式") := by
  intro h
  have key : ∀ e : JsError, getCorrectedWorldData data = .error e → e.isTypeError = true := by
    intro e h
    unfold getCorrectedWorldData at h
    simp only [hd, hf, Bool.not_true, Bool.or_self, Bool.false_eq_true, if_false] at h
    split at h
    · rename_i e' he'
      simp only [Except.error.injEq] at h
      rw [← h]
      exact asArray_error _ _ e' he'
    · split at h
      · rename_i e' he'
        simp only [Except.error.injEq] at h
        rw [← h]
        obtain ⟨x, -, hx⟩ := filterArray_error sovereignFilter _ e' he'
        exact sovereignFilter_error x e' hx
      · split at h
        · rename_i e' he'
          simp only [Except.error.injEq] at h
          rw [← h]
          exact processFilteredData_error _ e' he'
        · exact processFilteredData_error _ e h
  have := key _ h
  simp [JsError.isTypeError] at this

end CorrectedWorldData

/-! ## Input shape check -/

/-- C22 (counterexample): a document tagged `"Topology"` with an empty `features` array is not
a feature collection, and `getCorrectedWorldData` returns the empty list of records for it
without an error. -/
theorem C22_untagged_document_counterexample :
    CorrectedWorldData.getCorrectedWorldData untaggedDocument = .ok [] ∧
    untaggedDocument.field "type" = .str "Topology" :=
  ⟨rfl, rfl⟩

/-- C22 (amended): `getCorrectedWorldData` raises the input-shape error if and only if the
fetched document is falsy or its `features` property is falsy (absent, `null`, `0`, `""`); the
`type` tag is not read, and `features` is not checked to be an array.  A document with a
`features` array never triggers this error. -/
theorem C22_shape_error_iff_features_falsy :
    (∀ data : JsVal,
      CorrectedWorldData.getCorrectedWorldData data = .error (.error "无效的数据格式") ↔
        (data.truthy = false ∨ (data.field "features").truthy = false)) ∧
    (∀ (data : JsVal) (fs : List JsVal), data.field "features" = .arr fs →
      CorrectedWorldData.getCorrectedWorldData data ≠ .error (.error "无效的数据格式")) := by
  have hiff : ∀ data : JsVal,
      CorrectedWorldData.getCorrectedWorldData data = .error (.error "无效的数据格式") ↔
        (data.truthy = false ∨ (data.field "features").truthy = false) := by
    intro data
    constructor
    · intro h
      by_contra hcon
      simp only [not_or, Bool.not_eq_false] at hcon
      exact CorrectedWorldData.getCorrectedWorldData_not_shape_error data hcon.1 hcon.2 h
    · intro h
      unfold CorrectedWorldData.getCorrectedWorldData
      rcases h with h | h <;> simp [h]
  refine ⟨hiff, ?_⟩
  intro data fs hfs h
  rcases (hiff data).1 h with hd | hf
  · cases data <;> simp_all [JsVal.truthy, JsVal.field]
  · rw [hfs] at hf
    simp [JsVal.truthy] at hf

/-- A document without `features` raises the input-shape error. -/
theorem C22_shape_error_iff_features_falsy_witness :
    CorrectedWorldData.getCorrectedWorldData (.obj [("type", .str "FeatureCollection")]) =
      .error (.error "无效的数据格式") :=
  (C22_shape_error_iff_features_falsy.1 (.obj [("type", .str "FeatureCollection")])).2
    (Or.inr rfl)

/-! ## Chart value -/

theorem powerOfTen_sound : ∀ (fuel n k : ℕ), powerOfTen? fuel n = some k → n = 10 ^ k
  | 0, n, k, h => by simp [powerOfTen?] at h
  | fuel + 1, n, k, h => by
    simp only [powerOfTen?] at h
    split at h
    · rename_i h1
      simp only [Option.some.injEq] at h
      rw [h1, ← h]
      rfl
    · split at h
      · rename_i hdiv
        cases hrec : powerOfTen? fuel (n / 10) with
        | none => simp [hrec] at h
        | some j =>
          simp only [hrec, Option.map_some', Option.some.injEq] at h
          have ih := powerOfTen_sound fuel (n / 10) j hrec
          have hn : n = 10 * (n / 10) := by omega
          rw [← h, pow_succ, ← ih]
          omega
      · simp at h

theorem powerOfTen_complete : ∀ (k fuel : ℕ), k < fuel → powerOfTen? fuel (10 ^ k) = some k
  | 0, fuel + 1, _ => by simp [powerOfTen?]
  | k + 1, fuel + 1, h => by
    have hne : (10 : ℕ) ^ (k + 1) ≠ 1 := by
      have : 1 < (10 : ℕ) ^ (k + 1) := Nat.one_lt_pow (by omega) (by norm_num)
      omega
    have hmod : (10 : ℕ) ^ (k + 1) % 10 = 0 := by
      rw [pow_succ]
      exact Nat.mul_mod_left _ _
    have hpos : (10 : ℕ) ^ (k + 1) ≠ 0 := by positivity
    have hdiv : (10 : ℕ) ^ (k + 1) / 10 = 10 ^ k := by
      rw [pow_succ]
      exact Nat.mul_div_cancel _ (by norm_num)
    simp only [powerOfTen?, hne, hmod, hpos, if_false, ne_eq, not_false_eq_true, and_self,
      if_true, hdiv]
    rw [powerOfTen_complete k fuel (by omega)]
    rfl

/-- The model of `Math.log10` answers `k` on every power `10 ^ k` of ten. -/
theorem mathLog10_pow (k : ℕ) : mathLog10 ((10 : ℚ) ^ k) = some (k : ℚ) := by
  have hx : ((10 : ℚ) ^ k) = ((10 ^ k : ℕ) : ℚ) := by push_cast; rfl
  have hden : ((10 : ℚ) ^ k).den = 1 := by rw [hx]; exact Rat.den_natCast _
  have hnum : ((10 : ℚ) ^ k).num = ((10 ^ k : ℕ) : ℤ) := by rw [hx]; exact Rat.num_natCast _
  have hpos : (0 : ℤ) < ((10 ^ k : ℕ) : ℤ) := by positivity
  unfold mathLog10
  rw [hden, hnum]
  simp only [hpos, and_self, if_true, Int.toNat_ofNat]
  rw [powerOfTen_complete k (10 ^ k) (Nat.lt_pow_self (by norm_num) k)]

/-- The model of `Math.log10` answers only the exponent of a power of ten. -/
theorem mathLog10_sound (x k : ℚ) (h : mathLog10 x = some k) :
    ∃ n : ℕ, (k = (n : ℚ) ∧ x = (10 : ℚ) ^ n) ∨ (k = -(n : ℚ) ∧ x = 1 / (10 : ℚ) ^ n) := by
  unfold mathLog10 at h
  split at h
  · rename_i hc
    cases hp : powerOfTen? x.num.toNat x.num.toNat with
    | none => simp [hp] at h
    | some n =>
      simp only [hp, Option.some.injEq] at h
      have hn := powerOfTen_sound _ _ _ hp
      refine ⟨n, Or.inl ⟨h.symm, ?_⟩⟩
      have hnum : x.num = ((10 ^ n : ℕ) : ℤ) := by
        rw [← hn]
        exact (Int.toNat_of_nonneg (le_of_lt hc.2)).symm
      have hx : x = (x.num : ℚ) := by
        have := Rat.num_div_den x
        rw [hc.1] at this
        simpa using this.symm
      rw [hx, hnum]
      push_cast
      rfl
  · split at h
    · rename_i hnum
      cases hp : powerOfTen? x.den x.den with
      | none => simp [hp] at h
      | some n =>
        simp only [hp, Option.some.injEq] at h
        have hn := powerOfTen_sound _ _ _ hp
        refine ⟨n, Or.inr ⟨h.symm, ?_⟩⟩
        have hx := (Rat.num_div_den x).symm
        rw [hnum, hn] at hx
        rw [hx]
        push_cast
        rfl
    · simp at h

namespace EChartsGenerator

theorem calculateValue_tiny : calculateValue tinyCountry = some (-10) := by
  have h1 : ((1 : ℚ) / 10).num = 1 := by norm_num
  have h2 : ((1 : ℚ) / 10).den = 10 := by norm_num
  simp [calculateValue, tinyCountry, JsVal.field, lookupLast, JsVal.or, JsVal.truthy,
    JsVal.asNum, mathLog10, h1, h2, powerOfTen?, JsNum.mulLit, JsNum.add, JsNum.min]
  norm_num

theorem calculateValue_defaults : calculateValue (.obj []) = some 100 := by
  have h6 : mathLog10 1000000 = some 6 := by
    have := mathLog10_pow 6
    norm_num at this
    exact this
  have h5 : mathLog10 100000 = some 5 := by
    have := mathLog10_pow 5
    norm_num at this
    exact this
  simp [calculateValue, JsVal.field, lookupLast, objectProtoKeys, JsVal.or, JsVal.truthy,
    JsVal.asNum, h6, h5, JsNum.mulLit, JsNum.add, JsNum.min]
  norm_num

theorem calculateValue_le (country : JsVal) (v : ℚ) (h : calculateValue country = some v) :
    v ≤ 100 := by
  unfold calculateValue JsNum.min at h
  simp only at h
  split at h
  · simp only [Option.some.injEq] at h
    rename_i x y hx hy
    simp only [Option.some.injEq] at hx
    rw [← h, ← hx]
    exact min_le_left _ _
  · simp at h

end EChartsGenerator

/-- C24: `calculateValue` returns `min(100, 20*log10(population) + 10*log10(area))`, with the
defaults 1000000 and 100000 for a falsy population and area, and the result is at most 100;
it is not bounded below by 0: for population 1 and area 0.1 it is -10.  With both defaults it
is 100. -/
theorem C24_value_not_bounded_below :
    EChartsGenerator.calculateValue tinyCountry = some (-10) ∧
    (∀ (country : JsVal) (v : ℚ), EChartsGenerator.calculateValue country = some v →
      v ≤ 100) ∧
    EChartsGenerator.calculateValue (.obj []) = some 100 :=
  ⟨EChartsGenerator.calculateValue_tiny, EChartsGenerator.calculateValue_le,
    EChartsGenerator.calculateValue_defaults⟩

/-! ## Region formatting -/

/-- C25: `formatForECharts` returns the feature collection with an empty `features` array for
every input: its closure `processFeatures` is never called, so an input with one feature
yields no feature. -/
theorem C25_formatForECharts_returns_no_feature :
    (∀ fullData : JsVal,
      ChinaRegionDataFetcher.formatForECharts fullData =
        .obj [("type", .str "FeatureCollection"), ("features", .arr [])]) ∧
    (∃ feature, oneRegion.field "features" = .arr [feature]) ∧
    (ChinaRegionDataFetcher.formatForECharts oneRegion).field "features" = .arr [] :=
  ⟨fun _ => rfl, ⟨_, rfl⟩, rfl⟩

/-! ## Agreement of filter and normaliser on the repaired code -/

set_option maxRecDepth 100000 in
/-- C26 (counterexample): France with the sentinel code and the localized name
`"法兰西共和国"` is retained by the sovereignty filter, which tests the repaired code `"FR"`,
and its record has the `adcode` `"-99"`, which is not in `UN_MEMBER_CODES`. -/
theorem C26_adcode_differs_counterexample :
    retains CorrectedWorldData.sovereignFilter longLocalNameFeature = true ∧
    CorrectedWorldData.fixIsoA2Code ((propertiesOf longLocalNameFeature).field "ISO_A2")
      (CorrectedWorldData.filterName (propertiesOf longLocalNameFeature)) =
      .ok (.str "FR") ∧
    (∃ r, CorrectedWorldData.toCountryRecord longLocalNameFeature 0 = .ok r ∧
      r.adcode = .str "-99") ∧
    "-99" ∉ CorrectedWorldData.UN_MEMBER_CODES :=
  ⟨rfl, rfl, ⟨_, rfl, rfl⟩, by decide⟩

set_option maxRecDepth 100000 in
/-- C26 (amended): for a feature retained by the sovereignty filter whose raw `ISO_A2` is not
the sentinel, the `adcode` written by `processFilteredData` equals the code the filter tested
and is in `UN_MEMBER_CODES`.  For a feature carrying the sentinel the normaliser repairs from
the display name: with `NAME` `"France"` or `"Norway"` and no `NAME_ZH` and `NAME_LONG` the
`adcode` again equals the code the filter tested and is in `UN_MEMBER_CODES`, and with a
display name that is a string outside the repair table (and not a member name of
`Object.prototype`) the `adcode` is `"-99"`. -/
theorem C26_adcode_and_filter_code :
    (∀ (feature : JsVal) (index : ℕ) (r : CorrectedWorldData.CountryRecord),
      ((propertiesOf feature).field "ISO_A2").isStr "-99" = false →
      retains CorrectedWorldData.sovereignFilter feature = true →
      CorrectedWorldData.toCountryRecord feature index = .ok r →
      CorrectedWorldData.fixIsoA2Code ((propertiesOf feature).field "ISO_A2")
        (CorrectedWorldData.filterName (propertiesOf feature)) = .ok r.adcode ∧
      ∃ s ∈ CorrectedWorldData.UN_MEMBER_CODES, r.adcode = .str s) ∧
    (∀ (feature : JsVal) (index : ℕ) (r : CorrectedWorldData.CountryRecord),
      (propertiesOf feature).field "ISO_A2" = .str "-99" →
      ((propertiesOf feature).field "NAME" = .str "France" ∨
        (propertiesOf feature).field "NAME" = .str "Norway") →
      ((propertiesOf feature).field "NAME_ZH").truthy = false →
      ((propertiesOf feature).field "NAME_LONG").truthy = false →
      CorrectedWorldData.toCountryRecord feature index = .ok r →
      CorrectedWorldData.fixIsoA2Code ((propertiesOf feature).field "ISO_A2")
        (CorrectedWorldData.filterName (propertiesOf feature)) = .ok r.adcode ∧
      ∃ s ∈ CorrectedWorldData.UN_MEMBER_CODES, r.adcode = .str s) ∧
    (∀ (feature : JsVal) (index : ℕ) (r : CorrectedWorldData.CountryRecord) (s : String),
      (propertiesOf feature).field "ISO_A2" = .str "-99" →
      CorrectedWorldData.displayName (propertiesOf feature) = .ok (.str s) →
      lookupLast CorrectedWorldData.nameToISO s = none → s ∉ objectProtoKeys →
      CorrectedWorldData.toCountryRecord feature index = .ok r →
      r.adcode = .str "-99") := by
  refine ⟨?_, ?_, ?_⟩
  · intro feature index r hraw hkeep hr
    obtain ⟨hu, hn, -, -, hadcode, -, -⟩ :=
      CorrectedWorldData.toCountryRecord_fields feature index r hr
    rw [CorrectedWorldData.fixIsoA2Code_not_sentinel _ _ hraw] at hadcode
    injection hadcode with hadcode
    have hcode := CorrectedWorldData.fixIsoA2Code_not_sentinel
      ((propertiesOf feature).field "ISO_A2")
      (CorrectedWorldData.filterName (propertiesOf feature)) hraw
    have hv := CorrectedWorldData.sovereignFilter_ok feature hu hn _ hcode
    unfold retains at hkeep
    rw [hv] at hkeep
    simp only at hkeep
    obtain ⟨⟨s, hs, hmem⟩, -, -⟩ := (CorrectedWorldData.filter_value_truthy_iff _ _).1 hkeep
    exact ⟨by rw [hcode, hadcode], s, hmem, by rw [← hadcode, hs]⟩
  · intro feature index r hiso hname hzh hlong hr
    obtain ⟨-, -, -, hdisp, hadcode, -, -⟩ :=
      CorrectedWorldData.toCountryRecord_fields feature index r hr
    have hd : CorrectedWorldData.displayName (propertiesOf feature) =
        CorrectedWorldData.getChineseName ((propertiesOf feature).field "NAME") := by
      simp [CorrectedWorldData.displayName, hzh, JsVal.or, hlong]
    have hf : CorrectedWorldData.filterName (propertiesOf feature) =
        ((propertiesOf feature).field "NAME").or
          (((propertiesOf feature).field "NAME_LONG").or (.str "")) := by
      rcases hname with h | h <;>
        simp [CorrectedWorldData.filterName, h, JsVal.or, JsVal.truthy]
    rw [hd] at hdisp
    rw [hiso] at hadcode ⊢
    rcases hname with h | h
    · rw [h] at hdisp hf
      have hzhname : CorrectedWorldData.getChineseName (.str "France") = .ok (.str "法国") :=
        rfl
      rw [hzhname] at hdisp
      injection hdisp with hdisp
      rw [← hdisp] at hadcode
      have hfix : CorrectedWorldData.fixIsoA2Code (.str "-99") (.str "法国") =
          .ok (.str "FR") := rfl
      rw [hfix] at hadcode
      injection hadcode with hadcode
      rw [hf, ← hadcode]
      exact ⟨rfl, "FR", by decide, rfl⟩
    · rw [h] at hdisp hf
      have hzhname : CorrectedWorldData.getChineseName (.str "Norway") = .ok (.str "挪威") :=
        rfl
      rw [hzhname] at hdisp
      injection hdisp with hdisp
      rw [← hdisp] at hadcode
      have hfix : CorrectedWorldData.fixIsoA2Code (.str "-99") (.str "挪威") =
          .ok (.str "NO") := rfl
      rw [hfix] at hadcode
      injection hadcode with hadcode
      rw [hf, ← hadcode]
      exact ⟨rfl, "NO", by decide, rfl⟩
  · intro feature index r s hiso hdisp hnone hproto hr
    obtain ⟨-, -, -, hdisp', hadcode, -, -⟩ :=
      CorrectedWorldData.toCountryRecord_fields feature index r hr
    rw [hdisp] at hdisp'
    injection hdisp' with hdisp'
    rw [hiso, ← hdisp'] at hadcode
    have hsent : (JsVal.str "-99").isStr "-99" = true := by decide
    simp only [CorrectedWorldData.fixIsoA2Code, hsent, if_true, toPropertyKey, lookupTable,
      hnone, hproto, if_false, JsVal.truthy, Bool.false_eq_true, Except.ok.injEq] at hadcode
    exact hadcode.symm

set_option maxRecDepth 100000 in
/-- Japan: the `adcode` is the code the filter tested. -/
theorem C26_adcode_and_filter_code_witness :
    ∃ r, CorrectedWorldData.toCountryRecord (namedFeature "JP" "Japan") 0 = .ok r ∧
      CorrectedWorldData.fixIsoA2Code ((propertiesOf (namedFeature "JP" "Japan")).field "ISO_A2")
        (CorrectedWorldData.filterName (propertiesOf (namedFeature "JP" "Japan"))) =
          .ok r.adcode ∧
      ∃ s ∈ CorrectedWorldData.UN_MEMBER_CODES, r.adcode = .str s :=
  ⟨_, rfl, C26_adcode_and_filter_code.1 (namedFeature "JP" "Japan") 0 _ rfl rfl rfl⟩

/-! ## The two sovereignty filters -/

theorem JsVal.and_truthy (a b : JsVal) : (a.and b).truthy = (a.truthy && b.truthy) := by
  unfold JsVal.and
  cases h : a.truthy <;> simp [h]

theorem JsVal.truthy_bool (x : Bool) : (JsVal.bool x).truthy = x := rfl

namespace WorldDataFetcher

theorem optionalIncludes_containsText (v : JsVal) (needle : String)
    (h : isTextOrAbsent v = true) :
    ∃ w, optionalIncludes v needle = .ok w ∧ w.truthy = containsText v needle := by
  cases v <;> simp_all [isTextOrAbsent, optionalIncludes, containsText, JsVal.truthy]

/-- What the filter of `processGeoJSONData` tests on a feature whose `ADM0_A3` and `NAME` are
strings or absent. -/
theorem retains_filterCallback_iff (feature : JsVal) (hu : feature ≠ .undefined)
    (hn : feature ≠ .null)
    (hadm : isTextOrAbsent ((propertiesOf feature).field "ADM0_A3") = true)
    (hname : isTextOrAbsent ((propertiesOf feature).field "NAME") = true) :
    retains filterCallback feature = true ↔
      (((propertiesOf feature).field "ISO_A2").truthy = true ∧
        (((propertiesOf feature).field "ISO_A2").field "length").isNum 2 = true) ∧
      containsText ((propertiesOf feature).field "ADM0_A3") "PS" = false ∧
      containsText ((propertiesOf feature).field "NAME") "Antarctica" = false ∧
      containsText ((propertiesOf feature).field "NAME") "Disputed" = false := by
  obtain ⟨a, ha, hat⟩ := optionalIncludes_containsText _ "PS" hadm
  obtain ⟨b, hb, hbt⟩ := optionalIncludes_containsText _ "Antarctica" hname
  obtain ⟨c, hc, hct⟩ := optionalIncludes_containsText _ "Disputed" hname
  unfold propertiesOf at ha hb hc hat hbt hct ⊢
  unfold retains filterCallback
  rw [JsVal.get_of_not_nullish feature "properties" hu hn]
  simp only [ha, hb, hc]
  rw [← hat, ← hbt, ← hct]
  cases hA : a.truthy <;> cases hB : b.truthy <;> cases hC : c.truthy <;>
    simp [JsVal.and_truthy, JsVal.truthy_bool]

end WorldDataFetcher

/-- How the two filters relate: on a feature whose `ADM0_A3` and `NAME` are strings or absent,
the filter of `processGeoJSONData` retains the feature if and only if the raw `ISO_A2` is
truthy and has length 2, `ADM0_A3` does not contain `"PS"`, and `NAME` contains neither
`"Antarctica"` nor `"Disputed"`.  Hence a feature retained by the filter of
`getCorrectedWorldData` whose raw `ISO_A2` is not the sentinel is retained by the filter of
`processGeoJSONData` if and only if these three substring tests pass. -/
theorem filterCallback_compared (feature : JsVal) (hu : feature ≠ .undefined)
    (hn : feature ≠ .null)
    (hadm : isTextOrAbsent ((propertiesOf feature).field "ADM0_A3") = true)
    (hname : isTextOrAbsent ((propertiesOf feature).field "NAME") = true) :
    (retains WorldDataFetcher.filterCallback feature = true ↔
      (((propertiesOf feature).field "ISO_A2").truthy = true ∧
        (((propertiesOf feature).field "ISO_A2").field "length").isNum 2 = true) ∧
      containsText ((propertiesOf feature).field "ADM0_A3") "PS" = false ∧
      containsText ((propertiesOf feature).field "NAME") "Antarctica" = false ∧
      containsText ((propertiesOf feature).field "NAME") "Disputed" = false) ∧
    (((propertiesOf feature).field "ISO_A2").isStr "-99" = false →
      retains CorrectedWorldData.sovereignFilter feature = true →
      (retains WorldDataFetcher.filterCallback feature = true ↔
        containsText ((propertiesOf feature).field "ADM0_A3") "PS" = false ∧
        containsText ((propertiesOf feature).field "NAME") "Antarctica" = false ∧
        containsText ((propertiesOf feature).field "NAME") "Disputed" = false)) := by
  have hiff := WorldDataFetcher.retains_filterCallback_iff feature hu hn hadm hname
  refine ⟨hiff, ?_⟩
  intro hraw hkeep
  have hcode := CorrectedWorldData.fixIsoA2Code_not_sentinel
    ((propertiesOf feature).field "ISO_A2")
    (CorrectedWorldData.filterName (propertiesOf feature)) hraw
  have hv := CorrectedWorldData.sovereignFilter_ok feature hu hn _ hcode
  unfold retains at hkeep
  rw [hv] at hkeep
  simp only at hkeep
  obtain ⟨⟨s, hs, hmem⟩, -, -⟩ := (CorrectedWorldData.filter_value_truthy_iff _ _).1 hkeep
  obtain ⟨hne, hlen⟩ := CorrectedWorldData.UN_MEMBER_CODES_valid s hmem
  have hvalid : ((propertiesOf feature).field "ISO_A2").truthy = true ∧
      (((propertiesOf feature).field "ISO_A2").field "length").isNum 2 = true := by
    rw [hs]
    simp [JsVal.truthy, JsVal.field, JsVal.isNum, hne, hlen]
  rw [hiff]
  constructor
  · intro h
    exact h.2
  · intro h
    exact ⟨hvalid, h⟩

set_option maxRecDepth 100000 in
/-- C30: the two sovereignty filters do not agree.  The filter of `processGeoJSONData`, whose
comments say that it keeps sovereign states with an official ISO code and drops dependencies,
retains Greenland with the code `"GL"`, a dependency that the filter of
`getCorrectedWorldData` drops; and it drops France carrying the sentinel code `"-99"`, a
sovereign state that the filter of `getCorrectedWorldData` retains. -/
theorem C30_filters_disagree :
    retains WorldDataFetcher.filterCallback (namedFeature "GL" "Greenland") = true ∧
    retains CorrectedWorldData.sovereignFilter (namedFeature "GL" "Greenland") = false ∧
    retains WorldDataFetcher.filterCallback (namedFeature "-99" "France") = false ∧
    retains CorrectedWorldData.sovereignFilter (namedFeature "-99" "France") = true :=
  ⟨rfl, rfl, rfl, rfl⟩
